import Mathlib

/-! H5Lite: a shallow embedding of `Source/H5Support/H5Lite.h`.

* `guessChunkSize` (the chunk-shape search loop), over `Nat` with explicit
  reduction modulo `2 ^ 64` wherever the source computes in `hsize_t`;
* `writePointerDataset`, `replacePointerDataset` and
  `writePointerDatasetCompressed`, as functions of the values returned by the
  HDF5 calls they make, returning the status together with the sequence of
  calls made;
* `HDFTypeForPrimitive`, `HDFTypeForPrimitiveAsStr` and `StringForHDFType`, over
  the C++ types and the configuration of the platform;
* the attribute operations (`writePointerAttribute`, `writeScalarAttribute`,
  `writeStringAttributes`, `readStringAttribute`, `getAttributeInfo`,
  `readVectorAttribute`), as functions of the values returned by the HDF5 calls;
* the dataset operations (`writePointerDataset`, `readVectorDataset`,
  `readPointerDataset`, `writeStringDataset`, `readStringDataset`,
  `writeVectorOfStringsDataset`, `readVectorOfStringDataset`) over a model of
  the file and of the open identifiers, under the names `OnFile.*`;
* the macro `H5SUPPORT_MUTEX_LOCK` of `H5Support.h`.
-/

namespace H5Lite

/-! # Definitions -/

/-! ## Constants -/

/-- `constexpr size_t k_ChunkBase = 16 * 1024;` -/
def k_ChunkBase : Nat := 16 * 1024

/-- `constexpr size_t k_ChunkMin = 8 * 1024;` -/
def k_ChunkMin : Nat := 8 * 1024

/-- `constexpr size_t k_ChunkMax = 1024 * 1024;` -/
def k_ChunkMax : Nat := 1024 * 1024

/-! ## Conversion of an unsigned integer to `double` -/

/-- Number of low-order binary digits of `n` that do not fit in the 53-bit
significand of a `double`: `n` is halved until it is below `2 ^ 53`.  The first
argument bounds the recursion and is instantiated with `n` itself. -/
def excessBits : Nat → Nat → Nat
  | 0, _ => 0
  | fuel + 1, n => if n < 2 ^ 53 then 0 else excessBits fuel (n / 2) + 1

/-- Value of `static_cast<double>(n)` for an unsigned integer `n`: `n` rounded
to 53 significant binary digits, to nearest, ties to the even significand.  The
result is again a natural number; it equals `n` whenever `n < 2 ^ 53`. -/
def toDouble (n : Nat) : Nat :=
  let e := excessBits n n
  let q := n / 2 ^ e
  let r := n % 2 ^ e
  if 2 * r < 2 ^ e then q * 2 ^ e
  else if 2 ^ e < 2 * r then (q + 1) * 2 ^ e
  else if q % 2 = 0 then q * 2 ^ e
  else (q + 1) * 2 ^ e

/-- Source expression
`static_cast<hsize_t>(std::ceil(static_cast<double>(chunks[i]) / 2.0))`.
Division of a double by two is exact, and so is `ceil`, hence the only rounding
is the one of `toDouble`. -/
def halveExtent (c : Nat) : Nat := (toDouble c + 1) / 2

/-! ## guessChunkSize -/

/-- Source expression
`std::accumulate(chunks.cbegin(), chunks.cend(), static_cast<hsize_t>(1), std::multiplies<hsize_t>())`:
a left fold of multiplication in `hsize_t`, that is modulo `2 ^ 64`. -/
def accumulateProduct (chunks : List Nat) : Nat :=
  chunks.foldl (fun acc c => (acc * c) % 2 ^ 64) 1

/-- `std::clamp(targetSize, k_ChunkMin, k_ChunkMax)`. -/
def clampTarget (targetSize : Nat) : Nat :=
  if targetSize < k_ChunkMin then k_ChunkMin
  else if k_ChunkMax < targetSize then k_ChunkMax
  else targetSize

/-- The `while(!foundChunkSize)` loop of `guessChunkSize`, with the loop
variables `chunks` and `index` as explicit state.  One unit of `fuel` is spent
per iteration; `none` means that the fuel ran out, or that the loop reached
`index % chunksSize` with `chunksSize == 0`.  On exit the final `chunks` and the
final `index` (the number of halving steps executed) are returned.

The second exit test of the source compares
`static_cast<double>(chunkBytes - targetSize) / static_cast<double>(targetSize)`
with `0.5`.  It is evaluated only when `targetSize <= chunkBytes < k_ChunkMax`,
so both operands are integers below `2 ^ 20`, exactly representable, and the
correctly rounded quotient is below `0.5` exactly when
`2 * (chunkBytes - targetSize) < targetSize`. -/
def chunkLoop (targetSize typeSize : Nat) : Nat → List Nat → Nat → Option (List Nat × Nat)
  | 0, _, _ => none
  | fuel + 1, chunks, index =>
    let product := accumulateProduct chunks
    let chunkBytes := (product * typeSize) % 2 ^ 64
    if chunkBytes < targetSize then some (chunks, index)
    else if chunkBytes < k_ChunkMax ∧ 2 * (chunkBytes - targetSize) < targetSize then
      some (chunks, index)
    else if product = 1 then some (chunks, index)
    else if chunks.length = 0 then none
    else
      let i := index % chunks.length
      chunkLoop targetSize typeSize fuel (chunks.set i (halveExtent (chunks.getD i 0))) (index + 1)

/-- Number of binary digits of `n`; the first argument bounds the recursion. -/
def bitLength : Nat → Nat → Nat
  | 0, _ => 0
  | fuel + 1, n => if n = 0 then 0 else bitLength fuel (n / 2) + 1

/-- Fuel handed to `chunkLoop` by `guessChunkSizeRun`: one more than the rank
times the largest number of binary digits of an extent. -/
def loopFuel (dims : List Nat) : Nat :=
  dims.length * dims.foldr (fun d m => max (bitLength d d) m) 0 + 1

/-- Target chunk size in bytes computed by `guessChunkSize` before the loop.
The source computes
`static_cast<hsize_t>(static_cast<double>(k_ChunkBase) * std::pow(2.0, std::log10(static_cast<double>(datasetSize) / (1024.0 * 1024.0))))`
in floating point; that value is the parameter `scaledTarget`, a function of
`datasetSize`, and only the integer `std::clamp` that follows is interpreted. -/
def targetSizeOf (scaledTarget : Nat → Nat) (dims : List Nat) (typeSize : Nat) : Nat :=
  let product := accumulateProduct dims
  let datasetSize := (product * typeSize) % 2 ^ 64
  clampTarget (scaledTarget datasetSize)

/-- `guessChunkSize(dims, typeSize)` together with the final value of `index`. -/
def guessChunkSizeRun (scaledTarget : Nat → Nat) (dims : List Nat) (typeSize : Nat) :
    Option (List Nat × Nat) :=
  chunkLoop (targetSizeOf scaledTarget dims typeSize) typeSize (loopFuel dims) dims 0

/-- `std::vector<hsize_t> guessChunkSize(const std::vector<hsize_t>& dims, size_t typeSize)`. -/
def guessChunkSize (scaledTarget : Nat → Nat) (dims : List Nat) (typeSize : Nat) :
    Option (List Nat) :=
  (guessChunkSizeRun scaledTarget dims typeSize).map Prod.fst

/-! ## Notions used to state the properties of guessChunkSize -/

/-- The three exit tests of the loop body, taken together. -/
def loopExits (targetSize typeSize : Nat) (chunks : List Nat) : Prop :=
  (accumulateProduct chunks * typeSize) % 2 ^ 64 < targetSize ∨
    ((accumulateProduct chunks * typeSize) % 2 ^ 64 < k_ChunkMax ∧
      2 * ((accumulateProduct chunks * typeSize) % 2 ^ 64 - targetSize) < targetSize) ∨
    accumulateProduct chunks = 1

/-- The assignment `chunks[index % chunksSize] = ceil(chunks[index % chunksSize] / 2.0)`. -/
def halveAt (chunks : List Nat) (index : Nat) : List Nat :=
  chunks.set (index % chunks.length) (halveExtent (chunks.getD (index % chunks.length) 0))

/-- The list `chunks` after `k` executions of the halving step, the first one
at round-robin position `index`. -/
def iterHalve : Nat → List Nat → Nat → List Nat
  | 0, chunks, _ => chunks
  | k + 1, chunks, index => iterHalve k (halveAt chunks index) (index + 1)

/-- Largest `ceil(log2(extent))` over the extents of a shape. -/
def maxCeilLog2 (dims : List Nat) : Nat :=
  dims.foldr (fun d m => max (Nat.clog 2 d) m) 0

/-- Sum of `ceil(log2(extent))` over the extents of a shape. -/
def sumCeilLog2 (dims : List Nat) : Nat :=
  (dims.map (Nat.clog 2)).sum

/-! ## Pointer-dataset writers -/

/-- The HDF5 calls made by the writers, and the two error-handler macros of
`H5Macros.h`. -/
inductive LibCall
  | H5Screate_simple
  | H5Pcreate
  | H5Pset_chunk
  | H5Pset_deflate
  | H5Dopen
  | H5Dcreate
  | H5Dwrite
  | H5Dclose
  | H5Pclose
  | H5Sclose
  | HDF_ERROR_HANDLER_OFF
  | HDF_ERROR_HANDLER_ON
  deriving DecidableEq

/-- The value each HDF5 call returns during one invocation of a writer (each
call is made at most once per invocation).  `H5Screate_simple`, `H5Pcreate`,
`H5Dopen` and `H5Dcreate` return an `hid_t` (`int64_t`), the others an `herr_t`
(`int32_t`); a negative value is a failure. -/
structure LibOutcomes where
  H5Screate_simple : Int
  H5Pcreate : Int
  H5Pset_chunk : Int
  H5Pset_deflate : Int
  H5Dopen : Int
  H5Dcreate : Int
  H5Dwrite : Int
  H5Dclose : Int
  H5Pclose : Int
  H5Sclose : Int

/-- The calls made by one invocation, in order, each with the value it
returned (0 for the two macros). -/
abbrev CallLog := List (LibCall × Int)

/-- `static_cast<herr_t>(x)` for an `hid_t` value `x`: reduction to the signed
32-bit range (`using hid_t = int64_t; using herr_t = int32_t;` in
`H5SupportTypeDefs.h`). -/
def toHerr (x : Int) : Int := (x + 2 ^ 31) % 2 ^ 32 - 2 ^ 31

/-- `herr_t writePointerDataset(locationID, datasetName, rank, dims, data)`.
`dataIsNull` is `nullptr == data`, `dataType` the value of
`HDFTypeForPrimitive(data[0])`.  The result is the returned status and the log
of the calls made. -/
def writePointerDataset (dataIsNull : Bool) (dataType : Int) (o : LibOutcomes) :
    Int × CallLog :=
  if dataIsNull then (-2, [])
  else if dataType = -1 then (-1, [])
  else
    let dataspaceID := o.H5Screate_simple
    let log1 : CallLog := [(LibCall.H5Screate_simple, dataspaceID)]
    if dataspaceID < 0 then (toHerr dataspaceID, log1)
    else
      let datasetID := o.H5Dcreate
      let log2 : CallLog := log1 ++ [(LibCall.H5Dcreate, datasetID)]
      let body : Int × CallLog :=
        if 0 ≤ datasetID then
          let returnError1 : Int := if o.H5Dwrite < 0 then o.H5Dwrite else 0
          let returnError2 : Int := if o.H5Dclose < 0 then o.H5Dclose else returnError1
          (returnError2, log2 ++ [(LibCall.H5Dwrite, o.H5Dwrite), (LibCall.H5Dclose, o.H5Dclose)])
        else (toHerr datasetID, log2)
      let returnError3 : Int := if o.H5Sclose < 0 then o.H5Sclose else body.1
      (returnError3, body.2 ++ [(LibCall.H5Sclose, o.H5Sclose)])

/-- `herr_t replacePointerDataset(locationID, datasetName, rank, dims, data)`. -/
def replacePointerDataset (dataIsNull : Bool) (dataType : Int) (o : LibOutcomes) :
    Int × CallLog :=
  if dataIsNull then (-2, [])
  else if dataType = -1 then (-1, [])
  else
    let dataspaceID := o.H5Screate_simple
    let log1 : CallLog := [(LibCall.H5Screate_simple, dataspaceID)]
    if dataspaceID < 0 then (toHerr dataspaceID, log1)
    else
      let log2 : CallLog := log1 ++ [(LibCall.HDF_ERROR_HANDLER_OFF, 0),
        (LibCall.H5Dopen, o.H5Dopen), (LibCall.HDF_ERROR_HANDLER_ON, 0)]
      let opened : Int × CallLog :=
        if o.H5Dopen < 0 then (o.H5Dcreate, log2 ++ [(LibCall.H5Dcreate, o.H5Dcreate)])
        else (o.H5Dopen, log2)
      let datasetID := opened.1
      let body : Int × CallLog :=
        if 0 ≤ datasetID then
          let returnError1 : Int := if o.H5Dwrite < 0 then o.H5Dwrite else 0
          let returnError2 : Int := if o.H5Dclose < 0 then o.H5Dclose else returnError1
          (returnError2,
            opened.2 ++ [(LibCall.H5Dwrite, o.H5Dwrite), (LibCall.H5Dclose, o.H5Dclose)])
        else (toHerr datasetID, opened.2)
      let returnError3 : Int := if o.H5Sclose < 0 then o.H5Sclose else body.1
      (returnError3, body.2 ++ [(LibCall.H5Sclose, o.H5Sclose)])

/-- `herr_t writePointerDatasetCompressed(locationID, datasetName, rank, dims, data, cRank, cDims, compressionLevel)`. -/
def writePointerDatasetCompressed (dataIsNull : Bool) (dataType : Int) (o : LibOutcomes) :
    Int × CallLog :=
  if dataIsNull then (-100, [])
  else if dataType = -1 then (-101, [])
  else
    let dataspaceID := o.H5Screate_simple
    let log1 : CallLog := [(LibCall.H5Screate_simple, dataspaceID)]
    if dataspaceID < 0 then (-102, log1)
    else
      let propertListID := o.H5Pcreate
      let log2 : CallLog := log1 ++ [(LibCall.H5Pcreate, propertListID)]
      if propertListID < 0 then
        let returnError1 : Int := if o.H5Sclose < 0 then -104 else -103
        (returnError1, log2 ++ [(LibCall.H5Sclose, o.H5Sclose)])
      else
        let log3 : CallLog := log2 ++ [(LibCall.H5Pset_chunk, o.H5Pset_chunk)]
        if o.H5Pset_chunk < 0 then
          let returnError1 : Int := if o.H5Pclose < 0 then -105 else 0
          let returnError2 : Int := if o.H5Sclose < 0 then -106 else returnError1
          (returnError2, log3 ++ [(LibCall.H5Pclose, o.H5Pclose), (LibCall.H5Sclose, o.H5Sclose)])
        else
          let log4 : CallLog := log3 ++ [(LibCall.H5Pset_deflate, o.H5Pset_deflate)]
          if o.H5Pset_deflate < 0 then
            let returnError1 : Int := if o.H5Pclose < 0 then -107 else 0
            let returnError2 : Int := if o.H5Sclose < 0 then -108 else returnError1
            (returnError2,
              log4 ++ [(LibCall.H5Pclose, o.H5Pclose), (LibCall.H5Sclose, o.H5Sclose)])
          else
            let datasetID := o.H5Dcreate
            let log5 : CallLog := log4 ++ [(LibCall.H5Dcreate, datasetID)]
            let body : Int × CallLog :=
              if 0 ≤ datasetID then
                let returnError1 : Int := if o.H5Dwrite < 0 then -108 else 0
                let returnError2 : Int := if o.H5Dclose < 0 then -110 else returnError1
                (returnError2,
                  log5 ++ [(LibCall.H5Dwrite, o.H5Dwrite), (LibCall.H5Dclose, o.H5Dclose)])
              else (-111, log5)
            let returnError3 : Int := if o.H5Pclose < 0 then -112 else body.1
            let returnError4 : Int := if o.H5Sclose < 0 then -113 else returnError3
            (returnError4,
              body.2 ++ [(LibCall.H5Pclose, o.H5Pclose), (LibCall.H5Sclose, o.H5Sclose)])

/-! ## Notions used to state the properties of the writers -/

/-- Status that a logged call contributes when it fails: the returned value,
narrowed to `herr_t` for the calls that return an identifier. -/
def stepStatus (e : LibCall × Int) : Int :=
  match e.1 with
  | LibCall.H5Screate_simple => toHerr e.2
  | LibCall.H5Pcreate => toHerr e.2
  | LibCall.H5Dopen => toHerr e.2
  | LibCall.H5Dcreate => toHerr e.2
  | _ => e.2

/-- Statuses of the logged calls that failed, in the order of the calls. -/
def failedStatuses (log : CallLog) : List Int :=
  (log.filter (fun e => decide (e.2 < 0))).map stepStatus

/-- A resource was opened: the opening call is in the log with a non-negative
identifier. -/
def openedBy (call : LibCall) (log : CallLog) : Prop :=
  ∃ v : Int, 0 ≤ v ∧ (call, v) ∈ log

/-- Number of times a call occurs in the log. -/
def callCount (call : LibCall) (log : CallLog) : Nat :=
  (log.map Prod.fst).count call

/-- Outcomes in which every call succeeds. -/
def outcomesAllSucceed : LibOutcomes :=
  LibOutcomes.mk 1 2 0 0 3 3 0 0 0 0

/-- Outcomes in which the data write fails with -3, the dataset close succeeds
and the dataspace close fails with -7. -/
def outcomesWriteAndSpaceCloseFail : LibOutcomes :=
  { outcomesAllSucceed with H5Dwrite := -3, H5Sclose := -7 }

/-- Outcomes in which `H5Pset_deflate` fails with -1 and every other call
succeeds. -/
def outcomesDeflateFails : LibOutcomes :=
  { outcomesAllSucceed with H5Pset_deflate := -1 }

/-- Outcomes in which `H5Pset_chunk` fails with -1 and every other call
succeeds. -/
def outcomesChunkFails : LibOutcomes :=
  { outcomesAllSucceed with H5Pset_chunk := -1 }

/-! ## HDFTypeForPrimitive -/

/-- The C++ types at which `HDFTypeForPrimitive<T>` is instantiated.  A typedef
name is not a type of its own (`std::is_same` sees the type it names), and
`signed short`, `signed int`, `signed long int`, `signed long long int` are the
types `short`, `int`, `long int`, `long long int`. -/
inductive CType
  | float
  | double
  | bool
  | char
  | signedChar
  | unsignedChar
  | short
  | unsignedShort
  | int
  | unsignedInt
  | long
  | unsignedLong
  | longLong
  | unsignedLongLong
  | other
  deriving DecidableEq

/-- The storage type tags that `HDFTypeForPrimitive` returns; `unknown` is the
returned value `-1`. -/
inductive HDFType
  | H5T_NATIVE_FLOAT
  | H5T_NATIVE_DOUBLE
  | H5T_NATIVE_INT8
  | H5T_NATIVE_UINT8
  | H5T_NATIVE_INT16
  | H5T_NATIVE_UINT16
  | H5T_NATIVE_INT32
  | H5T_NATIVE_UINT32
  | H5T_NATIVE_INT64
  | H5T_NATIVE_UINT64
  | unknown
  deriving DecidableEq

/-- What the build and the platform fix for `HDFTypeForPrimitive`: the values of
the configuration macros tested by `#if`, as the preprocessor sees them (a macro
that is not defined counts as 0; neither `H5Lite.h` nor `H5Support.h` defines
any of the four), and the types that the 32- and 64-bit typedef names stand
for. -/
structure Platform where
  CMP_TYPE_CHAR_IS_SIGNED : Int
  CMP_SIZEOF_INT : Int
  CMP_SIZEOF_LONG : Int
  CMP_SIZEOF_LONG_LONG : Int
  int32_t : CType
  uint32_t : CType
  int64_t : CType
  uint64_t : CType

/-- `int8_t` names `signed char`. -/
def Platform.int8_t (_ : Platform) : CType := CType.signedChar

/-- `uint8_t` names `unsigned char`. -/
def Platform.uint8_t (_ : Platform) : CType := CType.unsignedChar

/-- `int16_t` names `short`. -/
def Platform.int16_t (_ : Platform) : CType := CType.short

/-- `uint16_t` names `unsigned short`. -/
def Platform.uint16_t (_ : Platform) : CType := CType.unsignedShort

/-- `template <typename T> hid_t HDFTypeForPrimitive(T value)`: the chain of
`if(std::is_same<T, X>::value) return ...;` in source order, with the `#if`
blocks guarded by the macro values of the platform. -/
def HDFTypeForPrimitive (p : Platform) (T : CType) : HDFType :=
  if T = CType.float then HDFType.H5T_NATIVE_FLOAT
  else if T = CType.double then HDFType.H5T_NATIVE_DOUBLE
  else if T = p.int8_t then HDFType.H5T_NATIVE_INT8
  else if T = p.uint8_t then HDFType.H5T_NATIVE_UINT8
  else if p.CMP_TYPE_CHAR_IS_SIGNED ≠ 0 ∧ T = CType.char then HDFType.H5T_NATIVE_INT8
  else if p.CMP_TYPE_CHAR_IS_SIGNED = 0 ∧ T = CType.char then HDFType.H5T_NATIVE_UINT8
  else if T = CType.signedChar then HDFType.H5T_NATIVE_INT8
  else if T = CType.unsignedChar then HDFType.H5T_NATIVE_UINT8
  else if T = p.int16_t then HDFType.H5T_NATIVE_INT16
  else if T = CType.short then HDFType.H5T_NATIVE_INT16
  else if T = p.uint16_t then HDFType.H5T_NATIVE_UINT16
  else if T = CType.unsignedShort then HDFType.H5T_NATIVE_UINT16
  else if T = p.int32_t then HDFType.H5T_NATIVE_INT32
  else if T = p.uint32_t then HDFType.H5T_NATIVE_UINT32
  else if p.CMP_SIZEOF_INT = 4 ∧ T = CType.int then HDFType.H5T_NATIVE_INT32
  else if p.CMP_SIZEOF_INT = 4 ∧ T = CType.unsignedInt then HDFType.H5T_NATIVE_UINT32
  else if p.CMP_SIZEOF_LONG = 4 ∧ T = CType.long then HDFType.H5T_NATIVE_INT32
  else if p.CMP_SIZEOF_LONG = 4 ∧ T = CType.unsignedLong then HDFType.H5T_NATIVE_UINT32
  else if p.CMP_SIZEOF_LONG ≠ 4 ∧ p.CMP_SIZEOF_LONG = 8 ∧ T = CType.long then
    HDFType.H5T_NATIVE_INT64
  else if p.CMP_SIZEOF_LONG ≠ 4 ∧ p.CMP_SIZEOF_LONG = 8 ∧ T = CType.unsignedLong then
    HDFType.H5T_NATIVE_UINT64
  else if p.CMP_SIZEOF_LONG_LONG = 8 ∧ T = CType.longLong then HDFType.H5T_NATIVE_INT64
  else if p.CMP_SIZEOF_LONG_LONG = 8 ∧ T = CType.unsignedLongLong then
    HDFType.H5T_NATIVE_UINT64
  else if T = p.int64_t then HDFType.H5T_NATIVE_INT64
  else if T = p.uint64_t then HDFType.H5T_NATIVE_UINT64
  else if T = CType.bool then HDFType.H5T_NATIVE_UINT8
  else HDFType.unknown

/-! ## writeStringAttributes -/

/-- The `for` loop of `writeStringAttributes` over the pairs that remain.
`outcome i` is the status returned by the `i`-th call of `writeStringAttribute`
made by this invocation, `index` the number of calls made so far and `error` the
local variable of the source.  The result is the returned status and the pairs
on which `writeStringAttribute` was called, in call order. -/
def writeStringAttributesLoop (outcome : Nat → Int) :
    List (String × String) → Nat → Int → Int × List (String × String)
  | [], _, error => (error, [])
  | pair :: rest, index, _ =>
    let error := outcome index
    if error < 0 then (error, [pair])
    else
      let r := writeStringAttributesLoop outcome rest (index + 1) error
      (r.1, pair :: r.2)

/-- `herr_t writeStringAttributes(locationID, objectName, attributes)`; the map
is given as the list of its pairs in iteration order. -/
def writeStringAttributes (outcome : Nat → Int) (attributes : List (String × String)) :
    Int × List (String × String) :=
  writeStringAttributesLoop outcome attributes 0 0

/-! ## Attribute operations -/

/-- The member `objectInfo.type` that `H5Oget_info_by_name` sets. -/
inductive ObjectType
  | H5O_TYPE_DATASET
  | H5O_TYPE_GROUP
  | other
  deriving DecidableEq

/-- The HDF5 calls made by the attribute operations, and the two error-handler
macros of `H5Macros.h`. -/
inductive AttrCall
  | H5Oget_info_by_name
  | H5Dopen
  | H5Gopen
  | H5Dclose
  | H5Gclose
  | H5Screate_simple
  | H5Sclose
  | H5Aiterate
  | H5Adelete
  | H5Acreate
  | H5Awrite
  | H5Aopen_by_name
  | H5Aget_type
  | H5Tis_variable_str
  | H5Tclose
  | H5Aget_storage_size
  | H5Aread
  | H5Aclose
  | HDF_ERROR_HANDLER_OFF
  | HDF_ERROR_HANDLER_ON
  deriving DecidableEq

/-- The calls made by one invocation of an attribute operation, in order, each
with the value it returned (0 for the two macros). -/
abbrev AttrLog := List (AttrCall × Int)

/-- `hid_t openId(locationID, objectName, objectType)`, as a function of the
values that `H5Dopen` and `H5Gopen` return. -/
def openId (objectType : ObjectType) (dopen gopen : Int) : Int × AttrLog :=
  match objectType with
  | ObjectType.H5O_TYPE_DATASET =>
    if dopen < 0 then (-1, [(AttrCall.H5Dopen, dopen)]) else (dopen, [(AttrCall.H5Dopen, dopen)])
  | ObjectType.H5O_TYPE_GROUP =>
    if gopen < 0 then (-1, [(AttrCall.H5Gopen, gopen)]) else (gopen, [(AttrCall.H5Gopen, gopen)])
  | ObjectType.other => (-1, [])

/-- `herr_t closeId(objectID, objectType)`, as a function of the values that
`H5Dclose` and `H5Gclose` return. -/
def closeId (objectType : ObjectType) (dclose gclose : Int) : Int × AttrLog :=
  match objectType with
  | ObjectType.H5O_TYPE_DATASET =>
    if dclose < 0 then (-1, [(AttrCall.H5Dclose, dclose)]) else (1, [(AttrCall.H5Dclose, dclose)])
  | ObjectType.H5O_TYPE_GROUP =>
    if gclose < 0 then (-1, [(AttrCall.H5Gclose, gclose)]) else (1, [(AttrCall.H5Gclose, gclose)])
  | ObjectType.other => (-1, [])

/-- `herr_t find_attr(locationID, name, info, op_data)`: 1 when `name` is the
attribute name looked for, 0 otherwise. -/
def find_attr (name attributeName : String) : Int :=
  if name = attributeName then 1 else 0

/-- `H5Aiterate` over the names of the attributes of an object: the operator is
applied to the names in turn, and iteration stops with the first non-zero value
it returns; 0 when every call returned 0. -/
def H5Aiterate (op : String → Int) : List String → Int
  | [] => 0
  | name :: rest => if op name ≠ 0 then op name else H5Aiterate op rest

/-- `herr_t findAttribute(locationID, attributeName)`.  `attributes` holds the
names of the attributes of the object, or `none` when `H5Aiterate` fails. -/
def findAttribute (attributes : Option (List String)) (attributeName : String) : Int :=
  match attributes with
  | none => -1
  | some names => H5Aiterate (fun name => find_attr name attributeName) names

/-- Modelled from the spec: `closeObject(handle, kind) -> status` releases a
previously opened handle, and a failing status is reported.  The macros
`CloseH5A`, `CloseH5D`, `CloseH5S` and `CloseH5T` (handle, `error`,
`returnError`) are defined in `H5Macros.h`, which is not among the sources at
hand.  Their effect on `returnError` is the one of the expansion that
`writeStringDataset` keeps as a comment under each of its uses:
`error = H5Dclose(datasetID); if (error < 0) { returnError = error; }`.
The value is `returnError` after the macro, given the status of the close. -/
def closeStatus (closeResult returnError : Int) : Int :=
  if closeResult < 0 then closeResult else returnError

/-- The values returned by the calls of `writePointerAttribute` and
`writeScalarAttribute` during one invocation, the kind of the host object, and
the attribute names that `H5Aiterate` enumerates (`none` when it fails). -/
structure AttrWriteOutcomes where
  H5Oget_info_by_name : Int
  objectType : ObjectType
  H5Dopen : Int
  H5Gopen : Int
  H5Screate_simple : Int
  attributes : Option (List String)
  H5Adelete : Int
  H5Acreate : Int
  H5Awrite : Int
  H5Aclose : Int
  H5Sclose : Int
  H5Dclose : Int
  H5Gclose : Int

/-- The part of `writePointerAttribute` and of `writeScalarAttribute` from
`H5Screate_simple` on, which the two functions have in common word for word,
once the host object is open.  `error` is the value of the local variable
`error` at that point (`returnError` is 0 there), `log` holds the calls made
before. -/
def writeAttributeOnObject (attributeName : String) (o : AttrWriteOutcomes) (error : Int)
    (log : AttrLog) : Int × AttrLog :=
  let dataspaceID := o.H5Screate_simple
  let log2 : AttrLog := log ++ [(AttrCall.H5Screate_simple, dataspaceID)]
  let body : Int × AttrLog :=
    if 0 ≤ dataspaceID then
      let hasAttribute := findAttribute o.attributes attributeName
      let log3 : AttrLog := log2 ++ [(AttrCall.H5Aiterate, hasAttribute)]
      -- (error, returnError, log) after the deletion step
      let deleted : Int × Int × AttrLog :=
        if hasAttribute = 1 then
          (o.H5Adelete, (if o.H5Adelete < 0 then o.H5Adelete else 0),
            log3 ++ [(AttrCall.H5Adelete, o.H5Adelete)])
        else (error, 0, log3)
      let created : Int × AttrLog :=
        if 0 ≤ deleted.1 then
          let attributeID := o.H5Acreate
          let log4 : AttrLog := deleted.2.2 ++ [(AttrCall.H5Acreate, attributeID)]
          let written : Int × AttrLog :=
            if 0 ≤ attributeID then
              ((if o.H5Awrite < 0 then o.H5Awrite else deleted.2.1),
                log4 ++ [(AttrCall.H5Awrite, o.H5Awrite)])
            else (deleted.2.1, log4)
          ((if o.H5Aclose < 0 then o.H5Aclose else written.1),
            written.2 ++ [(AttrCall.H5Aclose, o.H5Aclose)])
        else (deleted.2.1, deleted.2.2)
      ((if o.H5Sclose < 0 then o.H5Sclose else created.1),
        created.2 ++ [(AttrCall.H5Sclose, o.H5Sclose)])
    else (toHerr dataspaceID, log2)
  let closed := closeId o.objectType o.H5Dclose o.H5Gclose
  ((if closed.1 < 0 then closed.1 else body.1), body.2 ++ closed.2)

/-- `herr_t writePointerAttribute(locationID, objectName, attributeName, rank, dims, data)`;
`dataType` is the value of `HDFTypeForPrimitive(test)`. -/
def writePointerAttribute (dataType : Int) (attributeName : String) (o : AttrWriteOutcomes) :
    Int × AttrLog :=
  if dataType = -1 then (-1, [])
  else
    let log0 : AttrLog := [(AttrCall.H5Oget_info_by_name, o.H5Oget_info_by_name)]
    if o.H5Oget_info_by_name < 0 then (-1, log0)
    else
      let opened := openId o.objectType o.H5Dopen o.H5Gopen
      let objectID := opened.1
      if objectID < 0 then (-1, log0 ++ opened.2)
      else writeAttributeOnObject attributeName o 0 (log0 ++ opened.2)

/-- `herr_t writeScalarAttribute(locationID, objectName, attributeName, data)`;
`dataType` is the value of `HDFTypeForPrimitive(data)`. -/
def writeScalarAttribute (dataType : Int) (attributeName : String) (o : AttrWriteOutcomes) :
    Int × AttrLog :=
  if dataType = -1 then (-1, [])
  else
    let error := o.H5Oget_info_by_name
    let log0 : AttrLog := [(AttrCall.H5Oget_info_by_name, error)]
    if error < 0 then (error, log0)
    else
      let opened := openId o.objectType o.H5Dopen o.H5Gopen
      let objectID := opened.1
      if objectID < 0 then (toHerr objectID, log0 ++ opened.2)
      else writeAttributeOnObject attributeName o error (log0 ++ opened.2)

/-- The values returned by the calls of `readStringAttribute` during one
invocation.  `H5Aget_type` and `H5Tclose` are called twice; `attributeBytes` are
the bytes that `H5Aread` stores in `attributeOutput`. -/
structure AttrReadOutcomes where
  H5Oget_info_by_name : Int
  objectType : ObjectType
  H5Dopen : Int
  H5Gopen : Int
  H5Aopen_by_name : Int
  H5Aget_type_first : Int
  H5Tis_variable_str : Int
  H5Tclose_first : Int
  H5Aget_storage_size : Nat
  H5Aget_type_second : Int
  H5Aread : Int
  attributeBytes : List Char
  H5Tclose_second : Int
  H5Aclose : Int
  H5Dclose : Int
  H5Gclose : Int

/-- The character `0x00`. -/
def NUL : Char := Char.ofNat 0

/-- `herr_t readStringAttribute(locationID, objectName, attributeName, std::string& data)`.
The result is the returned status, the string `data` after the call and the log
of the calls made; `none` stands for the out-of-bounds access
`attributeOutput[size - 1]` with `size == 0`.  `dataBefore` is the content of
`data` before the call. -/
def readStringAttribute (o : AttrReadOutcomes) (dataBefore : List Char) :
    Option (Int × List Char × AttrLog) :=
  -- data.clear();
  let data : List Char := (dataBefore.take 0)
  let log0 : AttrLog := [(AttrCall.HDF_ERROR_HANDLER_OFF, 0),
    (AttrCall.H5Oget_info_by_name, o.H5Oget_info_by_name)]
  let error := o.H5Oget_info_by_name
  if error < 0 then some (error, data, log0)
  else
    let opened := openId o.objectType o.H5Dopen o.H5Gopen
    let objectID := opened.1
    let log1 : AttrLog := log0 ++ opened.2
    if 0 ≤ objectID then
      let attributeID := o.H5Aopen_by_name
      let isVariableString := o.H5Tis_variable_str
      let log2 : AttrLog := log1 ++ [(AttrCall.H5Aopen_by_name, attributeID),
        (AttrCall.H5Aget_type, o.H5Aget_type_first),
        (AttrCall.H5Tis_variable_str, isVariableString),
        (AttrCall.H5Tclose, o.H5Tclose_first)]
      if isVariableString = 1 then
        some (closeStatus o.H5Aclose (-1), [], log2 ++ [(AttrCall.H5Aclose, o.H5Aclose)])
      else
        let body : Option (Int × List Char × AttrLog) :=
          if 0 ≤ attributeID then
            let size := o.H5Aget_storage_size
            let attributeType := o.H5Aget_type_second
            let log3 : AttrLog := log2 ++ [(AttrCall.H5Aget_storage_size, (size : Int)),
              (AttrCall.H5Aget_type, attributeType)]
            let typed : Option (Int × List Char × AttrLog) :=
              if 0 ≤ attributeType then
                let log4 : AttrLog := log3 ++ [(AttrCall.H5Aread, o.H5Aread)]
                let attributeOutput : List Char :=
                  (o.attributeBytes ++ List.replicate size NUL).take size
                let read : Option (Int × List Char) :=
                  if o.H5Aread < 0 then some (o.H5Aread, data)
                  else if size = 0 then none
                  else if attributeOutput.getD (size - 1) NUL = NUL then
                    some (0, data ++ attributeOutput.take (size - 1))
                  else some (0, data ++ attributeOutput.take size)
                read.map (fun r => (closeStatus o.H5Tclose_second r.1, r.2,
                  log4 ++ [(AttrCall.H5Tclose, o.H5Tclose_second)]))
              else some (0, data, log3)
            typed.map (fun r => (closeStatus o.H5Aclose r.1, r.2.1,
              r.2.2 ++ [(AttrCall.H5Aclose, o.H5Aclose)]))
          else some (0, data, log2)
        let closed := closeId o.objectType o.H5Dclose o.H5Gclose
        body.map (fun r => ((if closed.1 < 0 then closed.1 else r.1), r.2.1,
          r.2.2 ++ closed.2 ++ [(AttrCall.HDF_ERROR_HANDLER_ON, 0)]))
    else some (0, data, log1 ++ [(AttrCall.HDF_ERROR_HANDLER_ON, 0)])

/-- Outcomes of `readStringAttribute` when the host object is a dataset that
opens, the named attribute does not exist, and every close succeeds: the calls
made on the invalid attribute identifier fail. -/
def outcomesAttributeMissing : AttrReadOutcomes :=
  AttrReadOutcomes.mk 0 ObjectType.H5O_TYPE_DATASET 5 (-1) (-1) (-1) (-1) (-1) 0 (-1) (-1) [] (-1)
    (-1) 0 0

/-- What C18 says of one run `r` of an attribute writer: `H5Adelete` is called
exactly when the probe returned 1; unless that deletion failed, `H5Acreate` is
called (after the deletion, when there was one) and `H5Awrite` is called when
the creation succeeded; when the deletion failed, neither `H5Acreate` nor
`H5Awrite` is called and the status is negative. -/
def DeletesThenRecreates (attributeName : String) (o : AttrWriteOutcomes)
    (r : Int × AttrLog) : Prop :=
  (AttrCall.H5Adelete ∈ r.2.map Prod.fst ↔ findAttribute o.attributes attributeName = 1) ∧
  (¬ (findAttribute o.attributes attributeName = 1 ∧ o.H5Adelete < 0) →
    AttrCall.H5Acreate ∈ r.2.map Prod.fst ∧
    (0 ≤ o.H5Acreate → AttrCall.H5Awrite ∈ r.2.map Prod.fst) ∧
    (findAttribute o.attributes attributeName = 1 →
      List.Sublist [AttrCall.H5Adelete, AttrCall.H5Acreate] (r.2.map Prod.fst))) ∧
  (findAttribute o.attributes attributeName = 1 → o.H5Adelete < 0 →
    AttrCall.H5Acreate ∉ r.2.map Prod.fst ∧ AttrCall.H5Awrite ∉ r.2.map Prod.fst ∧ r.1 < 0)

/-- Outcomes of an attribute writer on a dataset that has the attributes `a`
and `b`, when deleting fails with -4 and every other call succeeds. -/
def outcomesDeleteFails : AttrWriteOutcomes :=
  AttrWriteOutcomes.mk 0 ObjectType.H5O_TYPE_DATASET 5 (-1) 6 (some ["a", "b"]) (-4) 7 0 0 0 0 0

/-- Outcomes of `readStringAttribute` on a dataset whose attribute is a
variable-length string, every call succeeding. -/
def outcomesVariableLengthAttribute : AttrReadOutcomes :=
  AttrReadOutcomes.mk 0 ObjectType.H5O_TYPE_DATASET 5 (-1) 6 7 1 0 8 7 0 [] 0 0 0 0

/-! ## A model of the HDF5 file and of the library calls on datasets

The HDF5 library is not part of H5Lite.  The dataset operations of H5Lite are
embedded over the following model of what the library keeps: the datasets of
the file, the open identifiers, the state of automatic error reporting.  A call
fails (returns a negative value) for the reasons the model knows: an identifier
that is not open or of the wrong kind, a name in use on create, a name not in
use on open, a transfer between a numeric and a string type.  Limits of the
library and of the machine (largest rank, memory, disk) are not modelled.  A
call whose effect the model does not cover (a conversion between two different
numeric types or two different string types) sets `notModelled`; a transfer past
the end of the buffer of the caller sets `undefinedBehaviour`. -/

/-- The type of the elements of a dataset, or of a buffer in memory. -/
inductive StoredType
  | native (typeID : Int)
  | fixedString (size : Nat)
  | variableString
  deriving DecidableEq

/-- A dataspace: `H5S_SCALAR`, or a simple dataspace with its extents. -/
inductive Dataspace
  | scalar
  | simple (dims : List Nat)
  deriving DecidableEq

/-- Number of elements of a dataspace. -/
def Dataspace.count : Dataspace → Nat
  | Dataspace.scalar => 1
  | Dataspace.simple dims => dims.prod

/-- The elements held by a dataset: numbers for a native type, the bytes of a
fixed-length string, the records of a variable-length string dataset (`none`
for a record never written, read back as a null pointer). -/
inductive Content (α : Type)
  | numbers (values : List α)
  | text (bytes : List Char)
  | strings (records : List (Option (List Char)))

/-- A dataset of the file.  `allocated` tells whether storage has been
allocated, which happens at the first write. -/
structure Dataset (α : Type) where
  type : StoredType
  space : Dataspace
  allocated : Bool
  content : Content α

/-- What an open identifier stands for.  A dataspace identifier carries its
selection: everything (`none`), or the single element at an offset of a
one-dimensional dataspace. -/
inductive Handle
  | dataspace (space : Dataspace) (selection : Option Nat)
  | datatype (type : StoredType)
  | dataset (name : String)

/-- The state of the library and of the file. -/
structure H5State (α : Type) where
  datasets : String → Option (Dataset α)
  handles : Int → Option Handle
  nextId : Int
  errorReporting : Bool
  undefinedBehaviour : Bool
  notModelled : Bool

/-- A new identifier for `h`. -/
def H5State.alloc {α : Type} (s : H5State α) (h : Handle) : Int × H5State α :=
  (s.nextId,
    { s with handles := fun k => if k = s.nextId then some h else s.handles k,
             nextId := s.nextId + 1 })

/-- The identifier `id` is closed. -/
def H5State.release {α : Type} (s : H5State α) (id : Int) : H5State α :=
  { s with handles := fun k => if k = id then none else s.handles k }

/-- `H5Screate_simple(rank, dims, nullptr)`. -/
def H5Screate_simple {α : Type} (s : H5State α) (dims : List Nat) : Int × H5State α :=
  s.alloc (Handle.dataspace (Dataspace.simple dims) none)

/-- `H5Screate(H5S_SCALAR)`. -/
def H5Screate_scalar {α : Type} (s : H5State α) : Int × H5State α :=
  s.alloc (Handle.dataspace Dataspace.scalar none)

/-- `H5Sselect_hyperslab(space, H5S_SELECT_SET, offset, nullptr, count, nullptr)`
with `count = {1}`: the single element at `offset` is selected. -/
def H5Sselect_hyperslab {α : Type} (s : H5State α) (space : Int) (offset : Nat) :
    Int × H5State α :=
  match s.handles space with
  | some (Handle.dataspace sp _) =>
    (0, { s with handles := fun k =>
      if k = space then some (Handle.dataspace sp (some offset)) else s.handles k })
  | _ => (-1, s)

/-- `H5Sget_simple_extent_ndims(space)`. -/
def H5Sget_simple_extent_ndims {α : Type} (s : H5State α) (space : Int) : Int :=
  match s.handles space with
  | some (Handle.dataspace Dataspace.scalar _) => 0
  | some (Handle.dataspace (Dataspace.simple dims) _) => dims.length
  | _ => -1

/-- `H5Sget_simple_extent_dims(space, dims, nullptr)`: the returned rank and the
extents stored in `dims`. -/
def H5Sget_simple_extent_dims {α : Type} (s : H5State α) (space : Int) : Int × List Nat :=
  match s.handles space with
  | some (Handle.dataspace Dataspace.scalar _) => (0, [])
  | some (Handle.dataspace (Dataspace.simple dims) _) => (dims.length, dims)
  | _ => (-1, [])

/-- `H5Sclose(space)`. -/
def H5Sclose {α : Type} (s : H5State α) (space : Int) : Int × H5State α :=
  match s.handles space with
  | some (Handle.dataspace _ _) => (0, s.release space)
  | _ => (-1, s)

/-- `H5Tcopy(H5T_C_S1)`: a new string type of one byte, null terminated. -/
def H5Tcopy_C_S1 {α : Type} (s : H5State α) : Int × H5State α :=
  s.alloc (Handle.datatype (StoredType.fixedString 1))

/-- `H5Tset_size(type, size)` on a string type; `size = none` is `H5T_VARIABLE`.
A size of 0 is refused, and so is a type that is not a copy (the native
types of the library cannot be changed). -/
def H5Tset_size {α : Type} (s : H5State α) (type : Int) (size : Option Nat) :
    Int × H5State α :=
  match s.handles type with
  | some (Handle.datatype (StoredType.native _)) => (-1, s)
  | some (Handle.datatype _) =>
    match size with
    | none =>
      (0, { s with handles := fun k =>
        if k = type then some (Handle.datatype StoredType.variableString) else s.handles k })
    | some n =>
      if n = 0 then (-1, s)
      else (0, { s with handles := fun k =>
        if k = type then some (Handle.datatype (StoredType.fixedString n)) else s.handles k })
  | _ => (-1, s)

/-- `H5Tset_strpad(type, H5T_STR_NULLTERM)` on a string type. -/
def H5Tset_strpad {α : Type} (s : H5State α) (type : Int) : Int × H5State α :=
  match s.handles type with
  | some (Handle.datatype (StoredType.native _)) => (-1, s)
  | some (Handle.datatype _) => (0, s)
  | _ => (-1, s)

/-- `H5Tis_variable_str(type)`. -/
def H5Tis_variable_str {α : Type} (s : H5State α) (type : Int) : Int :=
  match s.handles type with
  | some (Handle.datatype StoredType.variableString) => 1
  | some (Handle.datatype _) => 0
  | _ => -1

/-- `H5Tclose(type)`; the native types of the library cannot be closed.  The
model does not tell the copy of a native type that `H5Dget_type` returns for a
dataset of numbers from the native type itself, so closing such a copy fails
here, whereas the library closes it. -/
def H5Tclose {α : Type} (s : H5State α) (type : Int) : Int × H5State α :=
  match s.handles type with
  | some (Handle.datatype (StoredType.native _)) => (-1, s)
  | some (Handle.datatype _) => (0, s.release type)
  | _ => (-1, s)

/-- The content of a dataset that has just been created: the fill value
(`default`) for numbers, zero bytes for a string, no record written. -/
def Content.initial {α : Type} [Inhabited α] (type : StoredType) (space : Dataspace) :
    Content α :=
  match type with
  | StoredType.native _ => Content.numbers (List.replicate space.count default)
  | StoredType.fixedString n => Content.text (List.replicate (n * space.count) NUL)
  | StoredType.variableString => Content.strings (List.replicate space.count none)

/-- `H5Dcreate(locationID, name, type, space, H5P_DEFAULT, H5P_DEFAULT, H5P_DEFAULT)`:
fails when the name is in use. -/
def H5Dcreate {α : Type} [Inhabited α] (s : H5State α) (name : String) (type space : Int) :
    Int × H5State α :=
  match s.datasets name, s.handles type, s.handles space with
  | none, some (Handle.datatype t), some (Handle.dataspace sp _) =>
    let created : Dataset α := Dataset.mk t sp false (Content.initial t sp)
    let s1 : H5State α :=
      { s with datasets := fun n => if n = name then some created else s.datasets n }
    s1.alloc (Handle.dataset name)
  | _, _, _ => (-1, s)

/-- `H5Dopen(locationID, name, H5P_DEFAULT)`: fails when there is no dataset of
that name. -/
def H5Dopen {α : Type} (s : H5State α) (name : String) : Int × H5State α :=
  match s.datasets name with
  | some _ => s.alloc (Handle.dataset name)
  | none => (-1, s)

/-- The dataset that an open dataset identifier stands for, with its name. -/
def H5State.datasetOf {α : Type} (s : H5State α) (dataset : Int) :
    Option (String × Dataset α) :=
  match s.handles dataset with
  | some (Handle.dataset name) => (s.datasets name).map (fun d => (name, d))
  | _ => none

/-- `H5Dclose(dataset)`. -/
def H5Dclose {α : Type} (s : H5State α) (dataset : Int) : Int × H5State α :=
  match s.handles dataset with
  | some (Handle.dataset _) => (0, s.release dataset)
  | _ => (-1, s)

/-- `H5Dget_space(dataset)`: a new identifier for a copy of the dataspace. -/
def H5Dget_space {α : Type} (s : H5State α) (dataset : Int) : Int × H5State α :=
  match s.datasetOf dataset with
  | some (_, d) => s.alloc (Handle.dataspace d.space none)
  | none => (-1, s)

/-- `H5Dget_type(dataset)`: a new identifier for a copy of the datatype. -/
def H5Dget_type {α : Type} (s : H5State α) (dataset : Int) : Int × H5State α :=
  match s.datasetOf dataset with
  | some (_, d) => s.alloc (Handle.datatype d.type)
  | none => (-1, s)

/-- `H5Dget_storage_size(dataset)` for a dataset of fixed-length strings: the
number of bytes once storage is allocated, 0 before; 0 also stands for failure.
The size in bytes of the other types is not modelled. -/
def H5Dget_storage_size {α : Type} (s : H5State α) (dataset : Int) : Nat × H5State α :=
  match s.datasetOf dataset with
  | some (_, d) =>
    match d.type with
    | StoredType.fixedString n => ((if d.allocated then n * d.space.count else 0), s)
    | _ => (0, { s with notModelled := true })
  | none => (0, s)

/-- The characters of a C string: those before the first `0x00`. -/
def cString (chars : List Char) : List Char :=
  chars.takeWhile (fun ch => decide (ch ≠ NUL))

/-- Conversion of a null-terminated string from a memory type of `srcSize`
bytes to a stored type of `dstSize` bytes: the characters of the C string, at
most `srcSize` and at most `dstSize` of them, zero bytes up to `dstSize`, and a
last byte that is zero. -/
def convertString (srcSize dstSize : Nat) (chars : List Char) : List Char :=
  let copied := ((cString chars).take (min srcSize dstSize)).take (dstSize - 1)
  copied ++ List.replicate (dstSize - copied.length) NUL

/-- What the caller hands to `H5Dwrite`: an array of numbers, the bytes of a
character array, or the address of one pointer to a C string. -/
inductive WriteBuffer (α : Type)
  | numbers (values : List α)
  | bytes (chars : List Char)
  | stringPointer (chars : List Char)

/-- The dataset behind `name` is replaced. -/
def H5State.store {α : Type} (s : H5State α) (name : String) (d : Dataset α) : H5State α :=
  { s with datasets := fun n => if n = name then some d else s.datasets n }

/-- `H5Dwrite(dataset, memType, memSpace, fileSpace, H5P_DEFAULT, buffer)`.
`memSpace` and `fileSpace` are `none` for `H5S_ALL`.  Three transfers are
modelled: a whole dataset of numbers from an array of the same native type; a
scalar fixed-length string from a character array (the bytes are copied when
the two string types have the same size and converted otherwise; the array must
hold as many bytes as the memory type says, or a zero byte before); one record of
a variable-length string dataset, selected in the file dataspace, from a
pointer to a C string. -/
def H5Dwrite {α : Type} (s : H5State α) (dataset memType : Int) (memSpace fileSpace : Option Int)
    (buffer : WriteBuffer α) : Int × H5State α :=
  match s.datasetOf dataset, s.handles memType with
  | some (name, d), some (Handle.datatype mt) =>
    match d.type, mt, buffer, memSpace, fileSpace with
    | StoredType.native t, StoredType.native m, WriteBuffer.numbers values, none, none =>
      if t = m then
        if values.length < d.space.count then (-1, { s with undefinedBehaviour := true })
        else (0, s.store name
          (Dataset.mk d.type d.space true (Content.numbers (values.take d.space.count))))
      else (-1, { s with notModelled := true })
    | StoredType.native _, StoredType.fixedString _, _, _, _ => (-1, s)
    | StoredType.native _, StoredType.variableString, _, _, _ => (-1, s)
    | StoredType.fixedString _, StoredType.native _, _, _, _ => (-1, s)
    | StoredType.variableString, StoredType.native _, _, _, _ => (-1, s)
    | StoredType.fixedString n, StoredType.fixedString m, WriteBuffer.bytes chars, none, none =>
      if d.space = Dataspace.scalar then
        if m = n then
          if chars.length < n then (-1, { s with undefinedBehaviour := true })
          else (0, s.store name (Dataset.mk d.type d.space true (Content.text (chars.take n))))
        else if chars.length < m ∧ NUL ∉ chars then (-1, { s with undefinedBehaviour := true })
        else (0, s.store name
          (Dataset.mk d.type d.space true (Content.text (convertString m n chars))))
      else (-1, { s with notModelled := true })
    | StoredType.variableString, StoredType.variableString, WriteBuffer.stringPointer chars,
        some _, some fs =>
      match d.content, s.handles fs with
      | Content.strings records, some (Handle.dataspace _ (some pos)) =>
        if pos < records.length then
          (0, s.store name (Dataset.mk d.type d.space true
            (Content.strings (records.set pos (some (cString chars))))))
        else (-1, s)
      | _, _ => (-1, { s with notModelled := true })
    | _, _, _, _, _ => (-1, { s with notModelled := true })
  | _, _ => (-1, s)

/-- What `H5Dread` stores in the buffer of the caller. -/
inductive ReadData (α : Type)
  | nothing
  | numbers (values : List α)
  | bytes (chars : List Char)
  | stringPointers (records : List (Option (List Char)))

/-- `H5Dread(dataset, memType, H5S_ALL, H5S_ALL, H5P_DEFAULT, buffer)` into a
buffer with room for `capacity` elements (numbers, bytes or pointers).  Three
transfers are modelled: the numbers of a dataset into an array of the same
native type, the bytes of a fixed-length string into a character array of the
same string type, the records of a variable-length string dataset into an array
of pointers.  A transfer between a numeric and a string type fails. -/
def H5Dread {α : Type} (s : H5State α) (dataset memType : Int) (capacity : Nat) :
    (Int × ReadData α) × H5State α :=
  match s.datasetOf dataset, s.handles memType with
  | some (_, d), some (Handle.datatype mt) =>
    match d.type, mt, d.content with
    | StoredType.native t, StoredType.native m, Content.numbers values =>
      if t = m then
        if capacity < values.length then
          ((-1, ReadData.nothing), { s with undefinedBehaviour := true })
        else ((0, ReadData.numbers values), s)
      else ((-1, ReadData.nothing), { s with notModelled := true })
    | StoredType.native _, StoredType.fixedString _, _ => ((-1, ReadData.nothing), s)
    | StoredType.native _, StoredType.variableString, _ => ((-1, ReadData.nothing), s)
    | StoredType.fixedString _, StoredType.native _, _ => ((-1, ReadData.nothing), s)
    | StoredType.variableString, StoredType.native _, _ => ((-1, ReadData.nothing), s)
    | StoredType.fixedString n, StoredType.fixedString m, Content.text bytes =>
      if m = n then
        if capacity < bytes.length then
          ((-1, ReadData.nothing), { s with undefinedBehaviour := true })
        else ((0, ReadData.bytes bytes), s)
      else ((-1, ReadData.nothing), { s with notModelled := true })
    | StoredType.variableString, StoredType.variableString, Content.strings records =>
      if capacity < records.length then
        ((-1, ReadData.nothing), { s with undefinedBehaviour := true })
      else ((0, ReadData.stringPointers records), s)
    | _, _, _ => ((-1, ReadData.nothing), { s with notModelled := true })
  | _, _ => ((-1, ReadData.nothing), s)

/-- Modelled from the spec: "a scoped toggle object that disables reporting on
construction and restores prior state on destruction".  The macro
`HDF_ERROR_HANDLER_OFF` of `H5Macros.h`, which is not among the sources at
hand: automatic error reporting is turned off and its previous state is kept
for `HDF_ERROR_HANDLER_ON`.  The value is the previous state and the new
library state. -/
def HDF_ERROR_HANDLER_OFF {α : Type} (s : H5State α) : Bool × H5State α :=
  (s.errorReporting, { s with errorReporting := false })

/-- Modelled from the spec: "then restore default reporting afterward (a
scoped, reversible global-state toggle, not a permanent disable)".  The macro
`HDF_ERROR_HANDLER_ON` of `H5Macros.h`: the state kept by
`HDF_ERROR_HANDLER_OFF` is put back. -/
def HDF_ERROR_HANDLER_ON {α : Type} (s : H5State α) (saved : Bool) : H5State α :=
  { s with errorReporting := saved }

/-! ## Dataset operations of H5Lite over the file model -/

/-- `std::vector<T>::resize(n)`: the first `n` elements, or the elements followed
by value-initialised ones up to `n`. -/
def vectorResize {α : Type} [Inhabited α] (data : List α) (n : Nat) : List α :=
  data.take n ++ List.replicate (n - data.length) default

/-- The array of the caller after a library call has stored `values` at its
start. -/
def overwritePrefix {α : Type} (buffer values : List α) : List α :=
  values ++ buffer.drop values.length

/-- `herr_t writePointerDataset(locationID, datasetName, rank, dims, data)` over
the file model; `data = none` is the null pointer, `dataType` the value of
`HDFTypeForPrimitive(data[0])`, the rank is the length of `dims`. -/
def OnFile.writePointerDataset {α : Type} [Inhabited α] (s : H5State α) (datasetName : String)
    (dims : List Nat) (dataType : Int) (data : Option (List α)) : Int × H5State α :=
  match data with
  | none => (-2, s)
  | some values =>
    if dataType = -1 then (-1, s)
    else
      let r1 := H5Screate_simple s dims
      let dataspaceID := r1.1
      if dataspaceID < 0 then (toHerr dataspaceID, r1.2)
      else
        let r2 := H5Dcreate r1.2 datasetName dataType dataspaceID
        let datasetID := r2.1
        let body : Int × H5State α :=
          if 0 ≤ datasetID then
            let r3 := H5Dwrite r2.2 datasetID dataType none none (WriteBuffer.numbers values)
            let returnError1 : Int := if r3.1 < 0 then r3.1 else 0
            let r4 := H5Dclose r3.2 datasetID
            ((if r4.1 < 0 then r4.1 else returnError1), r4.2)
          else (toHerr datasetID, r2.2)
        let r5 := H5Sclose body.2 dataspaceID
        ((if r5.1 < 0 then r5.1 else body.1), r5.2)

/-- `herr_t writeVectorDataset(locationID, datasetName, dims, data)`: a call of
`writePointerDataset` with `dims.data()` and `data.data()`.  Whether `data()` of
an empty vector is the null pointer is left to the implementation
(`emptyDataIsNull`). -/
def OnFile.writeVectorDataset {α : Type} [Inhabited α] (emptyDataIsNull : Bool)
    (s : H5State α) (datasetName : String) (dims : List Nat) (dataType : Int) (data : List α) :
    Int × H5State α :=
  OnFile.writePointerDataset s datasetName dims dataType
    (if data.isEmpty ∧ emptyDataIsNull then none else some data)

/-- `herr_t readVectorDataset(locationID, datasetName, std::vector<T>& data)` over
the file model; the result is the status and the vector after the call. -/
def OnFile.readVectorDataset {α : Type} [Inhabited α] (s : H5State α) (datasetName : String)
    (dataType : Int) (dataBefore : List α) : (Int × List α) × H5State α :=
  if dataType = -1 then ((-1, dataBefore), s)
  else
    let r1 := H5Dopen s datasetName
    let datasetID := r1.1
    if datasetID < 0 then ((-1, dataBefore), r1.2)
    else
      let r2 := H5Dget_space r1.2 datasetID
      let spaceId := r2.1
      let body : (Int × List α) × H5State α :=
        if 0 < spaceId then
          let rank := H5Sget_simple_extent_ndims r2.2 spaceId
          let inner : (Int × List α) × H5State α :=
            if 0 < rank then
              let dims := (H5Sget_simple_extent_dims r2.2 spaceId).2
              let numElements := accumulateProduct dims
              let resized := vectorResize dataBefore numElements
              let r3 := H5Dread r2.2 datasetID dataType numElements
              let data : List α :=
                match r3.1.2 with
                | ReadData.numbers values => overwritePrefix resized values
                | _ => resized
              (((if r3.1.1 < 0 then r3.1.1 else 0), data), r3.2)
            else ((0, dataBefore), r2.2)
          let r4 := H5Sclose inner.2 spaceId
          (((if r4.1 < 0 then r4.1 else inner.1.1), inner.1.2), r4.2)
        else ((toHerr spaceId, dataBefore), r2.2)
      let r5 := H5Dclose body.2 datasetID
      (((if r5.1 < 0 then r5.1 else body.1.1), body.1.2), r5.2)

/-- `herr_t readPointerDataset(locationID, datasetName, T* data)` over the file
model; `data` is the preallocated array (`none` for the null pointer), the
result is the status and the array after the call. -/
def OnFile.readPointerDataset {α : Type} (s : H5State α) (locationID : Int)
    (datasetName : String) (dataType : Int) (data : Option (List α)) :
    (Int × Option (List α)) × H5State α :=
  if dataType = -1 then ((-10, data), s)
  else if locationID < 0 then ((-2, data), s)
  else
    match data with
    | none => ((-3, none), s)
    | some buffer =>
      let r1 := H5Dopen s datasetName
      let datasetID := r1.1
      if datasetID < 0 then ((-1, some buffer), r1.2)
      else
        let r2 := H5Dread r1.2 datasetID dataType buffer.length
        let returnError1 : Int := if r2.1.1 < 0 then r2.1.1 else 0
        let after : List α :=
          match r2.1.2 with
          | ReadData.numbers values => overwritePrefix buffer values
          | _ => buffer
        let r3 := H5Dclose r2.2 datasetID
        (((if r3.1 < 0 then r3.1 else returnError1), some after), r3.2)

/-- `herr_t writeStringDataset(locationID, datasetName, const std::string& data)`
over the file model.  The array behind `data.c_str()` is `data` followed by a
zero byte. -/
def OnFile.writeStringDataset {α : Type} [Inhabited α] (s : H5State α) (datasetName : String)
    (data : List Char) : Int × H5State α :=
  let r1 := H5Tcopy_C_S1 s
  let typeID := r1.1
  if 0 ≤ typeID then
    let size := data.length + 1
    let r2 := H5Tset_size r1.2 typeID (some size)
    let sized : Int × H5State α :=
      if 0 ≤ r2.1 then
        let r3 := H5Tset_strpad r2.2 typeID
        if 0 ≤ r3.1 then
          let r4 := H5Screate_scalar r3.2
          let dataspaceID := r4.1
          let spaced : Int × H5State α :=
            if 0 ≤ dataspaceID then
              let off := HDF_ERROR_HANDLER_OFF r4.2
              let r5 := H5Dopen off.2 datasetName
              let s5 := HDF_ERROR_HANDLER_ON r5.2 off.1
              let r6 : Int × H5State α :=
                if r5.1 < 0 then H5Dcreate s5 datasetName typeID dataspaceID else (r5.1, s5)
              let datasetID := r6.1
              let written : Int × H5State α :=
                if 0 ≤ datasetID then
                  if ¬ data.isEmpty then
                    let r7 := H5Dwrite r6.2 datasetID typeID none none
                      (WriteBuffer.bytes (data ++ [NUL]))
                    ((if r7.1 < 0 then r7.1 else 0), r7.2)
                  else (0, r6.2)
                else (0, r6.2)
              let r8 := H5Dclose written.2 datasetID
              (closeStatus r8.1 written.1, r8.2)
            else (0, r4.2)
          let r9 := H5Sclose spaced.2 dataspaceID
          (closeStatus r9.1 spaced.1, r9.2)
        else (0, r3.2)
      else (0, r2.2)
    let r10 := H5Tclose sized.2 typeID
    (closeStatus r10.1 sized.1, r10.2)
  else (0, r1.2)

/-- The `for` loop of `writeVectorOfStringsDataset` over the elements that
remain: the record at `pos` is selected in the file dataspace and written from
the pointer to the C string of the element. -/
def OnFile.writeStringsLoop {α : Type} (datasetID datatype memSpace dataspaceID : Int) :
    List (List Char) → Nat → Int → H5State α → Int × H5State α
  | [], _, returnError, s => (returnError, s)
  | element :: rest, pos, returnError, s =>
    let r1 := H5Sselect_hyperslab s dataspaceID pos
    let r2 := H5Dwrite r1.2 datasetID datatype (some memSpace) (some dataspaceID)
      (WriteBuffer.stringPointer (element ++ [NUL]))
    OnFile.writeStringsLoop datasetID datatype memSpace dataspaceID rest (pos + 1)
      (if r2.1 < 0 then r2.1 else returnError) r2.2

/-- `herr_t writeVectorOfStringsDataset(locationID, datasetName, data)` over the
file model. -/
def OnFile.writeVectorOfStringsDataset {α : Type} [Inhabited α] (s : H5State α)
    (datasetName : String) (data : List (List Char)) : Int × H5State α :=
  let r1 := H5Screate_simple s [data.length]
  let dataspaceID := r1.1
  if 0 ≤ dataspaceID then
    let r2 := H5Screate_simple r1.2 [1]
    let memSpace := r2.1
    let inner : Int × H5State α :=
      if 0 ≤ memSpace then
        let r3 := H5Tcopy_C_S1 r2.2
        let datatype := r3.1
        let r4 := H5Tset_size r3.2 datatype none
        let r5 := H5Dcreate r4.2 datasetName datatype dataspaceID
        let datasetID := r5.1
        let created : Int × H5State α :=
          if 0 ≤ datasetID then
            let r6 := H5Sselect_hyperslab r5.2 memSpace 0
            let looped := OnFile.writeStringsLoop datasetID datatype memSpace dataspaceID
              data 0 0 r6.2
            let r7 := H5Dclose looped.2 datasetID
            (closeStatus r7.1 looped.1, r7.2)
          else (0, r5.2)
        let r8 := H5Tclose created.2 datatype
        let r9 := H5Sclose r8.2 memSpace
        (closeStatus r9.1 created.1, r9.2)
      else (0, r2.2)
    let r10 := H5Sclose inner.2 dataspaceID
    (closeStatus r10.1 inner.1, r10.2)
  else (0, r1.2)

/-- `herr_t readVectorOfStringDataset(locationID, datasetName, data)` over the
file model.  `H5Dvlen_reclaim` frees the buffers of the library and has no effect
on the model.  `std::string(rData[i])` on a null pointer is undefined. -/
def OnFile.readVectorOfStringDataset {α : Type} (s : H5State α) (datasetName : String)
    (dataBefore : List (List Char)) : (Int × List (List Char)) × H5State α :=
  let r1 := H5Dopen s datasetName
  let datasetID := r1.1
  if datasetID < 0 then ((-1, dataBefore), r1.2)
  else
    let r2 := H5Dget_type r1.2 datasetID
    let typeID := r2.1
    if 0 ≤ typeID then
      let r3 := H5Dget_space r2.2 datasetID
      let dataspaceID := r3.1
      let extent := H5Sget_simple_extent_dims r3.2 dataspaceID
      let nDims := extent.1
      -- hsize_t dims[1] = {0}: a second extent is stored past the end of the array
      let s3 : H5State α :=
        if 1 < extent.2.length then { r3.2 with undefinedBehaviour := true } else r3.2
      let dims0 := extent.2.headD 0
      if nDims ≠ 1 then
        let c1 := H5Sclose s3 dataspaceID
        let c2 := H5Tclose c1.2 typeID
        ((-2, dataBefore), c2.2)
      else
        let r4 := H5Tcopy_C_S1 s3
        let memtype := r4.1
        let r5 := H5Tset_size r4.2 memtype none
        let r6 := H5Dread r5.2 datasetID memtype dims0
        if r6.1.1 < 0 then
          let c1 := H5Sclose r6.2 dataspaceID
          let c2 := H5Tclose c1.2 typeID
          let c3 := H5Tclose c2.2 memtype
          ((-3, dataBefore), c3.2)
        else
          let rData : List (Option (List Char)) :=
            match r6.1.2 with
            | ReadData.stringPointers records =>
              overwritePrefix (List.replicate dims0 none) records
            | _ => List.replicate dims0 none
          let s6 : H5State α :=
            if rData.any (fun p => p.isNone) then { r6.2 with undefinedBehaviour := true }
            else r6.2
          let data : List (List Char) := rData.map (fun p => cString (p.getD []))
          let c1 := H5Sclose s6 dataspaceID
          let c2 := H5Tclose c1.2 typeID
          let c3 := H5Tclose c2.2 memtype
          let c4 := H5Dclose c3.2 datasetID
          ((closeStatus c4.1 (closeStatus c3.1 (closeStatus c2.1 (closeStatus c1.1 0))), data),
            c4.2)
    else
      let c4 := H5Dclose r2.2 datasetID
      ((closeStatus c4.1 0, dataBefore), c4.2)

/-- `herr_t readStringDataset(locationID, datasetName, std::string& data)` over
the file model; the result is the status and the string after the call.
`strings[0]` on an empty vector is undefined. -/
def OnFile.readStringDataset {α : Type} (s : H5State α) (datasetName : String)
    (dataBefore : List Char) : (Int × List Char) × H5State α :=
  -- data.clear();
  let data0 : List Char := dataBefore.take 0
  let r1 := H5Dopen s datasetName
  let datasetID := r1.1
  if datasetID < 0 then ((-1, data0), r1.2)
  else
    let r2 := H5Dget_type r1.2 datasetID
    let typeID := r2.1
    let body : (Int × List Char) × H5State α :=
      if 0 ≤ typeID then
        let isVariableString := H5Tis_variable_str r2.2 typeID
        if isVariableString = 1 then
          let r3 := OnFile.readVectorOfStringDataset r2.2 datasetName []
          let error := r3.1.1
          let strings := r3.1.2
          if error < 0 ∨ (1 < strings.length ∧ ¬ strings.isEmpty) then
            ((error, data0), r3.2)
          else
            match strings with
            | [] => ((0, data0), { r3.2 with undefinedBehaviour := true })
            | first :: _ => ((0, first), r3.2)
        else
          let r4 := H5Dget_storage_size r2.2 datasetID
          let size := r4.1
          let r5 := H5Dread r4.2 datasetID typeID (size + 1)
          if r5.1.1 < 0 then ((r5.1.1, data0), r5.2)
          else
            let buffer : List Char :=
              match r5.1.2 with
              | ReadData.bytes bytes => overwritePrefix (List.replicate (size + 1) NUL) bytes
              | _ => List.replicate (size + 1) NUL
            ((0, data0 ++ cString buffer), r5.2)
      else ((0, data0), r2.2)
    let c1 := H5Dclose body.2 datasetID
    let c2 := H5Tclose c1.2 typeID
    ((closeStatus c2.1 (closeStatus c1.1 body.1.1), body.1.2), c2.2)

/-! ## Library states used in the examples -/

/-- A library state on a file without datasets, in which the identifier 7 is an
open native type and the next identifier handed out is 100. -/
def emptyFile (α : Type) : H5State α :=
  H5State.mk (fun _ => none)
    (fun k => if k = 7 then some (Handle.datatype (StoredType.native 7)) else none)
    100 true false false

/-- The payload of `testWritePointer2DArrayDataset`: `data[i] = i * 5` for the
`dim0 * dim1 = 4 * 3` elements. -/
def pointer2DArrayData : List Int :=
  (List.range (4 * 3)).map (fun i => (i : Int) * 5)

/-! ## Native integer types and their byte widths -/

/-- What the host fixes for the types of C++: whether plain `char` is signed
(`std::is_signed_v<char>`), and `sizeof(int)`, `sizeof(long)`,
`sizeof(long long)`.  The macros of a `Platform` are what the build hands to the
preprocessor; nothing in the sources ties them to the host. -/
structure Host where
  charIsSigned : Bool
  sizeofInt : Int
  sizeofLong : Int
  sizeofLongLong : Int

/-- Whether a standard integer type is signed (`some true`), unsigned
(`some false`), or not one of the integer types with a fixed signedness
(`none`: `float`, `double`, `bool`, plain `char`, other types). -/
def CType.signedness : CType → Option Bool
  | CType.signedChar => some true
  | CType.short => some true
  | CType.int => some true
  | CType.long => some true
  | CType.longLong => some true
  | CType.unsignedChar => some false
  | CType.unsignedShort => some false
  | CType.unsignedInt => some false
  | CType.unsignedLong => some false
  | CType.unsignedLongLong => some false
  | _ => none

/-- The byte width of a standard integer type on the host: 1 for the character
types, 2 for `short` (the type that `int16_t` names), `sizeof(int)`,
`sizeof(long)`, `sizeof(long long)` for `int`, `long`, `long long` and their
unsigned types; 0 for the other types. -/
def Host.byteWidth (h : Host) : CType → Int
  | CType.char => 1
  | CType.signedChar => 1
  | CType.unsignedChar => 1
  | CType.short => 2
  | CType.unsignedShort => 2
  | CType.int => h.sizeofInt
  | CType.unsignedInt => h.sizeofInt
  | CType.long => h.sizeofLong
  | CType.unsignedLong => h.sizeofLong
  | CType.longLong => h.sizeofLongLong
  | CType.unsignedLongLong => h.sizeofLongLong
  | _ => 0

/-- The typedef name `T`, meant for `bytes` bytes and the given signedness,
names on the host a standard integer type of that width and signedness, or a
type outside the standard ones. -/
def Host.namesWidth (h : Host) (T : CType) (bytes : Int) (signed : Bool) : Prop :=
  T = CType.other ∨ (T.signedness = some signed ∧ h.byteWidth T = bytes)

/-- The 32- and 64-bit typedef names of the platform agree with the byte widths
of the host. -/
def Platform.TypedefsAgree (p : Platform) (h : Host) : Prop :=
  h.namesWidth p.int32_t 4 true ∧ h.namesWidth p.uint32_t 4 false ∧
  h.namesWidth p.int64_t 8 true ∧ h.namesWidth p.uint64_t 8 false

/-- The build defines the configuration macros with the values of the host:
`CMP_TYPE_CHAR_IS_SIGNED` is non-zero exactly when `char` is signed, and each
`CMP_SIZEOF_` macro is the `sizeof` of its type. -/
def Platform.MacrosDescribe (p : Platform) (h : Host) : Prop :=
  (p.CMP_TYPE_CHAR_IS_SIGNED ≠ 0 ↔ h.charIsSigned = true) ∧
  p.CMP_SIZEOF_INT = h.sizeofInt ∧ p.CMP_SIZEOF_LONG = h.sizeofLong ∧
  p.CMP_SIZEOF_LONG_LONG = h.sizeofLongLong

/-- The storage tag of the fixed-width integer type of `bytes` bytes, `intN_t`
when `signed` and `uintN_t` otherwise; `unknown` when there is no such type. -/
def fixedWidthTag (bytes : Int) (signed : Bool) : HDFType :=
  if bytes = 1 then (if signed then HDFType.H5T_NATIVE_INT8 else HDFType.H5T_NATIVE_UINT8)
  else if bytes = 2 then
    (if signed then HDFType.H5T_NATIVE_INT16 else HDFType.H5T_NATIVE_UINT16)
  else if bytes = 4 then
    (if signed then HDFType.H5T_NATIVE_INT32 else HDFType.H5T_NATIVE_UINT32)
  else if bytes = 8 then
    (if signed then HDFType.H5T_NATIVE_INT64 else HDFType.H5T_NATIVE_UINT64)
  else HDFType.unknown

/-- The native integer types of C21: `int`, `long`, `long long`, signed and
unsigned, each with its signedness. -/
def nativeIntegerTypes : List (CType × Bool) :=
  [(CType.int, true), (CType.unsignedInt, false), (CType.long, true),
    (CType.unsignedLong, false), (CType.longLong, true), (CType.unsignedLongLong, false)]

/-- A common 64-bit host: `char` is signed, `int` has 4 bytes, `long` and
`long long` have 8 bytes. -/
def hostLP64 : Host := Host.mk true 4 8 8

/-- The sources as they are, built on that host: neither `H5Lite.h` nor the
generated `H5Support.h` nor `H5SupportTypeDefs.h` defines one of the four
`CMP_` macros, and a macro that is not defined counts as 0 in `#if`; `int32_t`
names `int` and `int64_t` names `long`. -/
def buildLP64 : Platform :=
  Platform.mk 0 0 0 0 CType.int CType.unsignedInt CType.long CType.unsignedLong

/-- A build on the same host whose configuration defines the four macros with
the values of the host; `int32_t` names `int` and `int64_t` names `long`. -/
def platformLP64 : Platform :=
  Platform.mk 1 4 8 8 CType.int CType.unsignedInt CType.long CType.unsignedLong

/-! ## Names of the storage types -/

/-- What `StringForHDFType` takes from the library: the value of the
enumerator `H5T_STRING`, the identifier of each native type (the value of the
expressions `H5T_NATIVE_INT8`, ...), and the function `H5Tequal`, which returns
a positive value for equal types, 0 for different types and a negative value
when it fails. -/
structure TypeIds where
  H5T_STRING : Int
  nativeId : HDFType → Int
  H5Tequal : Int → Int → Int

/-- `std::string StringForHDFType(hid_t dataTypeIdentifier)`. -/
def StringForHDFType (lib : TypeIds) (dataTypeIdentifier : Int) : String :=
  if dataTypeIdentifier = lib.H5T_STRING then "H5T_STRING"
  else if lib.H5Tequal dataTypeIdentifier (lib.nativeId HDFType.H5T_NATIVE_INT8) ≠ 0 then
    "H5T_NATIVE_INT8"
  else if lib.H5Tequal dataTypeIdentifier (lib.nativeId HDFType.H5T_NATIVE_UINT8) ≠ 0 then
    "H5T_NATIVE_UINT8"
  else if lib.H5Tequal dataTypeIdentifier (lib.nativeId HDFType.H5T_NATIVE_INT16) ≠ 0 then
    "H5T_NATIVE_INT16"
  else if lib.H5Tequal dataTypeIdentifier (lib.nativeId HDFType.H5T_NATIVE_UINT16) ≠ 0 then
    "H5T_NATIVE_UINT16"
  else if lib.H5Tequal dataTypeIdentifier (lib.nativeId HDFType.H5T_NATIVE_INT32) ≠ 0 then
    "H5T_NATIVE_INT32"
  else if lib.H5Tequal dataTypeIdentifier (lib.nativeId HDFType.H5T_NATIVE_UINT32) ≠ 0 then
    "H5T_NATIVE_UINT32"
  else if lib.H5Tequal dataTypeIdentifier (lib.nativeId HDFType.H5T_NATIVE_INT64) ≠ 0 then
    "H5T_NATIVE_INT64"
  else if lib.H5Tequal dataTypeIdentifier (lib.nativeId HDFType.H5T_NATIVE_UINT64) ≠ 0 then
    "H5T_NATIVE_UINT64"
  else if lib.H5Tequal dataTypeIdentifier (lib.nativeId HDFType.H5T_NATIVE_FLOAT) ≠ 0 then
    "H5T_NATIVE_FLOAT"
  else if lib.H5Tequal dataTypeIdentifier (lib.nativeId HDFType.H5T_NATIVE_DOUBLE) ≠ 0 then
    "H5T_NATIVE_DOUBLE"
  else "Unknown"

/-- `template <typename T> std::string HDFTypeForPrimitiveAsStr(T value)`: the
chain of `if(std::is_same<T, X>::value) return "...";` in source order. -/
def HDFTypeForPrimitiveAsStr (p : Platform) (T : CType) : String :=
  if T = p.int8_t then "H5T_NATIVE_INT8"
  else if T = p.uint8_t then "H5T_NATIVE_UINT8"
  else if T = p.int16_t then "H5T_NATIVE_INT16"
  else if T = p.uint16_t then "H5T_NATIVE_UINT16"
  else if T = p.int32_t then "H5T_NATIVE_INT32"
  else if T = p.uint32_t then "H5T_NATIVE_UINT32"
  else if T = p.int64_t then "H5T_NATIVE_INT64"
  else if T = p.uint64_t then "H5T_NATIVE_UINT64"
  else if T = CType.float then "H5T_NATIVE_FLOAT"
  else if T = CType.double then "H5T_NATIVE_DOUBLE"
  else ""

/-- The ten numeric storage tags that `HDFTypeForPrimitive` can return. -/
def numericTags : List HDFType :=
  [HDFType.H5T_NATIVE_INT8, HDFType.H5T_NATIVE_UINT8, HDFType.H5T_NATIVE_INT16,
    HDFType.H5T_NATIVE_UINT16, HDFType.H5T_NATIVE_INT32, HDFType.H5T_NATIVE_UINT32,
    HDFType.H5T_NATIVE_INT64, HDFType.H5T_NATIVE_UINT64, HDFType.H5T_NATIVE_FLOAT,
    HDFType.H5T_NATIVE_DOUBLE]

/-- The fixed-width kind that corresponds to a numeric storage tag on the
platform: `int8_t` for the signed 8-bit tag, ..., `float`, `double`. -/
def Platform.kindOf (p : Platform) : HDFType → CType
  | HDFType.H5T_NATIVE_INT8 => p.int8_t
  | HDFType.H5T_NATIVE_UINT8 => p.uint8_t
  | HDFType.H5T_NATIVE_INT16 => p.int16_t
  | HDFType.H5T_NATIVE_UINT16 => p.uint16_t
  | HDFType.H5T_NATIVE_INT32 => p.int32_t
  | HDFType.H5T_NATIVE_UINT32 => p.uint32_t
  | HDFType.H5T_NATIVE_INT64 => p.int64_t
  | HDFType.H5T_NATIVE_UINT64 => p.uint64_t
  | HDFType.H5T_NATIVE_FLOAT => CType.float
  | HDFType.H5T_NATIVE_DOUBLE => CType.double
  | HDFType.unknown => CType.other

/-- The library lets `StringForHDFType` tell the ten tags apart: `H5Tequal` on
two of their identifiers returns a non-zero value exactly when they are the
identifier of the same tag, and none of the identifiers is the value of
`H5T_STRING`. -/
def TypeIds.Distinguishes (lib : TypeIds) : Prop :=
  (∀ a ∈ numericTags, ∀ b ∈ numericTags,
    (lib.H5Tequal (lib.nativeId a) (lib.nativeId b) ≠ 0 ↔ a = b)) ∧
  (∀ a ∈ numericTags, lib.nativeId a ≠ lib.H5T_STRING)

/-- Identifiers as in a run of the library: `H5T_STRING` is the enumerator 3,
the native types have the identifiers 101 to 110, and `H5Tequal` returns 1 for
twice the same native type, 0 for two different native types and -1 (failure)
when an argument is not the identifier of a type. -/
def exampleTypeIds : TypeIds :=
  TypeIds.mk 3
    (fun tag =>
      match tag with
      | HDFType.H5T_NATIVE_INT8 => 101
      | HDFType.H5T_NATIVE_UINT8 => 102
      | HDFType.H5T_NATIVE_INT16 => 103
      | HDFType.H5T_NATIVE_UINT16 => 104
      | HDFType.H5T_NATIVE_INT32 => 105
      | HDFType.H5T_NATIVE_UINT32 => 106
      | HDFType.H5T_NATIVE_INT64 => 107
      | HDFType.H5T_NATIVE_UINT64 => 108
      | HDFType.H5T_NATIVE_FLOAT => 109
      | HDFType.H5T_NATIVE_DOUBLE => 110
      | HDFType.unknown => -1)
    (fun a b =>
      if 101 ≤ a ∧ a ≤ 110 ∧ 101 ≤ b ∧ b ≤ 110 then (if a = b then 1 else 0) else -1)

/-! ## Automatic error reporting across the error-handler macros -/

/-- What a call of a log is for the error reporting of the library: one of the
two macros, or a call that leaves the reporting as it is. -/
inductive Toggle
  | off
  | on
  | other
  deriving DecidableEq

/-- Modelled from the spec: "a scoped, reversible global-state toggle, not a
permanent disable".  The two macros of `H5Macros.h` are statements, used in
pairs; the comment of `disableErrorHandlers`, whose body is
`HDF_ERROR_HANDLER_OFF` alone, says that the reporting then stays off.  The
state is the pair of the reporting now and the state kept by the last
`HDF_ERROR_HANDLER_OFF`: `off` keeps the current state and turns the reporting
off, `on` puts the kept state back, every other call changes nothing. -/
def replayToggles : List Toggle → Bool × Bool → Bool × Bool
  | [], state => state
  | Toggle.off :: rest, state => replayToggles rest (false, state.1)
  | Toggle.on :: rest, state => replayToggles rest (state.2, state.2)
  | Toggle.other :: rest, state => replayToggles rest state

/-- The macros among the calls of the attribute operations. -/
def AttrCall.toggle : AttrCall → Toggle
  | AttrCall.HDF_ERROR_HANDLER_OFF => Toggle.off
  | AttrCall.HDF_ERROR_HANDLER_ON => Toggle.on
  | _ => Toggle.other

/-- The macros among the calls of the dataset writers. -/
def LibCall.toggle : LibCall → Toggle
  | LibCall.HDF_ERROR_HANDLER_OFF => Toggle.off
  | LibCall.HDF_ERROR_HANDLER_ON => Toggle.on
  | _ => Toggle.other

/-- Whether automatic error reporting is on after the calls of the log of an
attribute operation, when it was `before` at entry. -/
def reportingAfter (before : Bool) (log : AttrLog) : Bool :=
  (replayToggles (log.map (fun call => call.1.toggle)) (before, before)).1

/-- Whether automatic error reporting is on after the calls of the log of a
dataset writer, when it was `before` at entry. -/
def reportingAfterWriter (before : Bool) (log : CallLog) : Bool :=
  (replayToggles (log.map (fun call => call.1.toggle)) (before, before)).1

/-- `bool datasetExists(hid_t locationID, const std::string& datasetName)`, as a
function of the value that `H5Oget_info_by_name` returns, with the log of the
calls. -/
def datasetExists (H5Oget_info_by_name : Int) : Bool × AttrLog :=
  let error := H5Oget_info_by_name
  (decide (0 ≤ error),
    [(AttrCall.HDF_ERROR_HANDLER_OFF, 0), (AttrCall.H5Oget_info_by_name, error),
      (AttrCall.HDF_ERROR_HANDLER_ON, 0)])

/-- `herr_t readStringAttribute(locationID, objectName, attributeName, char* data)`,
the overload that reads into a preallocated buffer: the returned status and the
log of the calls (the bytes stored in the buffer are not part of the result).
`H5Aget_type` and `H5Tclose` are called once; their values are the fields
`H5Aget_type_second` and `H5Tclose_second` of the outcomes. -/
def readStringAttributeBuffer (o : AttrReadOutcomes) : Int × AttrLog :=
  let log0 : AttrLog := [(AttrCall.HDF_ERROR_HANDLER_OFF, 0),
    (AttrCall.H5Oget_info_by_name, o.H5Oget_info_by_name)]
  let error := o.H5Oget_info_by_name
  if error < 0 then (error, log0)
  else
    let opened := openId o.objectType o.H5Dopen o.H5Gopen
    let objectID := opened.1
    let log1 : AttrLog := log0 ++ opened.2
    if 0 ≤ objectID then
      let attributeID := o.H5Aopen_by_name
      let log2 : AttrLog := log1 ++ [(AttrCall.H5Aopen_by_name, attributeID)]
      let body : Int × AttrLog :=
        if 0 ≤ attributeID then
          let attributeType := o.H5Aget_type_second
          let log3 : AttrLog := log2 ++ [(AttrCall.H5Aget_type, attributeType)]
          let typed : Int × AttrLog :=
            if 0 ≤ attributeType then
              let returnError1 : Int := if o.H5Aread < 0 then o.H5Aread else 0
              (closeStatus o.H5Tclose_second returnError1,
                log3 ++ [(AttrCall.H5Aread, o.H5Aread), (AttrCall.H5Tclose, o.H5Tclose_second)])
            else (0, log3)
          (closeStatus o.H5Aclose typed.1, typed.2 ++ [(AttrCall.H5Aclose, o.H5Aclose)])
        else (0, log2)
      let closed := closeId o.objectType o.H5Dclose o.H5Gclose
      ((if closed.1 < 0 then closed.1 else body.1),
        body.2 ++ closed.2 ++ [(AttrCall.HDF_ERROR_HANDLER_ON, 0)])
    else (0, log1 ++ [(AttrCall.HDF_ERROR_HANDLER_ON, 0)])

/-- Outcomes of the attribute readers when the host object does not exist:
`H5Oget_info_by_name` fails with -1 (no later call is made). -/
def outcomesObjectMissing : AttrReadOutcomes :=
  AttrReadOutcomes.mk (-1) ObjectType.other (-1) (-1) (-1) (-1) (-1) (-1) 0 (-1) (-1) [] (-1)
    (-1) (-1) (-1)

/-! ## The lock taken by the operations -/

/-- The `std::mutex` objects constructed so far, in order of construction, each
locked (`true`) or not. -/
abbrev Mutexes := List Bool

/-- The macro `H5SUPPORT_MUTEX_LOCK()` of `H5Support.h`, the first statement of
every operation: `std::mutex mutex;` constructs a mutex, a local variable of the
invocation and hence a new object, unlocked; `std::lock_guard<std::mutex>
lock(mutex);` locks that mutex.  The result is the mutex that the invocation
holds and the mutexes afterwards; `none` when the mutex to lock is locked
already, in which case the thread has to wait. -/
def H5SUPPORT_MUTEX_LOCK (mutexes : Mutexes) : Option (Nat × Mutexes) :=
  let mutex := mutexes.length
  let constructed := mutexes ++ [false]
  if constructed.getD mutex false then none
  else some (mutex, constructed.set mutex true)

/-- The end of the scope of an operation: the destructor of `lock` unlocks the
mutex. -/
def unlockAtExit (mutex : Nat) (mutexes : Mutexes) : Mutexes :=
  mutexes.set mutex false

/-- Where a thread that invokes one operation of H5Lite stands: before the call,
in the body of the operation holding the mutex it locked at entry, or after the
return. -/
inductive Progress
  | notEntered
  | inside (mutex : Nat)
  | returned
  deriving DecidableEq

/-- Two threads, each invoking one operation, and the mutexes. -/
structure Threads where
  mutexes : Mutexes
  first : Progress
  second : Progress

/-- One step of one thread: a thread that has not entered runs
`H5SUPPORT_MUTEX_LOCK()` and is then in the body (no step when it has to wait);
a thread in the body returns and unlocks its mutex; a thread that has returned
makes no step. -/
def Progress.step (progress : Progress) (mutexes : Mutexes) : Option (Progress × Mutexes) :=
  match progress with
  | Progress.notEntered =>
    (H5SUPPORT_MUTEX_LOCK mutexes).map (fun locked => (Progress.inside locked.1, locked.2))
  | Progress.inside mutex => some (Progress.returned, unlockAtExit mutex mutexes)
  | Progress.returned => none

/-- One step of the second thread (`second = true`) or of the first. -/
def Threads.step (s : Threads) (second : Bool) : Option Threads :=
  if second then
    (s.second.step s.mutexes).map (fun r => Threads.mk r.2 s.first r.1)
  else
    (s.first.step s.mutexes).map (fun r => Threads.mk r.2 r.1 s.second)

/-- A schedule: the threads that make the steps, in order. -/
def Threads.run : List Bool → Threads → Option Threads
  | [], s => some s
  | second :: rest, s => (s.step second).bind (Threads.run rest)

/-- Both threads are in the body of their operation. -/
def Threads.bothInside (s : Threads) : Bool :=
  (match s.first with
    | Progress.inside _ => true
    | _ => false) &&
  (match s.second with
    | Progress.inside _ => true
    | _ => false)

/-! ## Identifiers open at the return of the attribute readers -/

/-- The identifiers open after a call that returned `id`: the call opened `id`
when it did not fail. -/
def acquired (id : Int) (openIds : List Int) : List Int :=
  if 0 ≤ id then id :: openIds else openIds

/-- The identifiers open after a closing call on `id` that returned `status`:
`id` is closed when the call did not fail. -/
def released (status id : Int) (openIds : List Int) : List Int :=
  if 0 ≤ status then openIds.erase id else openIds

/-- The values returned by the calls of `getAttributeInfo` during one
invocation.  `typeClassIsString` is `H5Tget_class(typeID) == H5T_STRING`,
`extents` are the values that `H5Sget_simple_extent_dims` stores. -/
structure AttrInfoOutcomes where
  H5Oget_info_by_name : Int
  objectType : ObjectType
  H5Dopen : Int
  H5Gopen : Int
  H5Aopen_by_name : Int
  H5Aget_type : Int
  typeClassIsString : Bool
  H5Tget_size : Nat
  H5Aget_space : Int
  H5Sget_simple_extent_ndims : Int
  H5Sget_simple_extent_dims : Int
  extents : List Nat
  H5Sclose : Int
  H5Aclose : Int
  H5Dclose : Int
  H5Gclose : Int

/-- `herr_t getAttributeInfo(locationID, objectName, attributeName, dims, typeClass, typeSize, typeID)`
with the identifiers that are open as explicit state.  The result is the
returned status, the vector `dims` and the argument `typeID` after the call, and
the open identifiers; `none` when the function does not return: with a negative
`rank` the constructor of `std::vector<hsize_t> _dims(rank, 0)` throws
`std::length_error`.  The type identifier that `H5Aget_type` returns is stored
in `typeID` and is not closed. -/
def getAttributeInfo (o : AttrInfoOutcomes) (dimsBefore : List Nat) (typeIDBefore : Int)
    (openIds : List Int) : Option ((Int × List Nat × Int) × List Int) :=
  let error := o.H5Oget_info_by_name
  if error < 0 then some ((error, dimsBefore, typeIDBefore), openIds)
  else
    let objectID := (openId o.objectType o.H5Dopen o.H5Gopen).1
    let open1 := acquired objectID openIds
    if 0 ≤ objectID then
      let attributeID := o.H5Aopen_by_name
      let open2 := acquired attributeID open1
      let body : Option ((Int × List Nat × Int) × List Int) :=
        if 0 ≤ attributeID then
          let typeID := o.H5Aget_type
          let open3 := acquired typeID open2
          let typed : Option ((Int × List Nat) × List Int) :=
            if 0 < typeID then
              let typeSize := o.H5Tget_size
              let dataspaceID := o.H5Aget_space
              let open4 := acquired dataspaceID open3
              if 0 ≤ dataspaceID then
                let described : Option (Int × List Nat) :=
                  if o.typeClassIsString then some (0, [typeSize])
                  else
                    let rank := o.H5Sget_simple_extent_ndims
                    if rank < 0 then none
                    else
                      let dims := (o.extents ++ List.replicate rank.toNat 0).take rank.toNat
                      some ((if o.H5Sget_simple_extent_dims < 0 then
                        o.H5Sget_simple_extent_dims else 0), dims)
                described.map (fun d =>
                  ((closeStatus o.H5Sclose d.1, d.2), released o.H5Sclose dataspaceID open4))
              else some ((0, dimsBefore), open4)
            else some ((0, dimsBefore), open3)
          typed.map (fun t =>
            ((closeStatus o.H5Aclose t.1.1, t.1.2, typeID),
              released o.H5Aclose attributeID t.2))
        else some ((-1, dimsBefore, typeIDBefore), open2)
      let closed := (closeId o.objectType o.H5Dclose o.H5Gclose).1
      body.map (fun b =>
        (((if closed < 0 then closed else b.1.1), b.1.2.1, b.1.2.2),
          released closed objectID b.2))
    else some ((0, dimsBefore, typeIDBefore), open1)

/-- The values returned by the calls that `readVectorAttribute` makes itself
during one invocation. -/
structure VectorAttrOutcomes where
  H5Oget_info_by_name : Int
  objectType : ObjectType
  H5Dopen : Int
  H5Gopen : Int
  H5Aopen_by_name : Int
  H5Aread : Int
  H5Aclose : Int
  H5Dclose : Int
  H5Gclose : Int

/-- `herr_t readVectorAttribute(locationID, objectName, attributeName, std::vector<T>& data)`
with the identifiers that are open as explicit state; `dataType` is the value of
`HDFTypeForPrimitive(test)`, `info` holds the outcomes of the calls made by the
nested `getAttributeInfo`, `typeIDBefore` is the indeterminate initial value of
the local variable `typeID`.  The result is the returned status, the size of
`data` after the call (`none` when `data` is not resized) and the open
identifiers; `none` when the nested `getAttributeInfo` throws, since the
exception is not caught. -/
def readVectorAttribute (dataType : Int) (o : VectorAttrOutcomes) (info : AttrInfoOutcomes)
    (typeIDBefore : Int) (openIds : List Int) : Option ((Int × Option Nat) × List Int) :=
  if dataType = -1 then some ((-1, none), openIds)
  else
    let error := o.H5Oget_info_by_name
    if error < 0 then some ((error, none), openIds)
    else
      let objectID := (openId o.objectType o.H5Dopen o.H5Gopen).1
      let open1 := acquired objectID openIds
      if 0 ≤ objectID then
        let attributeID := o.H5Aopen_by_name
        let open2 := acquired attributeID open1
        let body : Option ((Int × Option Nat) × List Int) :=
          if 0 ≤ attributeID then
            (getAttributeInfo info [] typeIDBefore open2).map (fun described =>
              let dims := described.1.2.1
              let numElements := accumulateProduct dims
              let returnError1 : Int := if o.H5Aread < 0 then o.H5Aread else 0
              let returnError2 : Int := if o.H5Aclose < 0 then o.H5Aclose else returnError1
              ((returnError2, some numElements),
                released o.H5Aclose attributeID described.2))
          else some ((toHerr attributeID, none), open2)
        let closed := (closeId o.objectType o.H5Dclose o.H5Gclose).1
        body.map (fun b =>
          (((if closed < 0 then closed else b.1.1), b.1.2), released closed objectID b.2))
      else some ((0, none), open1)

/-- Outcomes of `readVectorAttribute` on a dataset with a numeric attribute,
every call succeeding: the dataset is opened as 5 and the attribute as 6. -/
def outcomesVectorAttribute : VectorAttrOutcomes :=
  VectorAttrOutcomes.mk 0 ObjectType.H5O_TYPE_DATASET 5 (-1) 6 0 0 0 0

/-- Outcomes of the nested `getAttributeInfo` on the same attribute, every call
succeeding: the dataset is opened as 7, the attribute as 8, its type as 9, its
dataspace as 10; the attribute has the shape `[4, 3]`. -/
def outcomesAttributeInfo : AttrInfoOutcomes :=
  AttrInfoOutcomes.mk 0 ObjectType.H5O_TYPE_DATASET 7 (-1) 8 9 false 4 10 2 2 [4, 3] 0 0 0 0

/-! # Theorems -/

/-! ## Rounding and halving -/

theorem two_pow_excessBits_le (fuel n : Nat) (hn : 1 ≤ n) : 2 ^ excessBits fuel n ≤ n := by
  induction fuel generalizing n with
  | zero => simpa [excessBits] using hn
  | succ fuel ih =>
    unfold excessBits
    split
    · simpa using hn
    · rename_i h
      have h53 : (2 : Nat) ^ 53 ≤ n := Nat.le_of_not_lt h
      have h2 : 1 ≤ n / 2 := by
        have : (2 : Nat) ≤ 2 ^ 53 := by norm_num
        omega
      have := ih (n / 2) h2
      rw [pow_succ]
      omega

theorem excessBits_of_lt (fuel n : Nat) (h : n < 2 ^ 53) : excessBits fuel n = 0 := by
  cases fuel with
  | zero => rfl
  | succ fuel =>
    unfold excessBits
    rw [if_pos h]

/-- Integers below `2 ^ 53` are converted exactly. -/
theorem toDouble_of_lt (n : Nat) (h : n < 2 ^ 53) : toDouble n = n := by
  unfold toDouble
  rw [excessBits_of_lt n n h]
  simp [Nat.mod_one]

/-- For extents below `2 ^ 53` the halving step is the ceiling of `c / 2`. -/
theorem halveExtent_of_lt (c : Nat) (h : c < 2 ^ 53) : halveExtent c = (c + 1) / 2 := by
  simp [halveExtent, toDouble_of_lt c h]

theorem toDouble_cases (n : Nat) :
    toDouble n = n / 2 ^ excessBits n n * 2 ^ excessBits n n ∨
      (toDouble n = (n / 2 ^ excessBits n n + 1) * 2 ^ excessBits n n ∧
        n % 2 ^ excessBits n n ≠ 0) := by
  unfold toDouble
  have hpos : 0 < 2 ^ excessBits n n := Nat.pow_pos (by norm_num)
  simp only
  split
  · exact Or.inl rfl
  · split
    · right; refine ⟨rfl, ?_⟩; omega
    · split
      · exact Or.inl rfl
      · right; refine ⟨rfl, ?_⟩; omega

theorem toDouble_le_two_pow (c k : Nat) (h : c ≤ 2 ^ k) : toDouble c ≤ 2 ^ k := by
  rcases Nat.eq_zero_or_pos c with rfl | hc
  · simp [toDouble, excessBits]
  have he := two_pow_excessBits_le c c hc
  have hcases := toDouble_cases c
  generalize excessBits c c = e at he hcases
  have hek : e ≤ k := (Nat.pow_le_pow_iff_right (by norm_num : 1 < 2)).1 (le_trans he h)
  rcases hcases with h1 | ⟨h1, hr⟩
  · rw [h1]
    exact le_trans (Nat.div_mul_le_self c _) h
  · rw [h1]
    obtain ⟨m, rfl⟩ := Nat.exists_eq_add_of_le hek
    have hlt : c < 2 ^ (e + m) := by
      rcases Nat.lt_or_eq_of_le h with hlt | heq
      · exact hlt
      · exfalso
        apply hr
        rw [heq, pow_add]
        exact Nat.mul_mod_right _ _
    have hq : c / 2 ^ e < 2 ^ m := by
      apply Nat.div_lt_of_lt_mul
      rwa [← pow_add]
    calc (c / 2 ^ e + 1) * 2 ^ e
        ≤ 2 ^ m * 2 ^ e := Nat.mul_le_mul_right _ hq
      _ = 2 ^ (e + m) := by rw [pow_add, Nat.mul_comm]

theorem one_le_toDouble (c : Nat) (hc : 1 ≤ c) : 1 ≤ toDouble c := by
  have he := two_pow_excessBits_le c c hc
  have hpos : 0 < 2 ^ excessBits c c := Nat.pow_pos (by norm_num)
  have hq : 1 ≤ c / 2 ^ excessBits c c := (Nat.one_le_div_iff hpos).2 he
  rcases toDouble_cases c with h1 | ⟨h1, _⟩
  · rw [h1]; exact Nat.mul_pos hq hpos
  · rw [h1]; exact Nat.mul_pos (by omega) hpos

theorem one_le_halveExtent (c : Nat) (hc : 1 ≤ c) : 1 ≤ halveExtent c := by
  have := one_le_toDouble c hc
  unfold halveExtent
  omega

theorem halveExtent_le_two_pow (c k : Nat) (h : c ≤ 2 ^ (k + 1)) : halveExtent c ≤ 2 ^ k := by
  have := toDouble_le_two_pow c (k + 1) h
  rw [pow_succ] at this
  unfold halveExtent
  omega

theorem halveExtent_le (c : Nat) : halveExtent c ≤ c := by
  rcases Nat.lt_or_ge c 2 with h | h
  · have h0 := toDouble_le_two_pow c 0
    have h1 := toDouble_le_two_pow 0 0 (by norm_num)
    unfold halveExtent
    interval_cases c
    · simp [toDouble, excessBits]
    · have := h0 (by norm_num)
      simp at this
      omega
  · have hk := Nat.le_pow_clog (by norm_num : 1 < 2) c
    have hk1 := Nat.pow_pred_clog_lt_self (by norm_num : 1 < 2) (by omega : 1 < c)
    have hpos : 0 < Nat.clog 2 c := Nat.clog_pos (by norm_num) h
    obtain ⟨m, hm⟩ := Nat.exists_eq_succ_of_ne_zero (Nat.pos_iff_ne_zero.1 hpos)
    rw [hm] at hk hk1
    have := halveExtent_le_two_pow c m hk
    simp at hk1
    omega

/-! ## The loop of guessChunkSize -/

theorem accumulateProduct_nil : accumulateProduct [] = 1 := rfl

theorem loopExits_nil (t s : Nat) : loopExits t s [] := Or.inr (Or.inr rfl)

theorem chunkLoop_exit (t s fuel : Nat) (c : List Nat) (i : Nat) (h : loopExits t s c) :
    chunkLoop t s (fuel + 1) c i = some (c, i) := by
  unfold chunkLoop
  unfold loopExits at h
  simp only
  split_ifs
  all_goals first | rfl | (exfalso; tauto)

theorem chunkLoop_step (t s fuel : Nat) (c : List Nat) (i : Nat) (h : ¬ loopExits t s c) :
    chunkLoop t s (fuel + 1) c i = chunkLoop t s fuel (halveAt c i) (i + 1) := by
  have hne : c.length ≠ 0 := by
    intro h0
    apply h
    rw [List.length_eq_zero.1 h0]
    exact loopExits_nil t s
  unfold loopExits at h
  push_neg at h
  obtain ⟨h1, h2, h3⟩ := h
  conv_lhs => unfold chunkLoop
  simp only
  rw [if_neg (Nat.not_lt.2 h1), if_neg (fun hh => absurd (h2 hh.1) (Nat.not_le.2 hh.2)),
    if_neg h3, if_neg hne]
  rfl

/-- What the loop returns: the list after some number `k` of halving steps, at
which an exit test holds, with `index` advanced by `k`. -/
theorem chunkLoop_some (t s : Nat) :
    ∀ (fuel : Nat) (c : List Nat) (i : Nat) (r : List Nat × Nat),
      chunkLoop t s fuel c i = some r →
        ∃ k, k < fuel ∧ r = (iterHalve k c i, i + k) ∧ loopExits t s (iterHalve k c i) ∧
          ∀ m, m < k → ¬ loopExits t s (iterHalve m c i) := by
  intro fuel
  induction fuel with
  | zero => intro c i r h; simp [chunkLoop] at h
  | succ fuel ih =>
    intro c i r h
    by_cases hx : loopExits t s c
    · rw [chunkLoop_exit t s fuel c i hx] at h
      refine ⟨0, Nat.succ_pos _, ?_, hx, ?_⟩
      · simpa [iterHalve] using (Option.some.inj h).symm
      · intro m hm; omega
    · rw [chunkLoop_step t s fuel c i hx] at h
      obtain ⟨k, hk, hr, he, hmin⟩ := ih _ _ _ h
      refine ⟨k + 1, Nat.succ_lt_succ hk, ?_, he, ?_⟩
      · rw [hr]; simp [iterHalve]; omega
      · intro m hm
        cases m with
        | zero => exact hx
        | succ m => exact hmin m (by omega)

/-- Enough fuel gives the result: if an exit test holds after `K` halving steps,
the loop returns after at most `K` of them whenever it is given more than `K`
units of fuel. -/
theorem chunkLoop_of_exits (t s : Nat) :
    ∀ (K fuel : Nat) (c : List Nat) (i : Nat), K < fuel → loopExits t s (iterHalve K c i) →
      ∃ k, k ≤ K ∧ chunkLoop t s fuel c i = some (iterHalve k c i, i + k) := by
  intro K
  induction K with
  | zero =>
    intro fuel c i hf h
    obtain ⟨f, rfl⟩ := Nat.exists_eq_succ_of_ne_zero (by omega : fuel ≠ 0)
    exact ⟨0, le_refl _, chunkLoop_exit t s f c i h⟩
  | succ K ih =>
    intro fuel c i hf h
    obtain ⟨f, rfl⟩ := Nat.exists_eq_succ_of_ne_zero (by omega : fuel ≠ 0)
    by_cases hx : loopExits t s c
    · exact ⟨0, Nat.zero_le _, chunkLoop_exit t s f c i hx⟩
    · obtain ⟨k, hk, hr⟩ := ih f (halveAt c i) (i + 1) (by omega) h
      refine ⟨k + 1, by omega, ?_⟩
      rw [chunkLoop_step t s f c i hx, hr]
      simp [iterHalve]
      omega

/-- The result does not depend on the fuel, once there is enough of it. -/
theorem chunkLoop_fuel_mono (t s : Nat) (fuel fuel' : Nat) (c : List Nat) (i : Nat)
    (r : List Nat × Nat) (h : chunkLoop t s fuel c i = some r) (hle : fuel ≤ fuel') :
    chunkLoop t s fuel' c i = some r := by
  obtain ⟨k, hk, hr, he, hmin⟩ := chunkLoop_some t s fuel c i r h
  obtain ⟨k', hk', hr'⟩ := chunkLoop_of_exits t s k fuel' c i (by omega) he
  obtain ⟨k'', _, hr'', he'', _⟩ := chunkLoop_some t s fuel' c i _ hr'
  have hkk : k'' = k' := by
    have := congrArg Prod.snd hr''
    simp at this
    omega
  subst hkk
  have : k'' = k := by
    rcases Nat.lt_or_eq_of_le hk' with hlt | heq
    · exact absurd he'' (hmin k'' hlt)
    · exact heq
  subst this
  rw [hr', hr]

/-! ## Halving steps, position by position -/

theorem length_halveAt (c : List Nat) (i : Nat) : (halveAt c i).length = c.length := by
  simp [halveAt]

theorem length_iterHalve (k : Nat) (c : List Nat) (i : Nat) :
    (iterHalve k c i).length = c.length := by
  induction k generalizing c i with
  | zero => rfl
  | succ k ih => simp [iterHalve, ih, length_halveAt]

theorem getElem?_halveAt (c : List Nat) (i j : Nat) :
    (halveAt c i)[j]? = if i % c.length = j then ((c)[j]?).map halveExtent else (c)[j]? := by
  unfold halveAt
  rw [List.getElem?_set]
  split
  · rename_i h
    subst h
    split
    · rename_i hlt
      simp [List.getD_eq_getElem?_getD, List.getElem?_eq_getElem hlt]
    · rename_i hge
      simp [List.getElem?_eq_none (Nat.le_of_not_lt hge)]
  · rfl

theorem iterHalve_succ_last (k : Nat) (c : List Nat) (i : Nat) :
    iterHalve (k + 1) c i = halveAt (iterHalve k c i) (i + k) := by
  induction k generalizing c i with
  | zero => simp [iterHalve]
  | succ k ih =>
    have := ih (halveAt c i) (i + 1)
    simp only [iterHalve] at this ⊢
    rw [this]
    congr 1
    omega

theorem iterHalve_add (a b : Nat) (c : List Nat) (i : Nat) :
    iterHalve (a + b) c i = iterHalve b (iterHalve a c i) (i + a) := by
  induction a generalizing c i with
  | zero => simp [iterHalve]
  | succ a ih =>
    have : a + 1 + b = (a + b) + 1 := by omega
    rw [this]
    simp only [iterHalve]
    rw [ih]
    congr 1
    omega

/-- Within one round that starts at a multiple of the rank, the first `j`
halving steps halve exactly the first `j` extents. -/
theorem getElem?_iterHalve_round (c : List Nat) (r j m : Nat) (hj : j ≤ c.length) :
    (iterHalve j c (c.length * r))[m]? =
      if m < j then ((c)[m]?).map halveExtent else (c)[m]? := by
  induction j with
  | zero => simp [iterHalve]
  | succ j ih =>
    have hlt : j < c.length := hj
    rw [iterHalve_succ_last, getElem?_halveAt, length_iterHalve, ih (Nat.le_of_lt hlt),
      Nat.mul_add_mod, Nat.mod_eq_of_lt hlt]
    by_cases hjm : j = m
    · subst hjm
      simp
    · rw [if_neg hjm]
      by_cases hmj : m < j
      · rw [if_pos hmj, if_pos (by omega)]
      · rw [if_neg hmj, if_neg (by omega)]

/-- A full round halves every extent once. -/
theorem iterHalve_round (c : List Nat) (r : Nat) :
    iterHalve c.length c (c.length * r) = c.map halveExtent := by
  apply List.ext_getElem?
  intro m
  rw [getElem?_iterHalve_round c r c.length m (le_refl _), List.getElem?_map]
  split
  · rfl
  · rename_i h
    simp [List.getElem?_eq_none (Nat.le_of_not_lt h)]

/-- After `M` full rounds every extent has been halved `M` times. -/
theorem iterHalve_rounds (c : List Nat) (M : Nat) :
    iterHalve (c.length * M) c 0 = c.map (halveExtent^[M]) := by
  induction M with
  | zero => simp [iterHalve]
  | succ M ih =>
    rw [Nat.mul_succ, iterHalve_add, ih, Nat.zero_add]
    have := iterHalve_round (c.map (halveExtent^[M])) M
    rw [List.length_map] at this
    rw [this, List.map_map, Function.iterate_succ']

theorem iterate_halveExtent_eq_one (M d : Nat) (h1 : 1 ≤ d) (h2 : d ≤ 2 ^ M) :
    halveExtent^[M] d = 1 := by
  induction M generalizing d with
  | zero =>
    simp at h2
    simp
    omega
  | succ M ih =>
    rw [Function.iterate_succ_apply]
    exact ih _ (one_le_halveExtent d h1) (halveExtent_le_two_pow d M h2)

/-! ## Products -/

theorem foldl_mulMod_zero (l : List Nat) :
    l.foldl (fun acc c => (acc * c) % 2 ^ 64) 0 = 0 := by
  induction l with
  | nil => rfl
  | cons x l ih => simpa [List.foldl_cons] using ih

theorem foldl_mulMod_of_zero_mem (l : List Nat) (a : Nat) (h : 0 ∈ l) :
    l.foldl (fun acc c => (acc * c) % 2 ^ 64) a = 0 := by
  induction l generalizing a with
  | nil => simp at h
  | cons x l ih =>
    rw [List.foldl_cons]
    rcases List.mem_cons.1 h with h0 | h0
    · rw [← h0]
      simpa using foldl_mulMod_zero l
    · exact ih _ h0

theorem accumulateProduct_of_zero_mem (l : List Nat) (h : 0 ∈ l) : accumulateProduct l = 0 :=
  foldl_mulMod_of_zero_mem l 1 h

theorem accumulateProduct_of_all_one (l : List Nat) (h : ∀ x ∈ l, x = 1) :
    accumulateProduct l = 1 := by
  induction l with
  | nil => rfl
  | cons x l ih =>
    have hx : x = 1 := h x (List.mem_cons_self _ _)
    have := ih (fun y hy => h y (List.mem_cons_of_mem _ hy))
    subst hx
    simpa [accumulateProduct, List.foldl_cons] using this

/-- Without wrap-around the fold is the ordinary product. -/
theorem foldl_mulMod_eq (l : List Nat) (a : Nat) (hpos : ∀ x ∈ l, 1 ≤ x)
    (hlt : a * l.prod < 2 ^ 64) :
    l.foldl (fun acc c => (acc * c) % 2 ^ 64) a = a * l.prod := by
  induction l generalizing a with
  | nil => simp
  | cons x l ih =>
    rw [List.foldl_cons, List.prod_cons]
    rw [List.prod_cons, ← Nat.mul_assoc] at hlt
    have hl : 1 ≤ l.prod := by
      apply Nat.pos_of_ne_zero
      intro h0
      rcases List.prod_eq_zero_iff.1 h0 with hm
      have := hpos 0 (List.mem_cons_of_mem _ hm)
      omega
    have hax : a * x < 2 ^ 64 := lt_of_le_of_lt (Nat.le_mul_of_pos_right _ hl) hlt
    rw [Nat.mod_eq_of_lt hax, ih (a * x) (fun y hy => hpos y (List.mem_cons_of_mem _ hy)) hlt,
      Nat.mul_assoc]

theorem accumulateProduct_eq_prod (l : List Nat) (hpos : ∀ x ∈ l, 1 ≤ x)
    (hlt : l.prod < 2 ^ 64) : accumulateProduct l = l.prod := by
  have := foldl_mulMod_eq l 1 hpos (by simpa using hlt)
  simpa [accumulateProduct] using this

/-! ## Extents stay between 1 and the dataset extent -/

theorem forall₂_halveAt (c dims : List Nat) (i : Nat)
    (h : List.Forall₂ (fun x d => 1 ≤ x ∧ x ≤ d) c dims) :
    List.Forall₂ (fun x d => 1 ≤ x ∧ x ≤ d) (halveAt c i) dims := by
  rw [List.forall₂_iff_get] at h ⊢
  obtain ⟨hl, hp⟩ := h
  refine ⟨by rw [length_halveAt]; exact hl, fun j h1 h2 => ?_⟩
  have hj : j < c.length := by rwa [length_halveAt] at h1
  have key := getElem?_halveAt c i j
  rw [List.getElem?_eq_getElem h1, List.getElem?_eq_getElem hj] at key
  have hb := hp j hj h2
  simp only [List.get_eq_getElem] at hb ⊢
  split_ifs at key
  · simp only [Option.map_some', Option.some.injEq] at key
    rw [key]
    exact ⟨one_le_halveExtent _ hb.1, le_trans (halveExtent_le _) hb.2⟩
  · simp only [Option.some.injEq] at key
    rw [key]
    exact hb

theorem forall₂_iterHalve (k : Nat) (c dims : List Nat) (i : Nat)
    (h : List.Forall₂ (fun x d => 1 ≤ x ∧ x ≤ d) c dims) :
    List.Forall₂ (fun x d => 1 ≤ x ∧ x ≤ d) (iterHalve k c i) dims := by
  induction k generalizing c i with
  | zero => exact h
  | succ k ih => exact ih _ _ (forall₂_halveAt c dims i h)

theorem forall₂_self (dims : List Nat) (h : ∀ d ∈ dims, d ≠ 0) :
    List.Forall₂ (fun x d => 1 ≤ x ∧ x ≤ d) dims dims := by
  induction dims with
  | nil => exact List.Forall₂.nil
  | cons d dims ih =>
    refine List.Forall₂.cons ⟨?_, le_refl _⟩ (ih (fun x hx => h x (List.mem_cons_of_mem _ hx)))
    exact Nat.pos_of_ne_zero (h d (List.mem_cons_self _ _))

theorem forall₂_mem_one_le (c dims : List Nat)
    (h : List.Forall₂ (fun x d => 1 ≤ x ∧ x ≤ d) c dims) : ∀ x ∈ c, 1 ≤ x := by
  induction h with
  | nil => intro x hx; simp at hx
  | cons hab _ ih =>
    intro x hx
    rcases List.mem_cons.1 hx with rfl | hx
    · exact hab.1
    · exact ih x hx

theorem forall₂_prod_le (c dims : List Nat)
    (h : List.Forall₂ (fun x d => 1 ≤ x ∧ x ≤ d) c dims) : c.prod ≤ dims.prod := by
  induction h with
  | nil => exact le_refl _
  | cons hab _ ih =>
    rw [List.prod_cons, List.prod_cons]
    exact Nat.mul_le_mul hab.2 ih

/-! ## Fuel and termination -/

theorem lt_two_pow_bitLength (fuel n : Nat) (h : n ≤ fuel) : n < 2 ^ bitLength fuel n := by
  induction fuel generalizing n with
  | zero =>
    have : n = 0 := by omega
    subst this
    simp [bitLength]
  | succ fuel ih =>
    unfold bitLength
    split
    · rename_i h0
      subst h0
      simp
    · have := ih (n / 2) (by omega)
      rw [pow_succ]
      omega

theorem clog_le_bitLength (d : Nat) : Nat.clog 2 d ≤ bitLength d d :=
  (Nat.le_pow_iff_clog_le (by norm_num)).1 (Nat.le_of_lt (lt_two_pow_bitLength d d (le_refl _)))

theorem le_maxCeilLog2 (dims : List Nat) : ∀ d ∈ dims, d ≤ 2 ^ maxCeilLog2 dims := by
  induction dims with
  | nil => intro d hd; simp at hd
  | cons x dims ih =>
    intro d hd
    have hmono : ∀ a b : Nat, a ≤ b → 2 ^ a ≤ 2 ^ b :=
      fun a b hab => Nat.pow_le_pow_right (by norm_num) hab
    rcases List.mem_cons.1 hd with rfl | hd
    · exact le_trans (Nat.le_pow_clog (by norm_num) d) (hmono _ _ (le_max_left _ _))
    · exact le_trans (ih d hd) (hmono _ _ (le_max_right _ _))

theorem maxCeilLog2_lt_loopFuel (dims : List Nat) :
    dims.length * maxCeilLog2 dims < loopFuel dims := by
  have h : maxCeilLog2 dims ≤ dims.foldr (fun d m => max (bitLength d d) m) 0 := by
    induction dims with
    | nil => exact le_refl _
    | cons x dims ih => exact max_le_max (clog_le_bitLength x) ih
  unfold loopFuel
  exact Nat.lt_succ_of_le (Nat.mul_le_mul_left _ h)

theorem one_le_clampTarget (raw : Nat) : k_ChunkMin ≤ clampTarget raw := by
  unfold clampTarget k_ChunkMin k_ChunkMax
  split_ifs <;> omega

theorem clampTarget_le (raw : Nat) : clampTarget raw ≤ k_ChunkMax := by
  unfold clampTarget k_ChunkMin k_ChunkMax
  split_ifs <;> omega

theorem targetSizeOf_pos (st : Nat → Nat) (dims : List Nat) (ts : Nat) :
    0 < targetSizeOf st dims ts := by
  have := one_le_clampTarget (st ((accumulateProduct dims * ts) % 2 ^ 64))
  unfold k_ChunkMin at this
  unfold targetSizeOf
  simp only
  omega

/-- After `rank * maxCeilLog2` halving steps an exit test holds. -/
theorem loopExits_after_rounds (t s : Nat) (ht : 0 < t) (dims : List Nat) :
    loopExits t s (iterHalve (dims.length * maxCeilLog2 dims) dims 0) := by
  by_cases h0 : 0 ∈ dims
  · left
    have hlen := length_iterHalve (dims.length * maxCeilLog2 dims) dims 0
    rw [iterHalve_rounds]
    have : (0 : Nat) ∈ dims.map (halveExtent^[maxCeilLog2 dims]) := by
      refine List.mem_map.2 ⟨0, h0, ?_⟩
      have hz : halveExtent 0 = 0 := by simp [halveExtent, toDouble, excessBits]
      exact Function.iterate_fixed hz _
    rw [accumulateProduct_of_zero_mem _ this]
    simpa using ht
  · right; right
    rw [iterHalve_rounds]
    apply accumulateProduct_of_all_one
    intro x hx
    obtain ⟨d, hd, rfl⟩ := List.mem_map.1 hx
    have hd1 : 1 ≤ d := by
      apply Nat.pos_of_ne_zero
      rintro rfl
      exact h0 hd
    exact iterate_halveExtent_eq_one _ d hd1 (le_maxCeilLog2 dims d hd)

/-- The run of `guessChunkSize`: it returns, after `k` halving steps with
`k ≤ rank * maxCeilLog2`, the list reached by those steps, at which an exit
test holds and before which none does. -/
theorem guessChunkSizeRun_eq (st : Nat → Nat) (dims : List Nat) (ts : Nat) :
    ∃ k, k ≤ dims.length * maxCeilLog2 dims ∧
      guessChunkSizeRun st dims ts = some (iterHalve k dims 0, k) ∧
      loopExits (targetSizeOf st dims ts) ts (iterHalve k dims 0) ∧
      ∀ m, m < k → ¬ loopExits (targetSizeOf st dims ts) ts (iterHalve m dims 0) := by
  have ht : 0 < targetSizeOf st dims ts := targetSizeOf_pos st dims ts
  obtain ⟨k, hk, hr⟩ := chunkLoop_of_exits (targetSizeOf st dims ts) ts
    (dims.length * maxCeilLog2 dims) (loopFuel dims) dims 0 (maxCeilLog2_lt_loopFuel dims)
    (loopExits_after_rounds _ ts ht dims)
  obtain ⟨k', _, hr', he, hmin⟩ := chunkLoop_some _ _ _ _ _ _ hr
  have hkk : k' = k := by
    have := congrArg Prod.snd hr'
    simp at this
    omega
  subst hkk
  refine ⟨k', hk, ?_, he, hmin⟩
  unfold guessChunkSizeRun
  rw [hr, Nat.zero_add]

/-! ## guessChunkSize: results -/

theorem guessChunkSizeRun_spec (st : Nat → Nat) (dims : List Nat) (ts : Nat)
    (h : ∀ d ∈ dims, d ≠ 0) :
    ∃ c j, guessChunkSizeRun st dims ts = some (c, j) ∧
      List.Forall₂ (fun x d => 1 ≤ x ∧ x ≤ d) c dims ∧
      loopExits (targetSizeOf st dims ts) ts c := by
  obtain ⟨k, _, hr, he, _⟩ := guessChunkSizeRun_eq st dims ts
  exact ⟨_, _, hr, forall₂_iterHalve k dims dims 0 (forall₂_self dims h), he⟩

theorem prod_eq_one_all_one (l : List Nat) (h : l.prod = 1) : ∀ x ∈ l, x = 1 := by
  induction l with
  | nil => intro x hx; simp at hx
  | cons a l ih =>
    rw [List.prod_cons] at h
    have h1 : a = 1 := Nat.eq_one_of_mul_eq_one_right h
    have h2 : l.prod = 1 := Nat.eq_one_of_mul_eq_one_left h
    intro x hx
    rcases List.mem_cons.1 hx with rfl | hx
    · exact h1
    · exact ih h2 x hx

theorem guessChunkSize_bytes (st : Nat → Nat) (dims : List Nat) (ts : Nat)
    (h1 : ∀ d ∈ dims, 1 ≤ d) (h2 : ts * dims.prod < 2 ^ 64) :
    ∃ c, guessChunkSize st dims ts = some c ∧
      List.Forall₂ (fun x d => 1 ≤ x ∧ x ≤ d) c dims ∧
      (ts * c.prod ≤ 1048576 ∨ ∀ x ∈ c, x = 1) := by
  obtain ⟨c, j, hr, hb, he⟩ :=
    guessChunkSizeRun_spec st dims ts (fun d hd => Nat.pos_iff_ne_zero.1 (h1 d hd))
  refine ⟨c, by simp [guessChunkSize, hr], hb, ?_⟩
  rcases Nat.eq_zero_or_pos ts with rfl | hts
  · left; simp
  have hle : c.prod ≤ dims.prod := forall₂_prod_le c dims hb
  have hcd : ts * c.prod ≤ ts * dims.prod := Nat.mul_le_mul_left _ hle
  have hc : c.prod < 2 ^ 64 := lt_of_le_of_lt (Nat.le_mul_of_pos_left _ hts) (lt_of_le_of_lt hcd h2)
  have hacc : accumulateProduct c = c.prod :=
    accumulateProduct_eq_prod c (forall₂_mem_one_le c dims hb) hc
  have hbytes : (accumulateProduct c * ts) % 2 ^ 64 = ts * c.prod := by
    rw [hacc, Nat.mul_comm, Nat.mod_eq_of_lt (lt_of_le_of_lt hcd h2)]
  have ht : targetSizeOf st dims ts ≤ 1048576 := by
    have := clampTarget_le (st ((accumulateProduct dims * ts) % 2 ^ 64))
    unfold k_ChunkMax at this
    simpa [targetSizeOf] using this
  unfold loopExits at he
  rw [hbytes, hacc] at he
  rcases he with he | he | he
  · left; omega
  · left
    have := he.1
    unfold k_ChunkMax at this
    omega
  · right; exact prod_eq_one_all_one c he

/-- C1: for every shape in which no extent is 0 and every element size,
`guessChunkSize` returns a chunk shape of the same rank as the input whose
`i`-th extent lies between 1 and the `i`-th extent of the shape. -/
theorem guessChunkSize_extents_within (scaledTarget : Nat → Nat) (dims : List Nat)
    (typeSize : Nat) (h : ∀ d ∈ dims, d ≠ 0) :
    ∃ c, guessChunkSize scaledTarget dims typeSize = some c ∧ c.length = dims.length ∧
      ∀ (i : Nat) (hc : i < c.length) (hd : i < dims.length),
        1 ≤ c.get ⟨i, hc⟩ ∧ c.get ⟨i, hc⟩ ≤ dims.get ⟨i, hd⟩ := by
  obtain ⟨c, j, hr, hb, _⟩ := guessChunkSizeRun_spec scaledTarget dims typeSize h
  rw [List.forall₂_iff_get] at hb
  exact ⟨c, by simp [guessChunkSize, hr], hb.1, hb.2⟩

theorem guessChunkSize_extents_within_witness :
    (∀ d ∈ [4, 3], d ≠ 0) ∧
      ∃ c, guessChunkSize (fun _ => 16384) [4, 3] 4 = some c ∧ c.length = [4, 3].length ∧
        ∀ (i : Nat) (hc : i < c.length) (hd : i < [4, 3].length),
          1 ≤ c.get ⟨i, hc⟩ ∧ c.get ⟨i, hc⟩ ≤ [4, 3].get ⟨i, hd⟩ :=
  ⟨by decide, guessChunkSize_extents_within (fun _ => 16384) [4, 3] 4 (by decide)⟩

/-- C2: for every shape with all extents at least 1 and every element size `s`
with `s * product(shape) < 2 ^ 64`, the chunk shape `c` returned by
`guessChunkSize` satisfies `s * product(c) ≤ 1048576` unless every extent of `c`
is 1; and `guessChunkSize([1000000], 4)` returns a single extent `e` with
`e ≤ 1000000` and `4 * e ≤ 1048576`. -/
theorem guessChunkSize_bytes_le_chunkMax (scaledTarget : Nat → Nat) (dims : List Nat)
    (typeSize : Nat) (h1 : ∀ d ∈ dims, 1 ≤ d) (h2 : typeSize * dims.prod < 2 ^ 64) :
    (∃ c, guessChunkSize scaledTarget dims typeSize = some c ∧
      (typeSize * c.prod ≤ 1048576 ∨ ∀ x ∈ c, x = 1)) ∧
    (∃ e, guessChunkSize scaledTarget [1000000] 4 = some [e] ∧ e ≤ 1000000 ∧
      4 * e ≤ 1048576) := by
  constructor
  · obtain ⟨c, hc, _, hbytes⟩ := guessChunkSize_bytes scaledTarget dims typeSize h1 h2
    exact ⟨c, hc, hbytes⟩
  · obtain ⟨c, hc, hb, hbytes⟩ := guessChunkSize_bytes scaledTarget [1000000] 4
      (by simp) (by norm_num)
    cases hb with
    | cons hab htl =>
      cases htl
      rename_i e
      refine ⟨e, hc, hab.2, ?_⟩
      rcases hbytes with hbytes | hbytes
      · simpa using hbytes
      · have := hbytes e (List.mem_cons_self _ _)
        omega

theorem guessChunkSize_bytes_le_chunkMax_witness :
    ((∀ d ∈ [1024, 1024], 1 ≤ d) ∧ 8 * [1024, 1024].prod < 2 ^ 64) ∧
    ((∃ c, guessChunkSize (fun _ => 30639) [1024, 1024] 8 = some c ∧
      (8 * c.prod ≤ 1048576 ∨ ∀ x ∈ c, x = 1)) ∧
    (∃ e, guessChunkSize (fun _ => 30639) [1000000] 4 = some [e] ∧ e ≤ 1000000 ∧
      4 * e ≤ 1048576)) :=
  ⟨⟨by decide, by decide⟩,
    guessChunkSize_bytes_le_chunkMax (fun _ => 30639) [1024, 1024] 8 (by decide) (by decide)⟩

/-- C3: the search loop of `guessChunkSize` terminates for every shape
(rank 0, extents equal to 0 and all-ones shapes included) and every element
size: with the fuel `loopFuel dims`, and with any larger amount of fuel, the
loop returns one and the same result. -/
theorem guessChunkSize_loop_terminates (scaledTarget : Nat → Nat) (dims : List Nat)
    (typeSize : Nat) :
    ∃ r, ∀ extra : Nat,
      chunkLoop (targetSizeOf scaledTarget dims typeSize) typeSize (loopFuel dims + extra)
        dims 0 = some r := by
  obtain ⟨k, _, hr, _, _⟩ := guessChunkSizeRun_eq scaledTarget dims typeSize
  unfold guessChunkSizeRun at hr
  refine ⟨(iterHalve k dims 0, k), fun extra => ?_⟩
  exact chunkLoop_fuel_mono _ _ (loopFuel dims) _ dims 0 _ hr (Nat.le_add_right _ _)

/-- C4, as amended: for every shape and every element size, the number of
halving iterations executed by the loop of `guessChunkSize` before it stops is
at most the rank times the largest `ceil(log2(shape_i))`. -/
theorem guessChunkSize_iterations_le (scaledTarget : Nat → Nat) (dims : List Nat)
    (typeSize : Nat) :
    ∃ c index, guessChunkSizeRun scaledTarget dims typeSize = some (c, index) ∧
      index ≤ dims.length * maxCeilLog2 dims := by
  obtain ⟨k, hk, hr, _, _⟩ := guessChunkSizeRun_eq scaledTarget dims typeSize
  exact ⟨_, _, hr, hk⟩

/-- C4, as stated, fails: for the shape `[1, 1, 1, 1048576]` of 8-byte elements
(target 30639 bytes, the value of `16384 * 2 ^ log10(8)`), no extent is 0, the
loop executes 32 halving iterations, and the sum of `ceil(log2(shape_i))` is
20. -/
theorem guessChunkSize_iterations_exceed_sum :
    (∀ d ∈ [1, 1, 1, 1048576], d ≠ 0) ∧
      guessChunkSizeRun (fun _ => 30639) [1, 1, 1, 1048576] 8 = some ([1, 1, 1, 4096], 32) ∧
      sumCeilLog2 [1, 1, 1, 1048576] = 20 ∧
      ¬ (32 ≤ sumCeilLog2 [1, 1, 1, 1048576]) := by
  have hsum : sumCeilLog2 [1, 1, 1, 1048576] = 20 := by
    have : (1048576 : Nat) = 2 ^ 20 := by norm_num
    simp [sumCeilLog2, Nat.clog_one_right, this, Nat.clog_pow 2 20 (by norm_num)]
  refine ⟨by decide, by decide, hsum, ?_⟩
  rw [hsum]
  decide

/-- C5: for every element size, `guessChunkSize` returns its input shape
unchanged, with no halving step executed (final `index` 0), when every extent
of the shape is 1 and when some extent of the shape is 0; in the latter case
the chunk holds 0 elements. -/
theorem guessChunkSize_unchanged (scaledTarget : Nat → Nat) (dims : List Nat)
    (typeSize : Nat) (h : (∀ d ∈ dims, d = 1) ∨ 0 ∈ dims) :
    guessChunkSizeRun scaledTarget dims typeSize = some (dims, 0) ∧
      guessChunkSize scaledTarget dims typeSize = some dims ∧
      (0 ∈ dims → dims.prod = 0) := by
  have hexit : loopExits (targetSizeOf scaledTarget dims typeSize) typeSize dims := by
    rcases h with h | h
    · exact Or.inr (Or.inr (accumulateProduct_of_all_one dims h))
    · left
      rw [accumulateProduct_of_zero_mem dims h, Nat.zero_mul, Nat.zero_mod]
      exact targetSizeOf_pos scaledTarget dims typeSize
  obtain ⟨k, _, hr, _, hmin⟩ := guessChunkSizeRun_eq scaledTarget dims typeSize
  have hk : k = 0 := by
    rcases Nat.eq_zero_or_pos k with hk | hk
    · exact hk
    · exact absurd hexit (hmin 0 hk)
  subst hk
  have hrun : guessChunkSizeRun scaledTarget dims typeSize = some (dims, 0) := by
    simpa [iterHalve] using hr
  refine ⟨hrun, by simp [guessChunkSize, hrun], ?_⟩
  intro h0
  exact List.prod_eq_zero h0

theorem guessChunkSize_unchanged_witness :
    (((∀ d ∈ [1, 1, 1], d = 1) ∨ 0 ∈ [1, 1, 1]) ∧
      guessChunkSizeRun (fun _ => 0) [1, 1, 1] 4 = some ([1, 1, 1], 0)) ∧
    (((∀ d ∈ [5, 0, 7], d = 1) ∨ 0 ∈ [5, 0, 7]) ∧
      guessChunkSizeRun (fun _ => 0) [5, 0, 7] 4 = some ([5, 0, 7], 0)) :=
  ⟨⟨Or.inl (by decide), (guessChunkSize_unchanged (fun _ => 0) [1, 1, 1] 4 (Or.inl (by decide))).1⟩,
    ⟨Or.inr (by decide), (guessChunkSize_unchanged (fun _ => 0) [5, 0, 7] 4 (Or.inr (by decide))).1⟩⟩

/-! ## Pointer-dataset writers: results -/

theorem toHerr_eq (x : Int) (h1 : -2147483648 ≤ x) (h2 : x < 2147483648) : toHerr x = x := by
  unfold toHerr
  norm_num
  omega

/-- C6: for every outcome of the library calls in which a failed identifier
is representable as an `herr_t`, `writePointerDataset` returns a negative
status if and only if the payload pointer is null, the element type is
unresolved, or at least one of its steps (dataspace creation, dataset creation,
data write, dataset close, dataspace close) fails; when all of them succeed it
returns 0. -/
theorem writePointerDataset_negative_iff (dataIsNull : Bool) (dataType : Int)
    (o : LibOutcomes) (hS : -2147483648 ≤ o.H5Screate_simple)
    (hD : -2147483648 ≤ o.H5Dcreate) :
    ((writePointerDataset dataIsNull dataType o).1 < 0 ↔
      (dataIsNull = true ∨ dataType = -1 ∨ o.H5Screate_simple < 0 ∨ o.H5Dcreate < 0 ∨
        o.H5Dwrite < 0 ∨ o.H5Dclose < 0 ∨ o.H5Sclose < 0)) ∧
    ((writePointerDataset dataIsNull dataType o).1 < 0 ↔
      (dataIsNull = true ∨ dataType = -1 ∨
        ∃ e ∈ (writePointerDataset dataIsNull dataType o).2, e.2 < 0)) ∧
    (dataIsNull = false → dataType ≠ -1 → 0 ≤ o.H5Screate_simple → 0 ≤ o.H5Dcreate →
      0 ≤ o.H5Dwrite → 0 ≤ o.H5Dclose → 0 ≤ o.H5Sclose →
      (writePointerDataset dataIsNull dataType o).1 = 0) := by
  have hS1 : o.H5Screate_simple < 0 → toHerr o.H5Screate_simple = o.H5Screate_simple :=
    fun h => toHerr_eq _ hS (by omega)
  have hD1 : o.H5Dcreate < 0 → toHerr o.H5Dcreate = o.H5Dcreate :=
    fun h => toHerr_eq _ hD (by omega)
  unfold writePointerDataset
  cases dataIsNull
  · by_cases hT : dataType = -1
    · simp [hT]
    · by_cases h1 : o.H5Screate_simple < 0
      · simp [hT, h1, hS1 h1]
      · by_cases h2 : 0 ≤ o.H5Dcreate
        · by_cases h3 : o.H5Dwrite < 0 <;> by_cases h4 : o.H5Dclose < 0 <;>
            by_cases h5 : o.H5Sclose < 0 <;>
            simp [hT, h1, h2, h3, h4, h5]
        · have h2' : o.H5Dcreate < 0 := by omega
          by_cases h5 : o.H5Sclose < 0 <;>
            simp [hT, h1, h2, h2', h5, hD1 h2']
  · simp

theorem writePointerDataset_negative_iff_witness :
    (-2147483648 ≤ outcomesWriteAndSpaceCloseFail.H5Screate_simple ∧
      -2147483648 ≤ outcomesWriteAndSpaceCloseFail.H5Dcreate) ∧
    (writePointerDataset false 1 outcomesWriteAndSpaceCloseFail).1 < 0 ∧
    (writePointerDataset false 1 outcomesAllSucceed).1 = 0 :=
  ⟨⟨by decide, by decide⟩,
    (writePointerDataset_negative_iff false 1 outcomesWriteAndSpaceCloseFail
      (by decide) (by decide)).1.2 (by decide),
    (writePointerDataset_negative_iff false 1 outcomesAllSucceed (by decide) (by decide)).2.2
      rfl (by decide) (by decide) (by decide) (by decide) (by decide) (by decide)⟩

/-- C7, as amended: when the payload is non-null and the element type is
resolved, the status returned by `writePointerDataset` is the status of the last
step that failed (0 when no step failed): a failure of a later cleanup step
replaces the status of an earlier failure. -/
theorem writePointerDataset_status_last_failure (dataType : Int) (o : LibOutcomes)
    (hT : dataType ≠ -1) :
    (writePointerDataset false dataType o).1 =
      ((failedStatuses (writePointerDataset false dataType o).2).getLast?).getD 0 := by
  unfold writePointerDataset failedStatuses
  by_cases h1 : o.H5Screate_simple < 0
  · simp [hT, h1, stepStatus]
  · by_cases h2 : 0 ≤ o.H5Dcreate
    · have h2n : ¬ o.H5Dcreate < 0 := by omega
      by_cases h3 : o.H5Dwrite < 0 <;> by_cases h4 : o.H5Dclose < 0 <;>
        by_cases h5 : o.H5Sclose < 0 <;>
        simp [hT, h1, h2, h2n, h3, h4, h5, stepStatus, List.filter]
    · have h2' : o.H5Dcreate < 0 := by omega
      by_cases h5 : o.H5Sclose < 0 <;>
        simp [hT, h1, h2, h2', h5, stepStatus, List.filter]

theorem writePointerDataset_status_last_failure_witness :
    (1 : Int) ≠ -1 ∧
      (writePointerDataset false 1 outcomesWriteAndSpaceCloseFail).1 =
        ((failedStatuses
          (writePointerDataset false 1 outcomesWriteAndSpaceCloseFail).2).getLast?).getD 0 :=
  ⟨by decide, writePointerDataset_status_last_failure 1 outcomesWriteAndSpaceCloseFail
    (by decide)⟩

/-- C7, as stated, fails: when the data write fails with -3, the dataset close
succeeds and the dataspace close fails with -7, the first step that failed is
the write, with status -3, and `writePointerDataset` returns -7. -/
theorem writePointerDataset_status_not_first_failure :
    (failedStatuses (writePointerDataset false 1 outcomesWriteAndSpaceCloseFail).2).head? =
        some (-3) ∧
      (writePointerDataset false 1 outcomesWriteAndSpaceCloseFail).1 = -7 ∧
      (writePointerDataset false 1 outcomesWriteAndSpaceCloseFail).1 ≠ -3 := by
  decide

/-- C8 fails on the code: when `H5Pset_deflate` fails and every other call
succeeds, `writePointerDatasetCompressed` returns 0 after closing the property
list and the dataspace, without creating the dataset; the same holds when
`H5Pset_chunk` fails. -/
theorem writePointerDatasetCompressed_deflate_failure_returns_zero :
    writePointerDatasetCompressed false 1 outcomesDeflateFails =
        (0, [(LibCall.H5Screate_simple, 1), (LibCall.H5Pcreate, 2), (LibCall.H5Pset_chunk, 0),
          (LibCall.H5Pset_deflate, -1), (LibCall.H5Pclose, 0), (LibCall.H5Sclose, 0)]) ∧
      writePointerDatasetCompressed false 1 outcomesChunkFails =
        (0, [(LibCall.H5Screate_simple, 1), (LibCall.H5Pcreate, 2), (LibCall.H5Pset_chunk, -1),
          (LibCall.H5Pclose, 0), (LibCall.H5Sclose, 0)]) := by
  decide

/-- C9: when the payload pointer is null, `writePointerDataset`,
`replacePointerDataset` and `writePointerDatasetCompressed` return -2, -2 and
-100, and when the payload is non-null and the element type has no storage tag
they return -1, -1 and -101; in all six cases no library call has been made. -/
theorem writers_reject_before_any_call (dataType : Int) (o : LibOutcomes) :
    (writePointerDataset true dataType o = (-2, []) ∧
      replacePointerDataset true dataType o = (-2, []) ∧
      writePointerDatasetCompressed true dataType o = (-100, [])) ∧
    (writePointerDataset false (-1) o = (-1, []) ∧
      replacePointerDataset false (-1) o = (-1, []) ∧
      writePointerDatasetCompressed false (-1) o = (-101, [])) := by
  refine ⟨⟨?_, ?_, ?_⟩, ⟨?_, ?_, ?_⟩⟩ <;>
    simp [writePointerDataset, replacePointerDataset, writePointerDatasetCompressed]

/-- C10: for every outcome of the library calls in
`writePointerDatasetCompressed`, each of the dataspace, the dataset-creation
property list and the dataset that was successfully opened has its close called
exactly once, after the call that opened it, and the close of a resource that
was not opened is never called. -/
theorem writePointerDatasetCompressed_closes_once (dataIsNull : Bool) (dataType : Int)
    (o : LibOutcomes) :
    (openedBy LibCall.H5Screate_simple (writePointerDatasetCompressed dataIsNull dataType o).2 →
      callCount LibCall.H5Sclose (writePointerDatasetCompressed dataIsNull dataType o).2 = 1 ∧
      List.Sublist [LibCall.H5Screate_simple, LibCall.H5Sclose]
        ((writePointerDatasetCompressed dataIsNull dataType o).2.map Prod.fst)) ∧
    (¬ openedBy LibCall.H5Screate_simple (writePointerDatasetCompressed dataIsNull dataType o).2 →
      callCount LibCall.H5Sclose (writePointerDatasetCompressed dataIsNull dataType o).2 = 0) ∧
    (openedBy LibCall.H5Pcreate (writePointerDatasetCompressed dataIsNull dataType o).2 →
      callCount LibCall.H5Pclose (writePointerDatasetCompressed dataIsNull dataType o).2 = 1 ∧
      List.Sublist [LibCall.H5Pcreate, LibCall.H5Pclose]
        ((writePointerDatasetCompressed dataIsNull dataType o).2.map Prod.fst)) ∧
    (¬ openedBy LibCall.H5Pcreate (writePointerDatasetCompressed dataIsNull dataType o).2 →
      callCount LibCall.H5Pclose (writePointerDatasetCompressed dataIsNull dataType o).2 = 0) ∧
    (openedBy LibCall.H5Dcreate (writePointerDatasetCompressed dataIsNull dataType o).2 →
      callCount LibCall.H5Dclose (writePointerDatasetCompressed dataIsNull dataType o).2 = 1 ∧
      List.Sublist [LibCall.H5Dcreate, LibCall.H5Dclose]
        ((writePointerDatasetCompressed dataIsNull dataType o).2.map Prod.fst)) ∧
    (¬ openedBy LibCall.H5Dcreate (writePointerDatasetCompressed dataIsNull dataType o).2 →
      callCount LibCall.H5Dclose (writePointerDatasetCompressed dataIsNull dataType o).2 = 0) := by
  unfold writePointerDatasetCompressed openedBy callCount
  cases dataIsNull
  · by_cases hT : dataType = -1
    · simp [hT]
    · by_cases h1 : o.H5Screate_simple < 0
      · have h1n : ¬ 0 ≤ o.H5Screate_simple := by omega
        simp [hT, h1, h1n]
      · have h1p : 0 ≤ o.H5Screate_simple := by omega
        by_cases h2 : o.H5Pcreate < 0
        · have h2n : ¬ 0 ≤ o.H5Pcreate := by omega
          simp [hT, h1, h1p, h2, h2n]
        · have h2p : 0 ≤ o.H5Pcreate := by omega
          by_cases h3 : o.H5Pset_chunk < 0
          · simp [hT, h1, h1p, h2, h2p, h3]
          · by_cases h4 : o.H5Pset_deflate < 0
            · simp [hT, h1, h1p, h2, h2p, h3, h4]
            · by_cases h5 : 0 ≤ o.H5Dcreate
              · simp [hT, h1, h1p, h2, h2p, h3, h4, h5]
                decide
              · simp [hT, h1, h1p, h2, h2p, h3, h4, h5]
  · simp

/-- Extent of the unreported failures: the only way for
`writePointerDatasetCompressed` to make a call that fails and still return a
non-negative status is that `H5Pset_chunk` or `H5Pset_deflate` failed and both
closes that follow succeeded; the status is then 0. -/
theorem writePointerDatasetCompressed_failure_unreported (dataType : Int) (o : LibOutcomes)
    (hT : dataType ≠ -1)
    (hfail : ∃ e ∈ (writePointerDatasetCompressed false dataType o).2, e.2 < 0)
    (hok : 0 ≤ (writePointerDatasetCompressed false dataType o).1) :
    (o.H5Pset_chunk < 0 ∨ o.H5Pset_deflate < 0) ∧ 0 ≤ o.H5Pclose ∧ 0 ≤ o.H5Sclose ∧
      (writePointerDatasetCompressed false dataType o).1 = 0 := by
  unfold writePointerDatasetCompressed at hfail hok ⊢
  by_cases h1 : o.H5Screate_simple < 0
  · simp [hT, h1] at hok
  · by_cases h2 : o.H5Pcreate < 0
    · by_cases h9 : o.H5Sclose < 0 <;> simp [hT, h1, h2, h9] at hok
    · by_cases h8 : o.H5Pclose < 0 <;> by_cases h9 : o.H5Sclose < 0
      · by_cases h3 : o.H5Pset_chunk < 0 <;> by_cases h4 : o.H5Pset_deflate < 0 <;>
          simp [hT, h1, h2, h3, h4, h8, h9] at hok
      · by_cases h3 : o.H5Pset_chunk < 0 <;> by_cases h4 : o.H5Pset_deflate < 0 <;>
          simp [hT, h1, h2, h3, h4, h8, h9] at hok
      · by_cases h3 : o.H5Pset_chunk < 0 <;> by_cases h4 : o.H5Pset_deflate < 0 <;>
          simp [hT, h1, h2, h3, h4, h8, h9] at hok
      · by_cases h3 : o.H5Pset_chunk < 0
        · simp [hT, h1, h2, h3, h8, h9]
          omega
        · by_cases h4 : o.H5Pset_deflate < 0
          · simp [hT, h1, h2, h3, h4, h8, h9]
            omega
          · exfalso
            by_cases h5 : 0 ≤ o.H5Dcreate
            · by_cases h6 : o.H5Dwrite < 0 <;> by_cases h7 : o.H5Dclose < 0 <;>
                simp [hT, h1, h2, h3, h4, h5, h6, h7, h8, h9] at hfail hok
              omega
            · simp [hT, h1, h2, h3, h4, h5, h8, h9] at hok

/-! ## HDFTypeForPrimitive: results -/

/-- For every build: `HDFTypeForPrimitive` maps `int8_t` and `signed char` to
the signed 8-bit tag, `uint8_t` and `unsigned char` to the unsigned 8-bit tag,
and plain `char` to the signed 8-bit tag when the macro
`CMP_TYPE_CHAR_IS_SIGNED` is defined non-zero and to the unsigned 8-bit tag
otherwise. -/
theorem HDFTypeForPrimitive_char_types (p : Platform) :
    HDFTypeForPrimitive p p.int8_t = HDFType.H5T_NATIVE_INT8 ∧
    HDFTypeForPrimitive p CType.signedChar = HDFType.H5T_NATIVE_INT8 ∧
    HDFTypeForPrimitive p p.uint8_t = HDFType.H5T_NATIVE_UINT8 ∧
    HDFTypeForPrimitive p CType.unsignedChar = HDFType.H5T_NATIVE_UINT8 ∧
    HDFTypeForPrimitive p CType.char =
      (if p.CMP_TYPE_CHAR_IS_SIGNED ≠ 0 then HDFType.H5T_NATIVE_INT8
       else HDFType.H5T_NATIVE_UINT8) := by
  refine ⟨?_, ?_, ?_, ?_, ?_⟩
  · simp [HDFTypeForPrimitive, Platform.int8_t]
  · simp [HDFTypeForPrimitive, Platform.int8_t]
  · simp [HDFTypeForPrimitive, Platform.int8_t, Platform.uint8_t]
  · simp [HDFTypeForPrimitive, Platform.int8_t, Platform.uint8_t]
  · by_cases h : p.CMP_TYPE_CHAR_IS_SIGNED = 0 <;>
      simp [HDFTypeForPrimitive, Platform.int8_t, Platform.uint8_t, h]

/-! ## writeStringAttributes: results -/

theorem writeStringAttributesLoop_all_succeed (outcome : Nat → Int) :
    ∀ (attributes : List (String × String)) (index : Nat) (error : Int), 0 ≤ error →
      (∀ i, i < attributes.length → 0 ≤ outcome (index + i)) →
      0 ≤ (writeStringAttributesLoop outcome attributes index error).1 ∧
        (writeStringAttributesLoop outcome attributes index error).2 = attributes := by
  intro attributes
  induction attributes with
  | nil => intro index error he _; exact ⟨he, rfl⟩
  | cons a rest ih =>
    intro index error _ hall
    have h0 : 0 ≤ outcome index := by simpa using hall 0 (by simp)
    have hrest := ih (index + 1) (outcome index) h0 (fun i hi => by
      have := hall (i + 1) (by simpa using hi)
      rwa [show index + 1 + i = index + (i + 1) by omega])
    unfold writeStringAttributesLoop
    simp only [if_neg (not_lt.2 h0)]
    exact ⟨hrest.1, by rw [hrest.2]⟩

theorem writeStringAttributesLoop_first_failure (outcome : Nat → Int) :
    ∀ (attributes : List (String × String)) (index : Nat) (error : Int) (k : Nat),
      k < attributes.length → outcome (index + k) < 0 →
      (∀ i, i < k → 0 ≤ outcome (index + i)) →
      (writeStringAttributesLoop outcome attributes index error).1 = outcome (index + k) ∧
        (writeStringAttributesLoop outcome attributes index error).2 =
          attributes.take (k + 1) := by
  intro attributes
  induction attributes with
  | nil => intro index error k hk; simp at hk
  | cons a rest ih =>
    intro index error k hk hneg hpos
    unfold writeStringAttributesLoop
    cases k with
    | zero =>
      have h0 : outcome index < 0 := by simpa using hneg
      simp [h0]
    | succ k =>
      have h0 : 0 ≤ outcome index := by simpa using hpos 0 (Nat.succ_pos _)
      have hrest := ih (index + 1) (outcome index) k (by simpa using hk)
        (by rwa [show index + 1 + k = index + (k + 1) by omega])
        (fun i hi => by
          have := hpos (i + 1) (by omega)
          rwa [show index + 1 + i = index + (i + 1) by omega])
      simp only [if_neg (not_lt.2 h0)]
      refine ⟨?_, ?_⟩
      · rw [hrest.1]
        congr 1
        omega
      · rw [hrest.2]
        rfl

/-- C19: for every list of pairs (the map in iteration order) and every
outcome of the individual writes, `writeStringAttributes` calls
`writeStringAttribute` on the pairs in order; at the first pair whose write
returns a negative status it returns that status and calls no later pair; if no
write fails it has called every pair and returns a non-negative status, and it
returns 0 for the empty map. -/
theorem writeStringAttributes_first_failure (outcome : Nat → Int)
    (attributes : List (String × String)) :
    (∀ k, k < attributes.length → outcome k < 0 → (∀ i, i < k → 0 ≤ outcome i) →
      (writeStringAttributes outcome attributes).1 = outcome k ∧
      (writeStringAttributes outcome attributes).2 = attributes.take (k + 1)) ∧
    ((∀ i, i < attributes.length → 0 ≤ outcome i) →
      0 ≤ (writeStringAttributes outcome attributes).1 ∧
      (writeStringAttributes outcome attributes).2 = attributes) ∧
    writeStringAttributes outcome [] = (0, []) := by
  refine ⟨?_, ?_, rfl⟩
  · intro k hk hneg hpos
    have := writeStringAttributesLoop_first_failure outcome attributes 0 0 k hk
      (by simpa using hneg) (fun i hi => by simpa using hpos i hi)
    simpa [writeStringAttributes] using this
  · intro hall
    exact writeStringAttributesLoop_all_succeed outcome attributes 0 0 (le_refl _)
      (fun i hi => by simpa using hall i hi)

theorem writeStringAttributes_first_failure_witness :
    (writeStringAttributes (fun i => if i = 1 then -5 else 0)
        [("a", "x"), ("b", "y"), ("c", "z")]).1 = -5 ∧
      (writeStringAttributes (fun i => if i = 1 then -5 else 0)
        [("a", "x"), ("b", "y"), ("c", "z")]).2 = [("a", "x"), ("b", "y")] :=
  (writeStringAttributes_first_failure (fun i => if i = 1 then -5 else 0)
    [("a", "x"), ("b", "y"), ("c", "z")]).1 1 (by decide) (by decide) (by decide)

/-! ## Attribute operations: results -/

theorem H5Aiterate_find_attr (attributeName : String) (names : List String) :
    H5Aiterate (fun name => find_attr name attributeName) names =
      if attributeName ∈ names then 1 else 0 := by
  induction names with
  | nil => simp [H5Aiterate]
  | cons n rest ih =>
    unfold H5Aiterate
    by_cases h : n = attributeName
    · simp [find_attr, h]
    · have h' : ¬ attributeName = n := fun e => h e.symm
      have hf : find_attr n attributeName = 0 := by simp [find_attr, h]
      simp only [hf, ne_eq, not_true_eq_false, if_false, ih, List.mem_cons, h', false_or]

/-- The probe returns 1 exactly when the attribute is among those of the
object. -/
theorem findAttribute_eq_one_iff (names : List String) (attributeName : String) :
    findAttribute (some names) attributeName = 1 ↔ attributeName ∈ names := by
  simp only [findAttribute, H5Aiterate_find_attr]
  by_cases h : attributeName ∈ names <;> simp [h]

theorem writeAttributeOnObject_delete (attributeName : String) (o : AttrWriteOutcomes)
    (error : Int) (log : AttrLog) (herr : 0 ≤ error) (hS : 0 ≤ o.H5Screate_simple)
    (hlog : ∀ e ∈ log, e.1 ≠ AttrCall.H5Adelete ∧ e.1 ≠ AttrCall.H5Acreate ∧
      e.1 ≠ AttrCall.H5Awrite) :
    DeletesThenRecreates attributeName o (writeAttributeOnObject attributeName o error log) := by
  unfold DeletesThenRecreates
  have hl1 : AttrCall.H5Adelete ∉ log.map Prod.fst := by
    intro h
    obtain ⟨e, he, heq⟩ := List.mem_map.1 h
    exact (hlog e he).1 heq
  have hl2 : AttrCall.H5Acreate ∉ log.map Prod.fst := by
    intro h
    obtain ⟨e, he, heq⟩ := List.mem_map.1 h
    exact (hlog e he).2.1 heq
  have hl3 : AttrCall.H5Awrite ∉ log.map Prod.fst := by
    intro h
    obtain ⟨e, he, heq⟩ := List.mem_map.1 h
    exact (hlog e he).2.2 heq
  have hc : ∀ c : AttrCall, c ≠ AttrCall.H5Dclose → c ≠ AttrCall.H5Gclose →
      c ∉ (closeId o.objectType o.H5Dclose o.H5Gclose).2.map Prod.fst := by
    intro c h1 h2
    unfold closeId
    cases o.objectType <;> simp <;> split_ifs <;> simp [Ne.symm h1, Ne.symm h2, h1, h2]
  have hclosed : (closeId o.objectType o.H5Dclose o.H5Gclose).1 < 0 ∨
      (closeId o.objectType o.H5Dclose o.H5Gclose).1 = 1 := by
    unfold closeId
    cases o.objectType <;> simp <;> split_ifs <;> simp
  have hcD := hc AttrCall.H5Adelete (by decide) (by decide)
  have hcC := hc AttrCall.H5Acreate (by decide) (by decide)
  have hcW := hc AttrCall.H5Awrite (by decide) (by decide)
  unfold writeAttributeOnObject
  simp only [hS, if_true]
  generalize closeId o.objectType o.H5Dclose o.H5Gclose = closed at hcD hcC hcW hclosed ⊢
  generalize findAttribute o.attributes attributeName = hasAttribute
  by_cases h1 : hasAttribute = 1
  · by_cases h2 : o.H5Adelete < 0
    · have h2n : ¬ 0 ≤ o.H5Adelete := by omega
      simp only [h1, h2, h2n, if_true, if_false]
      simp [hl1, hl2, hl3, hcD, hcC, hcW]
      rcases hclosed with hcl | hcl
      · simp [hcl]
      · simp [hcl]
        split_ifs <;> omega
    · have h2p : 0 ≤ o.H5Adelete := by omega
      by_cases h3 : 0 ≤ o.H5Acreate
      · simp only [h1, h2, h2p, h3, if_true, if_false]
        simp [hl1, hl2, hl3, hcD, hcC, hcW]
        refine List.Sublist.trans ?_ (List.sublist_append_right _ _)
        exact List.Sublist.cons _ (List.Sublist.cons _
          (List.Sublist.cons₂ _ (List.Sublist.cons₂ _ (List.nil_sublist _))))
      · simp only [h1, h2, h2p, h3, if_true, if_false]
        simp [hl1, hl2, hl3, hcD, hcC, hcW, h3]
        refine List.Sublist.trans ?_ (List.sublist_append_right _ _)
        exact List.Sublist.cons _ (List.Sublist.cons _
          (List.Sublist.cons₂ _ (List.Sublist.cons₂ _ (List.nil_sublist _))))
  · by_cases h3 : 0 ≤ o.H5Acreate
    · simp only [h1, herr, h3, if_true, if_false]
      simp [hl1, hl2, hl3, hcD, hcC, hcW]
    · simp only [h1, herr, h3, if_true, if_false]
      simp [hl1, hl2, hl3, hcD, hcC, hcW, h3]


theorem openId_log (objectType : ObjectType) (dopen gopen : Int) :
    ∀ e ∈ (openId objectType dopen gopen).2,
      e.1 ≠ AttrCall.H5Adelete ∧ e.1 ≠ AttrCall.H5Acreate ∧ e.1 ≠ AttrCall.H5Awrite := by
  unfold openId
  cases objectType <;> simp <;> split_ifs <;> simp

/-- C18: in `writePointerAttribute` and `writeScalarAttribute`, once the host
object and the dataspace are open, the existing attribute is deleted exactly
when the probe `findAttribute` returns 1, and is then created anew and, the
creation succeeding, written; if the deletion fails, no create or write is
attempted and the returned status is negative. -/
theorem writeAttribute_deletes_then_recreates (dataType : Int) (attributeName : String)
    (o : AttrWriteOutcomes) (hT : dataType ≠ -1) (hinfo : 0 ≤ o.H5Oget_info_by_name)
    (hobj : 0 ≤ (openId o.objectType o.H5Dopen o.H5Gopen).1)
    (hS : 0 ≤ o.H5Screate_simple) :
    DeletesThenRecreates attributeName o (writePointerAttribute dataType attributeName o) ∧
    DeletesThenRecreates attributeName o (writeScalarAttribute dataType attributeName o) := by
  have hlog : ∀ e ∈ [(AttrCall.H5Oget_info_by_name, o.H5Oget_info_by_name)] ++
      (openId o.objectType o.H5Dopen o.H5Gopen).2,
      e.1 ≠ AttrCall.H5Adelete ∧ e.1 ≠ AttrCall.H5Acreate ∧ e.1 ≠ AttrCall.H5Awrite := by
    intro e he
    rcases List.mem_append.1 he with h | h
    · simp at h
      subst h
      simp
    · exact openId_log _ _ _ e h
  have hinfo' : ¬ o.H5Oget_info_by_name < 0 := by omega
  have hobj' : ¬ (openId o.objectType o.H5Dopen o.H5Gopen).1 < 0 := by omega
  constructor
  · unfold writePointerAttribute
    simp only [hT, hinfo', hobj', if_false]
    exact writeAttributeOnObject_delete attributeName o 0 _ (le_refl _) hS hlog
  · unfold writeScalarAttribute
    simp only [hT, hinfo', hobj', if_false]
    exact writeAttributeOnObject_delete attributeName o _ _ hinfo hS hlog

theorem writeAttribute_deletes_then_recreates_witness :
    ((5 : Int) ≠ -1 ∧ 0 ≤ outcomesDeleteFails.H5Oget_info_by_name ∧
      0 ≤ (openId outcomesDeleteFails.objectType outcomesDeleteFails.H5Dopen
        outcomesDeleteFails.H5Gopen).1 ∧ 0 ≤ outcomesDeleteFails.H5Screate_simple) ∧
    (writePointerAttribute 5 "a" outcomesDeleteFails).1 < 0 ∧
    (writeScalarAttribute 5 "a" outcomesDeleteFails).1 < 0 :=
  ⟨⟨by decide, by decide, by decide, by decide⟩,
    ((writeAttribute_deletes_then_recreates 5 "a" outcomesDeleteFails (by decide) (by decide)
      (by decide) (by decide)).1.2.2 (by decide) (by decide)).2.2,
    ((writeAttribute_deletes_then_recreates 5 "a" outcomesDeleteFails (by decide) (by decide)
      (by decide) (by decide)).2.2.2 (by decide) (by decide)).2.2⟩

/-- C17: when the host object opens and the stored type of the named attribute
is a variable-length string (`H5Tis_variable_str` returns 1),
`readStringAttribute` returns a negative status and leaves the output string
empty, whatever it held before the call. -/
theorem readStringAttribute_rejects_variable_length (o : AttrReadOutcomes)
    (dataBefore : List Char) (hinfo : 0 ≤ o.H5Oget_info_by_name)
    (hobj : 0 ≤ (openId o.objectType o.H5Dopen o.H5Gopen).1)
    (hvar : o.H5Tis_variable_str = 1) :
    ∃ status log, readStringAttribute o dataBefore = some (status, [], log) ∧ status < 0 := by
  have hinfo' : ¬ o.H5Oget_info_by_name < 0 := by omega
  unfold readStringAttribute
  simp only [hinfo', hobj, hvar, if_true, if_false]
  refine ⟨_, _, rfl, ?_⟩
  unfold closeStatus
  split_ifs <;> omega

theorem readStringAttribute_rejects_variable_length_witness :
    (0 ≤ outcomesVariableLengthAttribute.H5Oget_info_by_name ∧
      0 ≤ (openId outcomesVariableLengthAttribute.objectType
        outcomesVariableLengthAttribute.H5Dopen outcomesVariableLengthAttribute.H5Gopen).1 ∧
      outcomesVariableLengthAttribute.H5Tis_variable_str = 1) ∧
    ∃ status log, readStringAttribute outcomesVariableLengthAttribute ['o', 'l', 'd'] =
      some (status, [], log) ∧ status < 0 :=
  ⟨⟨by decide, by decide, by decide⟩,
    readStringAttribute_rejects_variable_length outcomesVariableLengthAttribute ['o', 'l', 'd']
      (by decide) (by decide) (by decide)⟩

/-- When the host object opens and closes, the named attribute cannot be opened
and `H5Tis_variable_str` does not return 1 on the invalid type identifier,
`readStringAttribute` returns 0 with an empty output string. -/
theorem readStringAttribute_missing_attribute (o : AttrReadOutcomes) (dataBefore : List Char)
    (hinfo : 0 ≤ o.H5Oget_info_by_name)
    (hobj : 0 ≤ (openId o.objectType o.H5Dopen o.H5Gopen).1)
    (hattr : o.H5Aopen_by_name < 0) (hvar : o.H5Tis_variable_str ≠ 1)
    (hclose : 0 ≤ (closeId o.objectType o.H5Dclose o.H5Gclose).1) :
    ∃ log, readStringAttribute o dataBefore = some (0, [], log) := by
  have hinfo' : ¬ o.H5Oget_info_by_name < 0 := by omega
  have hattr' : ¬ 0 ≤ o.H5Aopen_by_name := by omega
  have hclose' : ¬ (closeId o.objectType o.H5Dclose o.H5Gclose).1 < 0 := by omega
  unfold readStringAttribute
  simp only [hinfo', hobj, hvar, hattr', hclose', if_true, if_false, Option.map_some']
  exact ⟨_, rfl⟩

/-- C16 fails on the code: on a dataset that opens and closes and has no
attribute of the given name (`H5Aopen_by_name` returns -1, and so do the calls
made on the invalid identifier), `readStringAttribute` returns 0 and an empty
string. -/
theorem readStringAttribute_missing_attribute_returns_zero :
    readStringAttribute outcomesAttributeMissing ['o', 'l', 'd'] =
      some (0, [], [(AttrCall.HDF_ERROR_HANDLER_OFF, 0), (AttrCall.H5Oget_info_by_name, 0),
        (AttrCall.H5Dopen, 5), (AttrCall.H5Aopen_by_name, -1), (AttrCall.H5Aget_type, -1),
        (AttrCall.H5Tis_variable_str, -1), (AttrCall.H5Tclose, -1), (AttrCall.H5Dclose, 0),
        (AttrCall.HDF_ERROR_HANDLER_ON, 0)]) := by
  decide


/-! ## Round trips over the file model -/

/-- What `writePointerDataset` leaves behind on a name that is free: status 0,
the dataset with the payload, the native type still open, two identifiers
used. -/
theorem OnFile.writePointerDataset_stores {α : Type} [Inhabited α] (s : H5State α)
    (datasetName : String) (dims : List Nat) (dataType : Int) (values : List α)
    (hType : s.handles dataType = some (Handle.datatype (StoredType.native dataType)))
    (hOld : dataType < s.nextId) (hId : 0 < s.nextId) (hSupported : dataType ≠ -1)
    (hFree : s.datasets datasetName = none) (hLen : values.length = dims.prod)
    (hUB : s.undefinedBehaviour = false) (hNM : s.notModelled = false) :
    let r := OnFile.writePointerDataset s datasetName dims dataType (some values)
    r.1 = 0 ∧
    r.2.datasets datasetName = some (Dataset.mk (StoredType.native dataType)
      (Dataspace.simple dims) true (Content.numbers values)) ∧
    r.2.handles dataType = some (Handle.datatype (StoredType.native dataType)) ∧
    r.2.nextId = s.nextId + 2 ∧ r.2.undefinedBehaviour = false ∧ r.2.notModelled = false := by
  have h1 : dataType ≠ s.nextId := by omega
  have h2 : dataType ≠ s.nextId + 1 := by omega
  have h3 : ¬ s.nextId < 0 := by omega
  have h4 : 0 ≤ s.nextId + 1 := by omega
  simp [OnFile.writePointerDataset, H5Screate_simple, H5State.alloc, H5Dcreate, H5Dwrite,
    H5State.datasetOf, H5State.store, H5Dclose, H5Sclose, H5State.release, hType, hFree, h1, h2,
    h3, h4, hSupported, Dataspace.count, hLen, hUB, hNM, Content.initial]
  omega

/-- What `readVectorDataset` returns on a dataset of numbers of the type asked
for: status 0 and the stored values, whatever the vector held before. -/
theorem OnFile.readVectorDataset_stored {α : Type} [Inhabited α] (s : H5State α)
    (datasetName : String) (dims : List Nat) (dataType : Int) (values dataBefore : List α)
    (allocated : Bool)
    (hType : s.handles dataType = some (Handle.datatype (StoredType.native dataType)))
    (hOld : dataType < s.nextId) (hId : 0 < s.nextId) (hSupported : dataType ≠ -1)
    (hStored : s.datasets datasetName = some (Dataset.mk (StoredType.native dataType)
      (Dataspace.simple dims) allocated (Content.numbers values)))
    (hRank : dims ≠ []) (hPos : ∀ x ∈ dims, 1 ≤ x) (hProd : dims.prod < 2 ^ 64)
    (hLen : values.length = dims.prod)
    (hUB : s.undefinedBehaviour = false) (hNM : s.notModelled = false) :
    let r := OnFile.readVectorDataset s datasetName dataType dataBefore
    r.1 = (0, values) ∧ r.2.undefinedBehaviour = false ∧ r.2.notModelled = false := by
  have h1 : dataType ≠ s.nextId := by omega
  have h2 : dataType ≠ s.nextId + 1 := by omega
  have h3 : ¬ s.nextId < 0 := by omega
  have h4 : 0 < s.nextId + 1 := by omega
  have h5 : s.nextId ≠ s.nextId + 1 := by omega
  have h6 : (0 : Int) < dims.length := by
    cases dims with
    | nil => exact absurd rfl hRank
    | cons a l => simp
  have hacc := accumulateProduct_eq_prod dims hPos hProd
  simp [OnFile.readVectorDataset, H5Dopen, H5State.alloc, H5Dget_space, H5Dread,
    H5Sget_simple_extent_ndims, H5Sget_simple_extent_dims,
    H5State.datasetOf, H5Dclose, H5Sclose, H5State.release, hType, hStored, h1, h2,
    h3, h4, h5, h6, hSupported, hLen, hUB, hNM, hacc, overwritePrefix, vectorResize]
  omega

/-- What `readPointerDataset` returns on a dataset of numbers of the type asked
for, into an array with room for the values: status 0 and the stored values. -/
theorem OnFile.readPointerDataset_stored {α : Type} (s : H5State α) (locationID : Int)
    (datasetName : String) (dims : List Nat) (dataType : Int) (values buffer : List α)
    (allocated : Bool)
    (hType : s.handles dataType = some (Handle.datatype (StoredType.native dataType)))
    (hOld : dataType < s.nextId) (hId : 0 < s.nextId) (hSupported : dataType ≠ -1)
    (hLocation : 0 ≤ locationID)
    (hStored : s.datasets datasetName = some (Dataset.mk (StoredType.native dataType)
      (Dataspace.simple dims) allocated (Content.numbers values)))
    (hRoom : buffer.length = values.length)
    (hUB : s.undefinedBehaviour = false) (hNM : s.notModelled = false) :
    let r := OnFile.readPointerDataset s locationID datasetName dataType (some buffer)
    r.1 = (0, some values) ∧ r.2.undefinedBehaviour = false ∧ r.2.notModelled = false := by
  have h1 : dataType ≠ s.nextId := by omega
  have h3 : ¬ s.nextId < 0 := by omega
  have h4 : ¬ locationID < 0 := by omega
  simp [OnFile.readPointerDataset, H5Dopen, H5State.alloc, H5Dread,
    H5State.datasetOf, H5Dclose, H5State.release, hType, hStored, h1,
    h3, h4, hSupported, hRoom, hUB, hNM, overwritePrefix]

/-- C11: on a library state where the element type is supported (`dataType` is
an open native type) and the name is not in use, for every shape of rank at least
1 with non-zero extents (whose product fits `hsize_t`) and every payload of
`product(shape)` elements, `writePointerDataset` and `writeVectorDataset` do the
same and succeed, and then `readVectorDataset` (whatever the vector held
before) and `readPointerDataset` (into an array of that many elements, under a
valid location) both return status 0 and exactly the payload. -/
theorem dataset_write_then_read {α : Type} [Inhabited α] (s : H5State α) (locationID : Int)
    (datasetName : String) (dims : List Nat) (dataType : Int)
    (payload dataBefore buffer : List α) (emptyDataIsNull : Bool)
    (hType : s.handles dataType = some (Handle.datatype (StoredType.native dataType)))
    (hOld : dataType < s.nextId) (hId : 0 < s.nextId) (hSupported : dataType ≠ -1)
    (hLocation : 0 ≤ locationID)
    (hUB : s.undefinedBehaviour = false) (hNM : s.notModelled = false)
    (hFree : s.datasets datasetName = none)
    (hRank : 1 ≤ dims.length) (hPos : ∀ x ∈ dims, 1 ≤ x) (hProd : dims.prod < 2 ^ 64)
    (hLen : payload.length = dims.prod) (hRoom : buffer.length = dims.prod) :
    OnFile.writeVectorDataset emptyDataIsNull s datasetName dims dataType payload =
      OnFile.writePointerDataset s datasetName dims dataType (some payload) ∧
    0 ≤ (OnFile.writePointerDataset s datasetName dims dataType (some payload)).1 ∧
    (OnFile.readVectorDataset
      (OnFile.writePointerDataset s datasetName dims dataType (some payload)).2
      datasetName dataType dataBefore).1 = (0, payload) ∧
    (OnFile.readPointerDataset
      (OnFile.writePointerDataset s datasetName dims dataType (some payload)).2
      locationID datasetName dataType (some buffer)).1 = (0, some payload) := by
  obtain ⟨hw1, hw2, hw3, hw4, hw5, hw6⟩ := OnFile.writePointerDataset_stores s datasetName dims
    dataType payload hType hOld hId hSupported hFree hLen hUB hNM
  have hne : dims ≠ [] := by
    intro h
    simp [h] at hRank
  have hprodpos : 0 < dims.prod := List.prod_pos (fun x hx => hPos x hx)
  refine ⟨?_, ?_, ?_, ?_⟩
  · have : payload ≠ [] := by
      intro h
      simp [h] at hLen
      omega
    cases payload with
    | nil => exact absurd rfl this
    | cons a l => simp [OnFile.writeVectorDataset]
  · omega
  · exact (OnFile.readVectorDataset_stored _ datasetName dims dataType payload dataBefore true hw3
      (by omega) (by omega) hSupported hw2 hne hPos
      hProd hLen hw5 hw6).1
  · exact (OnFile.readPointerDataset_stored _ locationID datasetName dims dataType payload buffer
      true hw3 (by omega) (by omega) hSupported
      hLocation hw2 (by omega) hw5 hw6).1

/-- The round trip at the data of the tests: shape `[4, 3]`, payload `i * 5`. -/
theorem dataset_write_then_read_witness :
    (OnFile.readVectorDataset
      (OnFile.writePointerDataset (emptyFile Int) "Pointer2DArrayDataset<H5T_NATIVE_INT32>"
        [4, 3] 7 (some pointer2DArrayData)).2
      "Pointer2DArrayDataset<H5T_NATIVE_INT32>" 7 []).1
      = (0, [0, 5, 10, 15, 20, 25, 30, 35, 40, 45, 50, 55]) :=
  (dataset_write_then_read (emptyFile Int) 1 "Pointer2DArrayDataset<H5T_NATIVE_INT32>" [4, 3] 7
    pointer2DArrayData [] (List.replicate 12 0) false rfl (by decide) (by decide) (by decide)
    (by decide) rfl rfl rfl (by decide) (by decide) (by norm_num) rfl rfl).2.2.1

/-- The C string of an array without a zero byte followed by anything that
starts with a zero byte is the array. -/
theorem cString_append_NUL (e tail : List Char) (h : NUL ∉ e) :
    cString (e ++ NUL :: tail) = e := by
  induction e with
  | nil => simp [cString]
  | cons a l ih =>
    have ha : a ≠ NUL := fun h' => h (by simp [h'])
    have hl : NUL ∉ l := fun h' => h (by simp [h'])
    have := ih hl
    simp only [cString] at this
    simp only [cString, List.cons_append, List.takeWhile_cons]
    rw [if_pos (by simpa using ha), this]

/-- The C string of an array without a zero byte is the array. -/
theorem cString_of_not_mem (e : List Char) (h : NUL ∉ e) : cString e = e := by
  simp only [cString, List.takeWhile_eq_self_iff]
  intro x hx
  have : x ≠ NUL := fun h' => h (h' ▸ hx)
  simpa using this

/-- Taking one more element than the position that was set. -/
theorem take_succ_set {β : Type} (records : List β) (pos : Nat) (x : β)
    (hpos : pos < records.length) :
    (records.set pos x).take (pos + 1) = records.take pos ++ [x] := by
  rw [List.set_eq_take_append_cons_drop, if_pos hpos, List.take_append_eq_append_take]
  simp [List.length_take, Nat.min_eq_left hpos.le]

/-- The write loop of `writeVectorOfStringsDataset` on a dataset of
variable-length strings with room for the elements: the status is unchanged, the
records from `pos` on are the C strings of the elements, only the selection of
the file dataspace changes among the identifiers. -/
theorem OnFile.writeStringsLoop_spec {α : Type} (datasetID datatype memSpace dataspaceID : Int)
    (name : String) (space fileSpace : Dataspace) (rest : List (List Char)) :
    ∀ (pos : Nat) (returnError : Int) (st : H5State α) (sel : Option Nat) (allocated : Bool)
      (records : List (Option (List Char))) (r : Int × H5State α),
      OnFile.writeStringsLoop datasetID datatype memSpace dataspaceID rest pos returnError st = r →
      st.handles datasetID = some (Handle.dataset name) →
      st.handles datatype = some (Handle.datatype StoredType.variableString) →
      st.handles dataspaceID = some (Handle.dataspace fileSpace sel) →
      datasetID ≠ dataspaceID → datatype ≠ dataspaceID →
      st.datasets name = some (Dataset.mk StoredType.variableString space allocated
        (Content.strings records)) →
      pos + rest.length ≤ records.length →
      r.1 = returnError ∧
      (∀ k, k ≠ dataspaceID → r.2.handles k = st.handles k) ∧
      (∃ sel', r.2.handles dataspaceID = some (Handle.dataspace fileSpace sel')) ∧
      (∃ allocated', r.2.datasets name = some (Dataset.mk StoredType.variableString space
        allocated' (Content.strings (records.take pos ++
          rest.map (fun e => some (cString (e ++ [NUL]))) ++
          records.drop (pos + rest.length))))) ∧
      r.2.nextId = st.nextId ∧ r.2.undefinedBehaviour = st.undefinedBehaviour ∧
      r.2.notModelled = st.notModelled := by
  induction rest with
  | nil =>
    intro pos returnError st sel allocated records r hr hD hT hS _ _ hStored _
    subst hr
    simp [OnFile.writeStringsLoop, hS, hStored]
  | cons e rest ih =>
    intro pos returnError st sel allocated records r hr hD hT hS hne1 hne2 hStored hRoom
    simp only [List.length_cons] at hRoom
    have hpos : pos < records.length := by omega
    simp only [OnFile.writeStringsLoop] at hr
    have hsel : H5Sselect_hyperslab st dataspaceID pos = (0, { st with handles := fun k =>
        (if k = dataspaceID then some (Handle.dataspace fileSpace (some pos))
        else st.handles k) }) := by
      simp [H5Sselect_hyperslab, hS]
    rw [hsel] at hr
    have hwrite : H5Dwrite ({ st with handles := fun k =>
        (if k = dataspaceID then some (Handle.dataspace fileSpace (some pos))
        else st.handles k) } : H5State α) datasetID datatype (some memSpace) (some dataspaceID)
        (WriteBuffer.stringPointer (e ++ [NUL])) =
        (0, H5State.store ({ st with handles := fun k =>
          (if k = dataspaceID then some (Handle.dataspace fileSpace (some pos))
          else st.handles k) } : H5State α) name (Dataset.mk StoredType.variableString space true
            (Content.strings (records.set pos (some (cString (e ++ [NUL]))))))) := by
      simp [H5Dwrite, H5State.datasetOf, hne1, hne2, hD, hT, hStored, hpos]
    rw [hwrite] at hr
    simp only [lt_self_iff_false, if_false] at hr
    obtain ⟨h1, h2, h3, ⟨a', h4⟩, h5, h6, h7⟩ := ih (pos + 1) returnError _ (some pos) true
      (records.set pos (some (cString (e ++ [NUL])))) r hr
      (by simp [H5State.store, hne1, hD]) (by simp [H5State.store, hne2, hT])
      (by simp [H5State.store]) hne1 hne2 (by simp [H5State.store])
      (by simp only [List.length_set]; omega)
    refine ⟨h1, ?_, h3, ⟨a', ?_⟩, ?_, ?_, ?_⟩
    · intro k hk
      rw [h2 k hk]
      simp [H5State.store, hk]
    · rw [h4]
      congr 3
      have e1 := take_succ_set records pos (some (cString (e ++ [NUL]))) hpos
      have e2 : (records.set pos (some (cString (e ++ [NUL])))).drop (pos + 1 + rest.length) =
          records.drop (pos + (rest.length + 1)) := by
        rw [List.drop_set_of_lt _ _ (by omega)]
        congr 1
        omega
      rw [e1, e2]
      simp
    · rw [h5]; simp [H5State.store]
    · rw [h6]; simp [H5State.store]
    · rw [h7]; simp [H5State.store]

/-- What `writeVectorOfStringsDataset` leaves behind on a name that is free:
status 0 and a dataset of variable-length strings with one record per element,
record `i` being the C string of element `i`. -/
theorem OnFile.writeVectorOfStringsDataset_stores {α : Type} [Inhabited α] (s : H5State α)
    (datasetName : String) (data : List (List Char))
    (hId : 0 < s.nextId) (hFree : s.datasets datasetName = none)
    (hUB : s.undefinedBehaviour = false) (hNM : s.notModelled = false) :
    (OnFile.writeVectorOfStringsDataset s datasetName data).1 = 0 ∧
    (∃ allocated, (OnFile.writeVectorOfStringsDataset s datasetName data).2.datasets datasetName =
      some (Dataset.mk StoredType.variableString (Dataspace.simple [data.length]) allocated
        (Content.strings (data.map (fun e => some (cString (e ++ [NUL]))))))) ∧
    0 < (OnFile.writeVectorOfStringsDataset s datasetName data).2.nextId ∧
    (OnFile.writeVectorOfStringsDataset s datasetName data).2.undefinedBehaviour = false ∧
    (OnFile.writeVectorOfStringsDataset s datasetName data).2.notModelled = false := by
  have h0 : 0 ≤ s.nextId := by omega
  have h1 : 0 ≤ s.nextId + 1 := by omega
  have h2 : 0 ≤ s.nextId + 1 + 1 + 1 := by omega
  have n01 : s.nextId + 1 ≠ s.nextId := by omega
  have n02 : s.nextId + 1 + 1 ≠ s.nextId := by omega
  have n03 : s.nextId + 1 + 1 + 1 ≠ s.nextId := by omega
  have n12 : s.nextId + 1 + 1 ≠ s.nextId + 1 := by omega
  have n13 : s.nextId + 1 + 1 + 1 ≠ s.nextId + 1 := by omega
  have n23 : s.nextId + 1 + 1 + 1 ≠ s.nextId + 1 + 1 := by omega
  have n10 : s.nextId ≠ s.nextId + 1 := by omega
  have n20 : s.nextId ≠ s.nextId + 1 + 1 := by omega
  have n21 : s.nextId + 1 ≠ s.nextId + 1 + 1 := by omega
  have n30 : s.nextId ≠ s.nextId + 1 + 1 + 1 := by omega
  have n31 : s.nextId + 1 ≠ s.nextId + 1 + 1 + 1 := by omega
  have n32 : s.nextId + 1 + 1 ≠ s.nextId + 1 + 1 + 1 := by omega
  simp only [OnFile.writeVectorOfStringsDataset]
  simp [H5Screate_simple, H5State.alloc, H5Tcopy_C_S1,
    H5Tset_size, H5Dcreate, H5Sselect_hyperslab, h0, h1, h2, hFree, n01, n02, n03, n12,
    n13, n23, n10, n20, n21, n30, n31, n32, Content.initial, Dataspace.count]
  generalize hloop : OnFile.writeStringsLoop _ _ _ _ data 0 0 _ = looped
  obtain ⟨l1, l2, ⟨sel, l3⟩, ⟨allocated, l4⟩, l5, l6, l7⟩ :=
    OnFile.writeStringsLoop_spec _ _ _ _ datasetName (Dataspace.simple [data.length])
      (Dataspace.simple [data.length]) data 0 0 _ none false
      (List.replicate data.length none) looped hloop
      (by simp [n01, n02, n03, n12, n13, n23, n10, n20, n21, n30, n31, n32])
      (by simp [n01, n02, n03, n12, n13, n23, n10, n20, n21, n30, n31, n32])
      (by simp [n01, n02, n03, n12, n13, n23, n10, n20, n21, n30, n31, n32]) n03 n02
      (by simp) (by simp)
  simp only [List.take_zero, List.nil_append, Nat.zero_add, List.drop_replicate, Nat.sub_self,
    List.replicate_zero, List.append_nil] at l4
  have c3 := l2 (s.nextId + 1 + 1 + 1) n03
  have c2 := l2 (s.nextId + 1 + 1) n02
  have c1 := l2 (s.nextId + 1) n01
  simp [n01, n02, n03, n12, n13, n23, n10, n20, n21, n30, n31, n32] at c3 c2 c1
  simp at l5 l6 l7
  simp [H5Dclose, H5Tclose, H5Sclose, H5State.release, closeStatus, c3, c2, c1, l3, l1, l4, l5,
    l6, l7, hUB, hNM, n01, n02, n03, n12, n13, n23, n10, n20, n21, n30, n31, n32]
  omega

/-- What `readVectorOfStringDataset` returns on a one-dimensional dataset of
variable-length strings all of whose records were written: status 0 and the C
strings of the records, in order; the identifiers that were open stay as they
were. -/
theorem OnFile.readVectorOfStringDataset_stored {α : Type} (s : H5State α)
    (datasetName : String) (strings dataBefore : List (List Char)) (allocated : Bool)
    (r : (Int × List (List Char)) × H5State α)
    (hr : OnFile.readVectorOfStringDataset s datasetName dataBefore = r)
    (hId : 0 < s.nextId)
    (hStored : s.datasets datasetName = some (Dataset.mk StoredType.variableString
      (Dataspace.simple [strings.length]) allocated (Content.strings (strings.map some))))
    (hUB : s.undefinedBehaviour = false) (hNM : s.notModelled = false) :
    r.1 = (0, strings.map cString) ∧ r.2.datasets = s.datasets ∧
    (∀ k, k < s.nextId → r.2.handles k = s.handles k) ∧
    0 < r.2.nextId ∧ r.2.undefinedBehaviour = false ∧ r.2.notModelled = false := by
  subst hr
  have h0 : ¬ s.nextId < 0 := by omega
  have h1 : 0 ≤ s.nextId + 1 := by omega
  have n01 : s.nextId + 1 ≠ s.nextId := by omega
  have n02 : s.nextId + 1 + 1 ≠ s.nextId := by omega
  have n03 : s.nextId + 1 + 1 + 1 ≠ s.nextId := by omega
  have n12 : s.nextId + 1 + 1 ≠ s.nextId + 1 := by omega
  have n13 : s.nextId + 1 + 1 + 1 ≠ s.nextId + 1 := by omega
  have n23 : s.nextId + 1 + 1 + 1 ≠ s.nextId + 1 + 1 := by omega
  have n10 : s.nextId ≠ s.nextId + 1 := by omega
  have n20 : s.nextId ≠ s.nextId + 1 + 1 := by omega
  have n21 : s.nextId + 1 ≠ s.nextId + 1 + 1 := by omega
  have n30 : s.nextId ≠ s.nextId + 1 + 1 + 1 := by omega
  have n31 : s.nextId + 1 ≠ s.nextId + 1 + 1 + 1 := by omega
  have n32 : s.nextId + 1 + 1 ≠ s.nextId + 1 + 1 + 1 := by omega
  simp only [OnFile.readVectorOfStringDataset]
  simp [H5Dopen, H5State.alloc, H5Dget_type, H5Dget_space, H5Sget_simple_extent_dims,
    H5Tcopy_C_S1, H5Tset_size, H5Dread, H5State.datasetOf, H5Dclose, H5Tclose, H5Sclose,
    H5State.release, closeStatus, overwritePrefix, hStored, h0, h1, hUB, hNM,
    n01, n02, n03, n12, n13, n23, n10, n20, n21, n30, n31, n32]
  refine ⟨?_, ?_⟩
  · intro k hk
    have : k ≠ s.nextId := by omega
    have : k ≠ s.nextId + 1 := by omega
    have : k ≠ s.nextId + 1 + 1 := by omega
    have : k ≠ s.nextId + 1 + 1 + 1 := by omega
    simp [*]
  · omega

/-- C13 (amended): on a library state where the name is not in use, for every
list of strings without a zero byte, `writeVectorOfStringsDataset` returns
status 0 and `readVectorOfStringDataset` on the same name then returns status 0
and the same list: same length, same strings, same order (whatever the vector
held before). -/
theorem vectorOfStrings_write_then_read {α : Type} [Inhabited α] (s : H5State α)
    (datasetName : String) (data dataBefore : List (List Char))
    (hId : 0 < s.nextId) (hUB : s.undefinedBehaviour = false) (hNM : s.notModelled = false)
    (hFree : s.datasets datasetName = none) (hNulFree : ∀ e ∈ data, NUL ∉ e) :
    (OnFile.writeVectorOfStringsDataset s datasetName data).1 = 0 ∧
    (OnFile.readVectorOfStringDataset (OnFile.writeVectorOfStringsDataset s datasetName data).2
      datasetName dataBefore).1 = (0, data) := by
  obtain ⟨w1, ⟨allocated, w2⟩, w3, w4, w5⟩ :=
    OnFile.writeVectorOfStringsDataset_stores s datasetName data hId hFree hUB hNM
  have hrec : data.map (fun e => some (cString (e ++ [NUL]))) = data.map some := by
    apply List.map_congr_left
    intro e he
    rw [cString_append_NUL e [] (hNulFree e he)]
  rw [hrec] at w2
  have hread := (OnFile.readVectorOfStringDataset_stored _ datasetName data dataBefore allocated
    _ rfl w3 w2 w4 w5).1
  have hself : data.map cString = data := by
    conv_rhs => rw [← List.map_id data]
    apply List.map_congr_left
    intro e he
    simpa using cString_of_not_mem e (hNulFree e he)
  rw [hself] at hread
  exact ⟨w1, hread⟩

/-- The round trip at the example of the specification: `["a","bb","ccc"]`. -/
theorem vectorOfStrings_write_then_read_witness :
    (OnFile.readVectorOfStringDataset
      (OnFile.writeVectorOfStringsDataset (emptyFile Int) "VlenStrings"
        ["a".toList, "bb".toList, "ccc".toList]).2 "VlenStrings" []).1
      = (0, ["a".toList, "bb".toList, "ccc".toList]) :=
  (vectorOfStrings_write_then_read (emptyFile Int) "VlenStrings"
    ["a".toList, "bb".toList, "ccc".toList] [] (by decide) rfl rfl rfl (by decide)).2

/-- What `readStringDataset` does on a one-dimensional dataset of
variable-length strings holding the records `first :: others`, all written: the
status is 0 whatever the number of records; the output is the C string of the
only record, and is left empty when there are more records than one. -/
theorem OnFile.readStringDataset_variable {α : Type} (s : H5State α) (datasetName : String)
    (first : List Char) (others : List (List Char)) (dataBefore : List Char) (allocated : Bool)
    (hId : 0 < s.nextId)
    (hStored : s.datasets datasetName = some (Dataset.mk StoredType.variableString
      (Dataspace.simple [(first :: others).length]) allocated
      (Content.strings ((first :: others).map some))))
    (hUB : s.undefinedBehaviour = false) (hNM : s.notModelled = false) :
    (OnFile.readStringDataset s datasetName dataBefore).1 =
      (0, if others.isEmpty then cString first else []) ∧
    (OnFile.readStringDataset s datasetName dataBefore).2.undefinedBehaviour = false ∧
    (OnFile.readStringDataset s datasetName dataBefore).2.notModelled = false := by
  have h0 : ¬ s.nextId < 0 := by omega
  have h1 : 0 ≤ s.nextId + 1 := by omega
  have n01 : s.nextId + 1 ≠ s.nextId := by omega
  have n10 : s.nextId ≠ s.nextId + 1 := by omega
  simp only [OnFile.readStringDataset]
  simp [H5Dopen, H5State.alloc, H5Dget_type, H5Tis_variable_str, H5State.datasetOf, hStored, h0,
    h1, n01, n10]
  generalize hnested : OnFile.readVectorOfStringDataset _ datasetName [] = nested
  obtain ⟨r1, r2, r3, r4, r5, r6⟩ := OnFile.readVectorOfStringDataset_stored _ datasetName
    (first :: others) [] allocated nested hnested (by simp only []; omega)
    (by simpa using hStored) (by simpa using hUB) (by simpa using hNM)
  have c0 := r3 s.nextId (by simp only []; omega)
  have c1 := r3 (s.nextId + 1) (by simp only []; omega)
  simp [n01, n10] at c0 c1
  cases others with
  | nil =>
    simp at r1
    simp [r1, H5Dclose, H5Tclose, H5State.release, closeStatus, c0, c1, r5, r6, n01, n10]
  | cons second more =>
    simp at r1
    simp [r1, H5Dclose, H5Tclose, H5State.release, closeStatus, c0, c1, r5, r6, n01, n10]

/-- C14: on a library state where the name is not in use, for every string
without a zero byte, after `writeVectorOfStringsDataset` has written the
one-element list, the dataset has the variable-length string type and
`readStringDataset` returns status 0 (non-negative) and sets the output to
exactly that string, whatever the output held before. -/
theorem readStringDataset_single_variable_length {α : Type} [Inhabited α] (s : H5State α)
    (datasetName : String) (text dataBefore : List Char)
    (hId : 0 < s.nextId) (hUB : s.undefinedBehaviour = false) (hNM : s.notModelled = false)
    (hFree : s.datasets datasetName = none) (hNulFree : NUL ∉ text) :
    ((OnFile.writeVectorOfStringsDataset s datasetName [text]).2.datasets datasetName).map
      (fun d => d.type) = some StoredType.variableString ∧
    0 ≤ (OnFile.readStringDataset (OnFile.writeVectorOfStringsDataset s datasetName [text]).2
      datasetName dataBefore).1.1 ∧
    (OnFile.readStringDataset (OnFile.writeVectorOfStringsDataset s datasetName [text]).2
      datasetName dataBefore).1.2 = text := by
  obtain ⟨_, ⟨allocated, w2⟩, w3, w4, w5⟩ :=
    OnFile.writeVectorOfStringsDataset_stores s datasetName [text] hId hFree hUB hNM
  simp only [List.map_cons, List.map_nil, cString_append_NUL text [] hNulFree] at w2
  have hread := (OnFile.readStringDataset_variable _ datasetName text [] dataBefore allocated
    w3 w2 w4 w5).1
  simp only [List.isEmpty_nil, if_true, cString_of_not_mem text hNulFree] at hread
  rw [hread, w2]
  simp

/-- The string of the test, `"Testing 1 2 3"`, is read back with its 13
characters. -/
theorem readStringDataset_single_variable_length_witness :
    (OnFile.readStringDataset
      (OnFile.writeVectorOfStringsDataset (emptyFile Int) "VlenStrings"
        ["Testing 1 2 3".toList]).2 "VlenStrings" []).1.2 = "Testing 1 2 3".toList ∧
    "Testing 1 2 3".toList.length = 13 :=
  ⟨(readStringDataset_single_variable_length (emptyFile Int) "VlenStrings"
    "Testing 1 2 3".toList [] (by decide) rfl rfl rfl (by decide)).2.2, by decide⟩

/-- C15 (the code differs): a dataset of variable-length strings that holds the
two records `"a"` and `"bb"` is a dataset with more records than one, and
`readStringDataset` on it returns status 0, not a negative status; the output is
left empty. -/
theorem readStringDataset_two_records_returns_zero :
    (OnFile.readStringDataset
      (OnFile.writeVectorOfStringsDataset (emptyFile Int) "VlenStrings"
        ["a".toList, "bb".toList]).2 "VlenStrings" []).1 = (0, []) := by
  obtain ⟨_, ⟨allocated, w2⟩, w3, w4, w5⟩ :=
    OnFile.writeVectorOfStringsDataset_stores (emptyFile Int) "VlenStrings"
      ["a".toList, "bb".toList] (by decide) rfl rfl rfl
  simp only [List.map_cons, List.map_nil, cString_append_NUL "a".toList [] (by decide),
    cString_append_NUL "bb".toList [] (by decide)] at w2
  have hread := (OnFile.readStringDataset_variable _ "VlenStrings" "a".toList ["bb".toList] []
    allocated w3 w2 w4 w5).1
  simpa using hread
/-- What `writeStringDataset` leaves behind on a name that is free: status 0
and a scalar dataset of fixed-length strings of `size() + 1` bytes, which holds
the string and a zero byte once a non-empty string has been written and is not
written at all for the empty string. -/
theorem OnFile.writeStringDataset_creates {α : Type} [Inhabited α] (s : H5State α)
    (datasetName : String) (data : List Char)
    (r : Int × H5State α) (hr : OnFile.writeStringDataset s datasetName data = r)
    (hId : 0 < s.nextId) (hFree : s.datasets datasetName = none)
    (hUB : s.undefinedBehaviour = false) (hNM : s.notModelled = false) :
    r.1 = 0 ∧
    r.2.datasets datasetName = some (Dataset.mk (StoredType.fixedString (data.length + 1))
      Dataspace.scalar (!data.isEmpty)
      (Content.text (if data.isEmpty then [NUL] else data ++ [NUL]))) ∧
    0 < r.2.nextId ∧ r.2.undefinedBehaviour = false ∧ r.2.notModelled = false := by
  subst hr
  have h0 : 0 ≤ s.nextId := by omega
  have h1 : 0 ≤ s.nextId + 1 := by omega
  have h2 : 0 ≤ s.nextId + 1 + 1 := by omega
  have n01 : s.nextId + 1 ≠ s.nextId := by omega
  have n02 : s.nextId + 1 + 1 ≠ s.nextId := by omega
  have n12 : s.nextId + 1 + 1 ≠ s.nextId + 1 := by omega
  have n10 : s.nextId ≠ s.nextId + 1 := by omega
  have n20 : s.nextId ≠ s.nextId + 1 + 1 := by omega
  have n21 : s.nextId + 1 ≠ s.nextId + 1 + 1 := by omega
  simp only [OnFile.writeStringDataset]
  cases data with
  | nil =>
    simp [H5Tcopy_C_S1, H5State.alloc, H5Tset_size, H5Tset_strpad, H5Screate_scalar,
      HDF_ERROR_HANDLER_OFF, HDF_ERROR_HANDLER_ON, H5Dopen, H5Dcreate, H5Dwrite,
      H5State.datasetOf, H5State.store, H5Dclose, H5Sclose, H5Tclose, H5State.release,
      closeStatus, Content.initial, Dataspace.count, hFree, hUB, hNM, h0, h1, h2,
      n01, n02, n12, n10, n20, n21]
    omega
  | cons a l =>
    simp [H5Tcopy_C_S1, H5State.alloc, H5Tset_size, H5Tset_strpad, H5Screate_scalar,
      HDF_ERROR_HANDLER_OFF, HDF_ERROR_HANDLER_ON, H5Dopen, H5Dcreate, H5Dwrite,
      H5State.datasetOf, H5State.store, H5Dclose, H5Sclose, H5Tclose, H5State.release,
      closeStatus, Content.initial, Dataspace.count, hFree, hUB, hNM, h0, h1, h2,
      n01, n02, n12, n10, n20, n21]
    omega

/-- What `writeStringDataset` does on a name that holds a scalar dataset of
fixed-length strings of `size` bytes: status 0; the empty string leaves the
dataset as it is; a non-empty string replaces the bytes by the string converted
to `size` bytes (copied when `size` is its length plus one). -/
theorem OnFile.writeStringDataset_overwrites {α : Type} [Inhabited α] (s : H5State α)
    (datasetName : String) (data : List Char) (size : Nat) (allocated : Bool)
    (bytes : List Char)
    (r : Int × H5State α) (hr : OnFile.writeStringDataset s datasetName data = r)
    (hId : 0 < s.nextId)
    (hStored : s.datasets datasetName = some (Dataset.mk (StoredType.fixedString size)
      Dataspace.scalar allocated (Content.text bytes)))
    (hUB : s.undefinedBehaviour = false) (hNM : s.notModelled = false) :
    r.1 = 0 ∧
    r.2.datasets datasetName = some (Dataset.mk (StoredType.fixedString size)
      Dataspace.scalar (if data.isEmpty then allocated else true)
      (Content.text (if data.isEmpty then bytes
        else if data.length + 1 = size then data ++ [NUL]
        else convertString (data.length + 1) size (data ++ [NUL])))) ∧
    0 < r.2.nextId ∧ r.2.undefinedBehaviour = false ∧ r.2.notModelled = false := by
  subst hr
  have h0 : 0 ≤ s.nextId := by omega
  have h1 : 0 ≤ s.nextId + 1 := by omega
  have h2 : ¬ s.nextId + 1 + 1 < 0 := by omega
  have h3 : 0 ≤ s.nextId + 1 + 1 := by omega
  have n01 : s.nextId + 1 ≠ s.nextId := by omega
  have n02 : s.nextId + 1 + 1 ≠ s.nextId := by omega
  have n12 : s.nextId + 1 + 1 ≠ s.nextId + 1 := by omega
  have n10 : s.nextId ≠ s.nextId + 1 := by omega
  have n20 : s.nextId ≠ s.nextId + 1 + 1 := by omega
  have n21 : s.nextId + 1 ≠ s.nextId + 1 + 1 := by omega
  simp only [OnFile.writeStringDataset]
  cases data with
  | nil =>
    simp [H5Tcopy_C_S1, H5State.alloc, H5Tset_size, H5Tset_strpad, H5Screate_scalar,
      HDF_ERROR_HANDLER_OFF, HDF_ERROR_HANDLER_ON, H5Dopen, H5Dwrite,
      H5State.datasetOf, H5State.store, H5Dclose, H5Sclose, H5Tclose, H5State.release,
      closeStatus, hStored, hUB, hNM, h0, h1, h2, n01, n02, n12, n10, n20, n21]
    omega
  | cons a l =>
    by_cases hsize : l.length + 1 + 1 = size
    · subst hsize
      have htake : List.take (l.length + 1) (l ++ [NUL]) = l ++ [NUL] :=
        List.take_of_length_le (by simp)
      simp [H5Tcopy_C_S1, H5State.alloc, H5Tset_size, H5Tset_strpad, H5Screate_scalar,
        HDF_ERROR_HANDLER_OFF, HDF_ERROR_HANDLER_ON, H5Dopen, H5Dwrite,
        H5State.datasetOf, H5State.store, H5Dclose, H5Sclose, H5Tclose, H5State.release,
        closeStatus, hStored, hUB, hNM, h0, h1, h2, h3, n01, n02, n12, n10, n20, n21, htake]
      omega
    · simp [H5Tcopy_C_S1, H5State.alloc, H5Tset_size, H5Tset_strpad, H5Screate_scalar,
        HDF_ERROR_HANDLER_OFF, HDF_ERROR_HANDLER_ON, H5Dopen, H5Dwrite,
        H5State.datasetOf, H5State.store, H5Dclose, H5Sclose, H5Tclose, H5State.release,
        closeStatus, hStored, hUB, hNM, h0, h1, h2, h3, n01, n02, n12, n10, n20, n21, hsize]
      omega

/-- What `readStringDataset` returns on a scalar dataset of fixed-length strings
whose storage is allocated: status 0 and the C string of the stored bytes
followed by the zero byte that ends the buffer. -/
theorem OnFile.readStringDataset_fixed {α : Type} (s : H5State α) (datasetName : String)
    (size : Nat) (bytes dataBefore : List Char)
    (r : (Int × List Char) × H5State α)
    (hr : OnFile.readStringDataset s datasetName dataBefore = r)
    (hId : 0 < s.nextId)
    (hStored : s.datasets datasetName = some (Dataset.mk (StoredType.fixedString size)
      Dataspace.scalar true (Content.text bytes)))
    (hBytes : bytes.length = size)
    (hUB : s.undefinedBehaviour = false) (hNM : s.notModelled = false) :
    r.1 = (0, cString (bytes ++ [NUL])) ∧ r.2.undefinedBehaviour = false ∧
    r.2.notModelled = false := by
  subst hr
  have h0 : ¬ s.nextId < 0 := by omega
  have h1 : 0 ≤ s.nextId + 1 := by omega
  have n01 : s.nextId + 1 ≠ s.nextId := by omega
  have n10 : s.nextId ≠ s.nextId + 1 := by omega
  simp only [OnFile.readStringDataset]
  simp [H5Dopen, H5State.alloc, H5Dget_type, H5Tis_variable_str, H5State.datasetOf,
    H5Dget_storage_size, H5Dread, Dataspace.count, H5Dclose, H5Tclose, H5State.release,
    closeStatus, overwritePrefix, hStored, hBytes, hUB, hNM, h0, h1, n01, n10]

/-- Conversion of a string without a zero byte to a longer fixed-length string:
the characters, then zero bytes up to the size of the stored type. -/
theorem convertString_shorter (text : List Char) (size : Nat) (hNulFree : NUL ∉ text)
    (hFits : text.length + 1 ≤ size) :
    convertString (text.length + 1) size (text ++ [NUL]) =
      text ++ List.replicate (size - text.length) NUL := by
  have h1 : min (text.length + 1) size = text.length + 1 := Nat.min_eq_left hFits
  have h2 : List.take (text.length + 1) text = text := List.take_of_length_le (by omega)
  have h3 : List.take (size - 1) text = text := List.take_of_length_le (by omega)
  simp only [convertString, cString_append_NUL text [] hNulFree, h1, h2, h3]

/-- C12 (as stated, refuted): with old = "a" and new = the empty string, which
is shorter, both calls of `writeStringDataset` return status 0 and
`readStringDataset` then returns status 0 and "a": the old string, not the new
one. -/
theorem writeStringDataset_empty_keeps_old :
    (OnFile.writeStringDataset (emptyFile Int) "StringDataset" "a".toList).1 = 0 ∧
    (OnFile.writeStringDataset
      (OnFile.writeStringDataset (emptyFile Int) "StringDataset" "a".toList).2
      "StringDataset" "".toList).1 = 0 ∧
    (OnFile.readStringDataset
      (OnFile.writeStringDataset
        (OnFile.writeStringDataset (emptyFile Int) "StringDataset" "a".toList).2
        "StringDataset" "".toList).2 "StringDataset" []).1 = (0, "a".toList) ∧
    "a".toList ≠ "".toList := by
  obtain ⟨a1, a2, a3, a4, a5⟩ := OnFile.writeStringDataset_creates (emptyFile Int)
    "StringDataset" "a".toList _ rfl (by decide) rfl rfl rfl
  obtain ⟨b1, b2, b3, b4, b5⟩ := OnFile.writeStringDataset_overwrites _ "StringDataset"
    "".toList _ _ _ _ rfl a3 a2 a4 a5
  obtain ⟨c1, _, _⟩ := OnFile.readStringDataset_fixed _ "StringDataset" _ _ [] _ rfl b3 b2
    (by decide) b4 b5
  refine ⟨a1, b1, ?_, by decide⟩
  rw [c1]
  decide

/-- C12 (amended): on a library state where the name is not in use, for every
string old and every string new without a zero byte, not empty and shorter
than old, the two calls of `writeStringDataset` return status 0 and
`readStringDataset` then returns status 0 and exactly new, whatever the output
held before. -/
theorem writeStringDataset_overwrite_shorter {α : Type} [Inhabited α] (s : H5State α)
    (datasetName : String) (old new dataBefore : List Char)
    (hId : 0 < s.nextId) (hUB : s.undefinedBehaviour = false) (hNM : s.notModelled = false)
    (hFree : s.datasets datasetName = none)
    (hNew : NUL ∉ new)
    (hNonEmpty : 0 < new.length) (hShorter : new.length < old.length) :
    (OnFile.writeStringDataset s datasetName old).1 = 0 ∧
    (OnFile.writeStringDataset (OnFile.writeStringDataset s datasetName old).2
      datasetName new).1 = 0 ∧
    (OnFile.readStringDataset
      (OnFile.writeStringDataset (OnFile.writeStringDataset s datasetName old).2
        datasetName new).2 datasetName dataBefore).1 = (0, new) := by
  obtain ⟨a1, a2, a3, a4, a5⟩ := OnFile.writeStringDataset_creates s datasetName old _ rfl
    hId hFree hUB hNM
  obtain ⟨b1, b2, b3, b4, b5⟩ := OnFile.writeStringDataset_overwrites _ datasetName new _ _ _ _
    rfl a3 a2 a4 a5
  have hne : new.isEmpty = false := by
    cases new with
    | nil => simp at hNonEmpty
    | cons a l => rfl
  have hsize : ¬ new.length + 1 = old.length + 1 := by omega
  simp only [hne, Bool.false_eq_true, if_false, hsize,
    convertString_shorter new (old.length + 1) hNew (by omega)] at b2
  obtain ⟨c1, _, _⟩ := OnFile.readStringDataset_fixed _ datasetName _ _ dataBefore _ rfl b3 b2
    (by simp; omega) b4 b5
  refine ⟨a1, b1, ?_⟩
  rw [c1]
  have hrep : List.replicate (old.length + 1 - new.length) NUL =
      NUL :: List.replicate (old.length - new.length) NUL := by
    have : old.length + 1 - new.length = (old.length - new.length) + 1 := by omega
    rw [this, List.replicate_succ]
  rw [List.append_assoc, hrep, List.cons_append, cString_append_NUL new _ hNew]

/-- The overwrite at old = "abc", new = "a". -/
theorem writeStringDataset_overwrite_shorter_witness :
    (OnFile.readStringDataset
      (OnFile.writeStringDataset
        (OnFile.writeStringDataset (emptyFile Int) "StringDataset" "abc".toList).2
        "StringDataset" "a".toList).2 "StringDataset" []).1 = (0, "a".toList) :=
  (writeStringDataset_overwrite_shorter (emptyFile Int) "StringDataset" "abc".toList "a".toList []
    (by decide) rfl rfl rfl (by decide) (by decide) (by decide)).2.2

/-! ## guessChunkSize: the empty shape, and the size of the chunk -/

/-- C29: for the empty shape and every element size (and every value of the
floating-point target), `guessChunkSize` returns the empty shape with the index
still 0: the loop leaves at `product == 1` at the latest, before
`index % chunksSize` is reached (reaching it with rank 0 would make the run
`none`). -/
theorem guessChunkSize_empty_shape (scaledTarget : Nat → Nat) (typeSize : Nat) :
    guessChunkSizeRun scaledTarget [] typeSize = some ([], 0) ∧
    guessChunkSize scaledTarget [] typeSize = some [] := by
  have h : guessChunkSizeRun scaledTarget [] typeSize = some ([], 0) := by
    unfold guessChunkSizeRun
    exact chunkLoop_exit _ _ _ [] 0 (loopExits_nil _ _)
  exact ⟨h, by simp [guessChunkSize, h]⟩

/-- Rounding to `double` loses less than half of the value. -/
theorem le_two_mul_toDouble (n : Nat) : n ≤ 2 * toDouble n := by
  rcases Nat.eq_zero_or_pos n with rfl | hn
  · simp
  have he := two_pow_excessBits_le n n hn
  have hpos : 0 < 2 ^ excessBits n n := Nat.pow_pos (by norm_num)
  have hq : 1 ≤ n / 2 ^ excessBits n n := (Nat.one_le_div_iff hpos).2 he
  have hdm := Nat.div_add_mod n (2 ^ excessBits n n)
  have hr := Nat.mod_lt n hpos
  have hge : n / 2 ^ excessBits n n * 2 ^ excessBits n n ≤ toDouble n := by
    rcases toDouble_cases n with h1 | ⟨h1, _⟩
    · rw [h1]
    · rw [h1]
      exact Nat.mul_le_mul_right _ (Nat.le_succ _)
  generalize excessBits n n = e at *
  generalize n / 2 ^ e = q at *
  have : 2 ^ e ≤ q * 2 ^ e := Nat.le_mul_of_pos_left _ hq
  have : 2 ^ e * q = q * 2 ^ e := Nat.mul_comm _ _
  omega

/-- Halving an extent gives at least half of it when the extent is exactly
representable, and at least `2 ^ 51` otherwise. -/
theorem halveExtent_lower (x : Nat) : x ≤ 2 * halveExtent x ∨ 2 ^ 51 ≤ halveExtent x := by
  rcases Nat.lt_or_ge x (2 ^ 53) with h | h
  · left
    rw [halveExtent_of_lt x h]
    omega
  · right
    have := le_two_mul_toDouble x
    unfold halveExtent
    omega

/-- Replacing one element of a list: the products of the two lists and the two
elements cross-multiply. -/
theorem prod_set_mul (c : List Nat) (j : Nat) (y : Nat) (hj : j < c.length) :
    (c.set j y).prod * c.getD j 0 = c.prod * y := by
  induction c generalizing j with
  | nil => simp at hj
  | cons a l ih =>
    cases j with
    | zero =>
      simp [List.prod_cons]
      ring
    | succ j =>
      have := ih j (by simpa using hj)
      simp only [List.set_cons_succ, List.prod_cons, List.getD_cons_succ]
      calc a * (l.set j y).prod * l.getD j 0 = a * ((l.set j y).prod * l.getD j 0) := by ring
        _ = a * (l.prod * y) := by rw [this]
        _ = a * l.prod * y := by ring

/-- One halving step keeps at least half of the product, or leaves a product of
at least `2 ^ 51`. -/
theorem prod_halveAt_lower (c : List Nat) (i : Nat) (hc : c ≠ []) (hpos : ∀ x ∈ c, 1 ≤ x) :
    c.prod ≤ 2 * (halveAt c i).prod ∨ 2 ^ 51 ≤ (halveAt c i).prod := by
  have hlen : 0 < c.length := List.length_pos.2 hc
  have hj : i % c.length < c.length := Nat.mod_lt _ hlen
  have hmul := prod_set_mul c (i % c.length) (halveExtent (c.getD (i % c.length) 0)) hj
  have hmem : c.getD (i % c.length) 0 ∈ c := by
    rw [List.getD_eq_getElem _ _ hj]
    exact List.getElem_mem _
  have hx := hpos _ hmem
  have hxle : c.getD (i % c.length) 0 ≤ c.prod :=
    Nat.le_of_dvd (List.prod_pos (fun a ha => hpos a ha)) (List.dvd_prod hmem)
  unfold halveAt
  generalize c.getD (i % c.length) 0 = x at *
  generalize (c.set (i % c.length) (halveExtent x)).prod = P at *
  rcases halveExtent_lower x with h | h
  · left
    have h1 : c.prod * x ≤ c.prod * (2 * halveExtent x) := Nat.mul_le_mul_left _ h
    have h2 : c.prod * (2 * halveExtent x) = 2 * P * x := by
      rw [Nat.mul_left_comm, ← hmul]; ring
    rw [h2] at h1
    have h3 : c.prod * x ≤ (2 * P) * x := h1
    exact Nat.le_of_mul_le_mul_right h3 hx
  · right
    have h1 : x * halveExtent x ≤ c.prod * halveExtent x := Nat.mul_le_mul_right _ hxle
    rw [← hmul] at h1
    have h2 : halveExtent x * x ≤ P * x := by rw [Nat.mul_comm]; exact h1
    exact le_trans h (Nat.le_of_mul_le_mul_right h2 hx)

/-- C30: for every shape and element size whose byte size fits 64 bits (and
every value of the floating-point target), `guessChunkSize` returns a chunk that
either is the input shape unchanged or holds at least half the target budget in
bytes, `target ≤ 2 * typeSize * product(chunk)`, and therefore at least 4096
bytes. -/
theorem guessChunkSize_at_least_half_target (scaledTarget : Nat → Nat) (dims : List Nat)
    (typeSize : Nat) (h : typeSize * dims.prod < 2 ^ 64) :
    ∃ c, guessChunkSize scaledTarget dims typeSize = some c ∧
      (c = dims ∨
        (targetSizeOf scaledTarget dims typeSize ≤ 2 * typeSize * c.prod ∧
          4096 ≤ typeSize * c.prod)) := by
  obtain ⟨k, _, hr, _, hmin⟩ := guessChunkSizeRun_eq scaledTarget dims typeSize
  refine ⟨iterHalve k dims 0, by simp [guessChunkSize, hr], ?_⟩
  have htmin : k_ChunkMin ≤ targetSizeOf scaledTarget dims typeSize := by
    unfold targetSizeOf
    exact one_le_clampTarget _
  have htmax : targetSizeOf scaledTarget dims typeSize ≤ k_ChunkMax := by
    unfold targetSizeOf
    exact clampTarget_le _
  unfold k_ChunkMin at htmin
  unfold k_ChunkMax at htmax
  generalize targetSizeOf scaledTarget dims typeSize = t at *
  cases k with
  | zero => exact Or.inl rfl
  | succ k =>
    right
    have h0 := hmin 0 (by omega)
    have hk := hmin k (by omega)
    simp only [iterHalve, loopExits, not_or, not_lt] at h0 hk
    -- no extent is 0 and the element size is not 0
    have hne : ∀ d ∈ dims, d ≠ 0 := by
      intro d hd hd0
      subst hd0
      have := h0.1
      rw [accumulateProduct_of_zero_mem dims hd] at this
      simp at this
      omega
    have hts : 1 ≤ typeSize := by
      rcases Nat.eq_zero_or_pos typeSize with h' | h'
      · have := h0.1
        rw [h'] at this
        simp at this
        omega
      · exact h'
    have hF := forall₂_iterHalve k dims dims 0 (forall₂_self dims hne)
    have hpos := forall₂_mem_one_le _ _ hF
    have hle := forall₂_prod_le _ _ hF
    have hle2 : typeSize * (iterHalve k dims 0).prod ≤ typeSize * dims.prod :=
      Nat.mul_le_mul_left _ hle
    have hlt : (iterHalve k dims 0).prod < 2 ^ 64 := by
      have : (iterHalve k dims 0).prod ≤ typeSize * (iterHalve k dims 0).prod :=
        Nat.le_mul_of_pos_left _ hts
      omega
    have hacc := accumulateProduct_eq_prod _ hpos hlt
    have hcne : iterHalve k dims 0 ≠ [] := by
      intro hnil
      have := hk.2.2
      rw [hnil] at this
      exact this rfl
    have hbytes : t ≤ typeSize * (iterHalve k dims 0).prod := by
      have := hk.1
      rw [hacc, Nat.mul_comm, Nat.mod_eq_of_lt (by omega)] at this
      exact this
    rw [iterHalve_succ_last, Nat.zero_add]
    have hcases := prod_halveAt_lower (iterHalve k dims 0) k hcne hpos
    generalize (halveAt (iterHalve k dims 0) k).prod = P' at *
    generalize (iterHalve k dims 0).prod = P at *
    have hkey : t ≤ 2 * typeSize * P' := by
      rcases hcases with hc | hc
      · have : typeSize * P ≤ typeSize * (2 * P') := Nat.mul_le_mul_left _ hc
        have e : typeSize * (2 * P') = 2 * typeSize * P' := by ring
        omega
      · have : P' ≤ typeSize * P' := Nat.le_mul_of_pos_left _ hts
        have e : 2 * typeSize * P' = 2 * (typeSize * P') := by ring
        have : (2 : Nat) ^ 51 = 2251799813685248 := by norm_num
        omega
    refine ⟨hkey, ?_⟩
    have e : 2 * typeSize * P' = 2 * (typeSize * P') := by ring
    omega

/-- A one-dimensional shape of 1000000 4-byte elements: the chunk is the shape
itself or holds at least half of the target, hence 4096 bytes. -/
theorem guessChunkSize_at_least_half_target_witness :
    4 * [1000000].prod < 2 ^ 64 ∧
    ∃ c, guessChunkSize (fun _ => 30639) [1000000] 4 = some c ∧
      (c = [1000000] ∨
        (targetSizeOf (fun _ => 30639) [1000000] 4 ≤ 2 * 4 * c.prod ∧ 4096 ≤ 4 * c.prod)) :=
  ⟨by decide, guessChunkSize_at_least_half_target (fun _ => 30639) [1000000] 4 (by decide)⟩

/-! ## HDFTypeForPrimitive: plain char and the native integer types -/

/-- C20 (the code differs): on a host where `char` is signed, with the sources
built as they are (`CMP_TYPE_CHAR_IS_SIGNED` is not defined, so `#if` takes the
`#else` branch), `HDFTypeForPrimitive` maps plain `char` to the unsigned 8-bit
tag, not to the signed one.  The other four mappings of the claim hold there:
`int8_t` and `signed char` get the signed 8-bit tag, `uint8_t` and
`unsigned char` the unsigned one. -/
theorem HDFTypeForPrimitive_char_unsigned_on_signed_host :
    hostLP64.charIsSigned = true ∧
    HDFTypeForPrimitive buildLP64 CType.char = HDFType.H5T_NATIVE_UINT8 ∧
    HDFTypeForPrimitive buildLP64 buildLP64.int8_t = HDFType.H5T_NATIVE_INT8 ∧
    HDFTypeForPrimitive buildLP64 CType.signedChar = HDFType.H5T_NATIVE_INT8 ∧
    HDFTypeForPrimitive buildLP64 buildLP64.uint8_t = HDFType.H5T_NATIVE_UINT8 ∧
    HDFTypeForPrimitive buildLP64 CType.unsignedChar = HDFType.H5T_NATIVE_UINT8 := by
  decide

/-- When the build defines `CMP_TYPE_CHAR_IS_SIGNED` as the host has it, plain
`char` gets the signed 8-bit tag on a host where `char` is signed and the
unsigned one otherwise. -/
theorem HDFTypeForPrimitive_char_configured (p : Platform) (h : Host)
    (hM : p.MacrosDescribe h) :
    HDFTypeForPrimitive p CType.char =
      (if h.charIsSigned then HDFType.H5T_NATIVE_INT8 else HDFType.H5T_NATIVE_UINT8) := by
  have hc := hM.1
  by_cases hs : h.charIsSigned = true
  · have : p.CMP_TYPE_CHAR_IS_SIGNED ≠ 0 := hc.2 hs
    simp [HDFTypeForPrimitive, Platform.int8_t, Platform.uint8_t, this, hs]
  · have : p.CMP_TYPE_CHAR_IS_SIGNED = 0 := by
      by_contra h0
      exact hs (hc.1 h0)
    simp [HDFTypeForPrimitive, Platform.int8_t, Platform.uint8_t, this, hs]

/-- A typedef name that agrees with a width and a signedness is none of the
standard integer types of another width or signedness. -/
theorem Host.namesWidth_ne (h : Host) (T U : CType) (bytes : Int) (signed : Bool)
    (hT : h.namesWidth T bytes signed) (hU : U ≠ CType.other)
    (hdiff : U.signedness ≠ some signed ∨ h.byteWidth U ≠ bytes) : U ≠ T := by
  intro hUT
  subst hUT
  rcases hT with hT | ⟨h1, h2⟩
  · exact hU hT
  · rcases hdiff with hd | hd
    · exact hd h1
    · exact hd h2

/-- C21 (the code differs): on a common 64-bit host (`int` 4 bytes, `long` and
`long long` 8 bytes, `int32_t` naming `int` and `int64_t` naming `long`), with
the sources built as they are (the `CMP_SIZEOF_` macros are not defined, so the
three `#if` blocks are left out), `HDFTypeForPrimitive` maps `long long` and
`unsigned long long` to the unsupported value -1, although the fixed-width
integers of 8 bytes and their tags exist.  (`int` and `long`, which the typedef
names stand for, get the tags of their width.) -/
theorem HDFTypeForPrimitive_longLong_unsupported :
    buildLP64.TypedefsAgree hostLP64 ∧
    (CType.longLong, true) ∈ nativeIntegerTypes ∧
    (CType.unsignedLongLong, false) ∈ nativeIntegerTypes ∧
    HDFTypeForPrimitive buildLP64 CType.longLong = HDFType.unknown ∧
    HDFTypeForPrimitive buildLP64 CType.unsignedLongLong = HDFType.unknown ∧
    fixedWidthTag (hostLP64.byteWidth CType.longLong) true = HDFType.H5T_NATIVE_INT64 ∧
    fixedWidthTag (hostLP64.byteWidth CType.unsignedLongLong) false =
      HDFType.H5T_NATIVE_UINT64 ∧
    HDFTypeForPrimitive buildLP64 CType.int = HDFType.H5T_NATIVE_INT32 ∧
    HDFTypeForPrimitive buildLP64 CType.long = HDFType.H5T_NATIVE_INT64 := by
  refine ⟨?_, by decide, by decide, by decide, by decide, by decide, by decide, by decide,
    by decide⟩
  simp [Platform.TypedefsAgree, Host.namesWidth, buildLP64, hostLP64, CType.signedness,
    Host.byteWidth]

/-- When the build defines the `CMP_SIZEOF_` macros as the host has the widths,
`int` is 4 bytes wide, `long` 4 or 8 and `long long` 8, and the typedef names
agree with the widths, `HDFTypeForPrimitive` maps each native integer type
(`int`, `long`, `long long`, signed and unsigned) to the tag of the fixed-width
integer of the same byte width and signedness, and not to -1. -/
theorem HDFTypeForPrimitive_native_integers_configured (p : Platform) (h : Host)
    (hM : p.MacrosDescribe h) (hC : p.TypedefsAgree h)
    (hInt : h.sizeofInt = 4) (hLong : h.sizeofLong = 4 ∨ h.sizeofLong = 8)
    (hLongLong : h.sizeofLongLong = 8) :
    ∀ T ∈ nativeIntegerTypes,
      HDFTypeForPrimitive p T.1 = fixedWidthTag (h.byteWidth T.1) T.2 ∧
      HDFTypeForPrimitive p T.1 ≠ HDFType.unknown := by
  obtain ⟨h32, hu32, h64, hu64⟩ := hC
  obtain ⟨_, mI, mL, mLL⟩ := hM
  have mInt : p.CMP_SIZEOF_INT = 4 := by rw [mI]; exact hInt
  have mLongLong : p.CMP_SIZEOF_LONG_LONG = 8 := by rw [mLL]; exact hLongLong
  intro T hT
  simp only [nativeIntegerTypes, List.mem_cons, List.mem_singleton, List.not_mem_nil,
    or_false] at hT
  rcases hT with rfl | rfl | rfl | rfl | rfl | rfl
  · -- int
    have n1 := h.namesWidth_ne _ CType.int _ _ hu32 (by decide) (Or.inl (by decide))
    by_cases e : CType.int = p.int32_t
    · simp [HDFTypeForPrimitive, Platform.int8_t, Platform.uint8_t, Platform.int16_t,
        Platform.uint16_t, ← e, fixedWidthTag, Host.byteWidth, hInt]
    · simp [HDFTypeForPrimitive, Platform.int8_t, Platform.uint8_t, Platform.int16_t,
        Platform.uint16_t, e, n1, fixedWidthTag, Host.byteWidth, hInt, mInt]
  · -- unsigned int
    have n1 := h.namesWidth_ne _ CType.unsignedInt _ _ h32 (by decide) (Or.inl (by decide))
    by_cases e : CType.unsignedInt = p.uint32_t
    · simp [HDFTypeForPrimitive, Platform.int8_t, Platform.uint8_t, Platform.int16_t,
        Platform.uint16_t, ← e, n1, fixedWidthTag, Host.byteWidth, hInt]
    · simp [HDFTypeForPrimitive, Platform.int8_t, Platform.uint8_t, Platform.int16_t,
        Platform.uint16_t, e, n1, fixedWidthTag, Host.byteWidth, hInt, mInt]
  · -- long
    have n1 := h.namesWidth_ne _ CType.long _ _ hu32 (by decide) (Or.inl (by decide))
    rcases hLong with hL | hL
    · have mLong : p.CMP_SIZEOF_LONG = 4 := by rw [mL]; exact hL
      by_cases e : CType.long = p.int32_t
      · simp [HDFTypeForPrimitive, Platform.int8_t, Platform.uint8_t, Platform.int16_t,
          Platform.uint16_t, ← e, fixedWidthTag, Host.byteWidth, hL]
      · simp [HDFTypeForPrimitive, Platform.int8_t, Platform.uint8_t, Platform.int16_t,
          Platform.uint16_t, e, n1, fixedWidthTag, Host.byteWidth, hL, mLong]
    · have mLong : p.CMP_SIZEOF_LONG = 8 := by rw [mL]; exact hL
      have n2 := h.namesWidth_ne _ CType.long _ _ h32 (by decide)
        (Or.inr (by simp [Host.byteWidth, hL]))
      simp [HDFTypeForPrimitive, Platform.int8_t, Platform.uint8_t, Platform.int16_t,
        Platform.uint16_t, n1, n2, fixedWidthTag, Host.byteWidth, hL, mLong]
  · -- unsigned long
    have n1 := h.namesWidth_ne _ CType.unsignedLong _ _ h32 (by decide) (Or.inl (by decide))
    rcases hLong with hL | hL
    · have mLong : p.CMP_SIZEOF_LONG = 4 := by rw [mL]; exact hL
      by_cases e : CType.unsignedLong = p.uint32_t
      · simp [HDFTypeForPrimitive, Platform.int8_t, Platform.uint8_t, Platform.int16_t,
          Platform.uint16_t, ← e, n1, fixedWidthTag, Host.byteWidth, hL]
      · simp [HDFTypeForPrimitive, Platform.int8_t, Platform.uint8_t, Platform.int16_t,
          Platform.uint16_t, e, n1, fixedWidthTag, Host.byteWidth, hL, mLong]
    · have mLong : p.CMP_SIZEOF_LONG = 8 := by rw [mL]; exact hL
      have n2 := h.namesWidth_ne _ CType.unsignedLong _ _ hu32 (by decide)
        (Or.inr (by simp [Host.byteWidth, hL]))
      simp [HDFTypeForPrimitive, Platform.int8_t, Platform.uint8_t, Platform.int16_t,
        Platform.uint16_t, n1, n2, fixedWidthTag, Host.byteWidth, hL, mLong]
  · -- long long
    have n1 := h.namesWidth_ne _ CType.longLong _ _ hu32 (by decide) (Or.inl (by decide))
    have n2 := h.namesWidth_ne _ CType.longLong _ _ h32 (by decide)
      (Or.inr (by simp [Host.byteWidth, hLongLong]))
    simp [HDFTypeForPrimitive, Platform.int8_t, Platform.uint8_t, Platform.int16_t,
      Platform.uint16_t, n1, n2, fixedWidthTag, Host.byteWidth, hLongLong, mLongLong]
  · -- unsigned long long
    have n1 := h.namesWidth_ne _ CType.unsignedLongLong _ _ h32 (by decide)
      (Or.inl (by decide))
    have n2 := h.namesWidth_ne _ CType.unsignedLongLong _ _ hu32 (by decide)
      (Or.inr (by simp [Host.byteWidth, hLongLong]))
    simp [HDFTypeForPrimitive, Platform.int8_t, Platform.uint8_t, Platform.int16_t,
      Platform.uint16_t, n1, n2, fixedWidthTag, Host.byteWidth, hLongLong, mLongLong]

/-! ## Names of the storage types: results -/

/-- What `H5Tequal` returns on the identifiers of two of the ten tags, when the
library tells them apart. -/
theorem TypeIds.equal_eq_zero_iff (lib : TypeIds) (h : lib.Distinguishes)
    (a b : HDFType) (ha : a ∈ numericTags) (hb : b ∈ numericTags) :
    lib.H5Tequal (lib.nativeId a) (lib.nativeId b) = 0 ↔ a ≠ b := by
  have := h.1 a ha b hb
  constructor
  · intro h0 hab
    exact (this.2 hab) h0
  · intro hab
    by_contra h0
    exact hab (this.1 h0)

/-- The name that `StringForHDFType` gives to the identifier of each of the ten
tags, when the library tells them apart. -/
theorem StringForHDFType_table (lib : TypeIds) (h : lib.Distinguishes) :
    StringForHDFType lib (lib.nativeId HDFType.H5T_NATIVE_INT8) = "H5T_NATIVE_INT8" ∧
    StringForHDFType lib (lib.nativeId HDFType.H5T_NATIVE_UINT8) = "H5T_NATIVE_UINT8" ∧
    StringForHDFType lib (lib.nativeId HDFType.H5T_NATIVE_INT16) = "H5T_NATIVE_INT16" ∧
    StringForHDFType lib (lib.nativeId HDFType.H5T_NATIVE_UINT16) = "H5T_NATIVE_UINT16" ∧
    StringForHDFType lib (lib.nativeId HDFType.H5T_NATIVE_INT32) = "H5T_NATIVE_INT32" ∧
    StringForHDFType lib (lib.nativeId HDFType.H5T_NATIVE_UINT32) = "H5T_NATIVE_UINT32" ∧
    StringForHDFType lib (lib.nativeId HDFType.H5T_NATIVE_INT64) = "H5T_NATIVE_INT64" ∧
    StringForHDFType lib (lib.nativeId HDFType.H5T_NATIVE_UINT64) = "H5T_NATIVE_UINT64" ∧
    StringForHDFType lib (lib.nativeId HDFType.H5T_NATIVE_FLOAT) = "H5T_NATIVE_FLOAT" ∧
    StringForHDFType lib (lib.nativeId HDFType.H5T_NATIVE_DOUBLE) = "H5T_NATIVE_DOUBLE" := by
  have hs := h.2
  have he : ∀ a b, a ∈ numericTags → b ∈ numericTags →
      ((lib.H5Tequal (lib.nativeId a) (lib.nativeId b) = 0) = (a ≠ b)) :=
    fun a b ha hb => propext (lib.equal_eq_zero_iff h a b ha hb)
  have mem : ∀ a, a ∈ numericTags ↔ a ≠ HDFType.unknown := by
    intro a
    cases a <;> decide
  simp only [mem] at hs he
  refine ⟨?_, ?_, ?_, ?_, ?_, ?_, ?_, ?_, ?_, ?_⟩ <;>
    simp [StringForHDFType, hs, he]

/-- The name that `HDFTypeForPrimitiveAsStr` gives to the fixed-width kind of
each of the ten tags, on a platform where these kinds are ten different
types. -/
theorem HDFTypeForPrimitiveAsStr_table (p : Platform)
    (hKinds : (numericTags.map p.kindOf).Nodup) :
    HDFTypeForPrimitiveAsStr p p.int8_t = "H5T_NATIVE_INT8" ∧
    HDFTypeForPrimitiveAsStr p p.uint8_t = "H5T_NATIVE_UINT8" ∧
    HDFTypeForPrimitiveAsStr p p.int16_t = "H5T_NATIVE_INT16" ∧
    HDFTypeForPrimitiveAsStr p p.uint16_t = "H5T_NATIVE_UINT16" ∧
    HDFTypeForPrimitiveAsStr p p.int32_t = "H5T_NATIVE_INT32" ∧
    HDFTypeForPrimitiveAsStr p p.uint32_t = "H5T_NATIVE_UINT32" ∧
    HDFTypeForPrimitiveAsStr p p.int64_t = "H5T_NATIVE_INT64" ∧
    HDFTypeForPrimitiveAsStr p p.uint64_t = "H5T_NATIVE_UINT64" ∧
    HDFTypeForPrimitiveAsStr p CType.float = "H5T_NATIVE_FLOAT" ∧
    HDFTypeForPrimitiveAsStr p CType.double = "H5T_NATIVE_DOUBLE" := by
  have hrev := List.nodup_reverse.2 hKinds
  simp only [numericTags, List.map_cons, List.map_nil, Platform.kindOf, List.reverse_cons,
    List.reverse_nil, List.nil_append, List.cons_append, List.nodup_cons, List.mem_cons,
    List.mem_singleton, List.not_mem_nil, or_false, not_or, List.nodup_nil, and_true] at hrev
  obtain ⟨h10, h9, h8, h7, h6, h5, h4, h3, h2⟩ := hrev
  refine ⟨?_, ?_, ?_, ?_, ?_, ?_, ?_, ?_, ?_, ?_⟩
  · simp [HDFTypeForPrimitiveAsStr]
  · simp [HDFTypeForPrimitiveAsStr, h2]
  · simp [HDFTypeForPrimitiveAsStr, h3]
  · simp [HDFTypeForPrimitiveAsStr, h4]
  · simp [HDFTypeForPrimitiveAsStr, h5]
  · simp [HDFTypeForPrimitiveAsStr, h6]
  · simp [HDFTypeForPrimitiveAsStr, h7]
  · simp [HDFTypeForPrimitiveAsStr, h8]
  · simp [HDFTypeForPrimitiveAsStr, h9]
  · simp [HDFTypeForPrimitiveAsStr, h10]

/-- C22 (as stated, refuted): with `H5T_STRING = 3` and `H5Tequal` failing
(-1) on what is not the identifier of a type, the identifiers 3 and -1 are
outside the ten numeric tags, and `StringForHDFType` returns `"H5T_STRING"` for
3 and `"H5T_NATIVE_INT8"` for -1, not `"Unknown"`. -/
theorem StringForHDFType_outside_not_unknown :
    exampleTypeIds.Distinguishes ∧
    (∀ tag ∈ numericTags, exampleTypeIds.nativeId tag ≠ 3) ∧
    StringForHDFType exampleTypeIds 3 = "H5T_STRING" ∧
    (∀ tag ∈ numericTags, exampleTypeIds.nativeId tag ≠ -1) ∧
    StringForHDFType exampleTypeIds (-1) = "H5T_NATIVE_INT8" := by
  refine ⟨⟨by decide, by decide⟩, by decide, by decide, by decide, by decide⟩

/-- C22 (amended): when the library tells the ten numeric tags apart and the ten
fixed-width kinds are ten different types, `StringForHDFType` returns for the
identifier of each tag a non-empty name, which is the name that
`HDFTypeForPrimitiveAsStr` returns for the corresponding kind; two different
tags never get the same name; the identifier `H5T_STRING` gets the name
`"H5T_STRING"`; and every other identifier that `H5Tequal` reports different
(returns 0) from each of the ten tags gets `"Unknown"`. -/
theorem StringForHDFType_complete (lib : TypeIds) (p : Platform) (hLib : lib.Distinguishes)
    (hKinds : (numericTags.map p.kindOf).Nodup) :
    (∀ a ∈ numericTags, StringForHDFType lib (lib.nativeId a) ≠ "" ∧
      StringForHDFType lib (lib.nativeId a) = HDFTypeForPrimitiveAsStr p (p.kindOf a)) ∧
    (∀ a ∈ numericTags, ∀ b ∈ numericTags,
      StringForHDFType lib (lib.nativeId a) = StringForHDFType lib (lib.nativeId b) → a = b) ∧
    StringForHDFType lib lib.H5T_STRING = "H5T_STRING" ∧
    (∀ id, id ≠ lib.H5T_STRING → (∀ a ∈ numericTags, lib.H5Tequal id (lib.nativeId a) = 0) →
      StringForHDFType lib id = "Unknown") := by
  obtain ⟨t1, t2, t3, t4, t5, t6, t7, t8, t9, t10⟩ := StringForHDFType_table lib hLib
  obtain ⟨s1, s2, s3, s4, s5, s6, s7, s8, s9, s10⟩ := HDFTypeForPrimitiveAsStr_table p hKinds
  refine ⟨?_, ?_, ?_, ?_⟩
  · intro a ha
    simp only [numericTags, List.mem_cons, List.mem_singleton, List.not_mem_nil,
      or_false] at ha
    rcases ha with rfl | rfl | rfl | rfl | rfl | rfl | rfl | rfl | rfl | rfl <;>
      simp only [Platform.kindOf, t1, t2, t3, t4, t5, t6, t7, t8, t9, t10, s1, s2, s3, s4, s5,
        s6, s7, s8, s9, s10] <;> exact ⟨by decide, trivial⟩
  · intro a ha b hb
    simp only [numericTags, List.mem_cons, List.mem_singleton, List.not_mem_nil,
      or_false] at ha hb
    rcases ha with rfl | rfl | rfl | rfl | rfl | rfl | rfl | rfl | rfl | rfl <;>
      rcases hb with rfl | rfl | rfl | rfl | rfl | rfl | rfl | rfl | rfl | rfl <;>
      simp only [t1, t2, t3, t4, t5, t6, t7, t8, t9, t10] <;> decide
  · simp [StringForHDFType]
  · intro id hid h0
    simp [StringForHDFType, hid, h0 _ (by decide : HDFType.H5T_NATIVE_INT8 ∈ numericTags),
      h0 _ (by decide : HDFType.H5T_NATIVE_UINT8 ∈ numericTags),
      h0 _ (by decide : HDFType.H5T_NATIVE_INT16 ∈ numericTags),
      h0 _ (by decide : HDFType.H5T_NATIVE_UINT16 ∈ numericTags),
      h0 _ (by decide : HDFType.H5T_NATIVE_INT32 ∈ numericTags),
      h0 _ (by decide : HDFType.H5T_NATIVE_UINT32 ∈ numericTags),
      h0 _ (by decide : HDFType.H5T_NATIVE_INT64 ∈ numericTags),
      h0 _ (by decide : HDFType.H5T_NATIVE_UINT64 ∈ numericTags),
      h0 _ (by decide : HDFType.H5T_NATIVE_FLOAT ∈ numericTags),
      h0 _ (by decide : HDFType.H5T_NATIVE_DOUBLE ∈ numericTags)]

/-- The names at the identifiers of the example and on the common 64-bit
platform: the signed 32-bit tag is named `"H5T_NATIVE_INT32"`, as `int32_t`
is. -/
theorem StringForHDFType_complete_witness :
    StringForHDFType exampleTypeIds (exampleTypeIds.nativeId HDFType.H5T_NATIVE_INT32) =
      HDFTypeForPrimitiveAsStr platformLP64 (platformLP64.kindOf HDFType.H5T_NATIVE_INT32) :=
  ((StringForHDFType_complete exampleTypeIds platformLP64 ⟨by decide, by decide⟩
    (by decide)).1 HDFType.H5T_NATIVE_INT32 (by decide)).2

/-! ## readStringDataset and readVectorOfStringDataset: further results -/

/-- What `readStringDataset` returns on the dataset that `writeStringDataset`
creates for the empty string (one zero byte, never written): status 0 and the
empty string. -/
theorem OnFile.readStringDataset_never_written {α : Type} (s : H5State α)
    (datasetName : String) (dataBefore : List Char)
    (r : (Int × List Char) × H5State α)
    (hr : OnFile.readStringDataset s datasetName dataBefore = r)
    (hId : 0 < s.nextId)
    (hStored : s.datasets datasetName = some (Dataset.mk (StoredType.fixedString 1)
      Dataspace.scalar false (Content.text [NUL])))
    (hUB : s.undefinedBehaviour = false) (hNM : s.notModelled = false) :
    r.1 = (0, []) ∧ r.2.undefinedBehaviour = false ∧ r.2.notModelled = false := by
  subst hr
  have h0 : ¬ s.nextId < 0 := by omega
  have h1 : 0 ≤ s.nextId + 1 := by omega
  have n01 : s.nextId + 1 ≠ s.nextId := by omega
  have n10 : s.nextId ≠ s.nextId + 1 := by omega
  simp only [OnFile.readStringDataset]
  simp [H5Dopen, H5State.alloc, H5Dget_type, H5Tis_variable_str, H5State.datasetOf,
    H5Dget_storage_size, H5Dread, Dataspace.count, H5Dclose, H5Tclose, H5State.release,
    closeStatus, overwritePrefix, cString, hStored, hUB, hNM, h0, h1, n01, n10]

/-- What `readStringDataset` returns when there is no dataset of that name:
status -1 and the empty string. -/
theorem OnFile.readStringDataset_absent {α : Type} (s : H5State α) (datasetName : String)
    (dataBefore : List Char) (hAbsent : s.datasets datasetName = none) :
    (OnFile.readStringDataset s datasetName dataBefore).1 = (-1, []) := by
  simp [OnFile.readStringDataset, H5Dopen, hAbsent]

/-- C23: the output of `readStringDataset` does not depend on what the output
string held before the call.  For every string `text` without a zero byte
stored by `writeStringDataset` under a name that was free, the call returns
status 0 and exactly `text` for every prior content; and when there is no
dataset of the name (the dataset cannot be opened) the call returns -1 and the
output is empty, for every prior content. -/
theorem readStringDataset_ignores_prior_content {α : Type} [Inhabited α] (s : H5State α)
    (datasetName : String) (text dataBefore : List Char)
    (hId : 0 < s.nextId) (hUB : s.undefinedBehaviour = false) (hNM : s.notModelled = false)
    (hFree : s.datasets datasetName = none) (hNulFree : NUL ∉ text) :
    (OnFile.readStringDataset (OnFile.writeStringDataset s datasetName text).2 datasetName
      dataBefore).1 = (0, text) ∧
    (OnFile.readStringDataset s datasetName dataBefore).1 = (-1, []) := by
  refine ⟨?_, OnFile.readStringDataset_absent s datasetName dataBefore hFree⟩
  obtain ⟨_, a2, a3, a4, a5⟩ := OnFile.writeStringDataset_creates s datasetName text _ rfl
    hId hFree hUB hNM
  cases text with
  | nil =>
    simp only [List.isEmpty_nil, Bool.not_true, if_true, List.length_nil, Nat.zero_add] at a2
    exact (OnFile.readStringDataset_never_written _ datasetName dataBefore _ rfl a3 a2 a4 a5).1
  | cons a l =>
    simp only [List.isEmpty_cons, Bool.not_false, Bool.false_eq_true, if_false] at a2
    obtain ⟨c1, _, _⟩ := OnFile.readStringDataset_fixed _ datasetName _ _ dataBefore _ rfl a3 a2
      (by simp) a4 a5
    rw [c1, List.append_assoc]
    exact congrArg (Prod.mk 0) (cString_append_NUL (a :: l) [NUL] hNulFree)

/-- The string of the test read back over a string left in the output. -/
theorem readStringDataset_ignores_prior_content_witness :
    (OnFile.readStringDataset
      (OnFile.writeStringDataset (emptyFile Int) "StringDataset"
        "Testing 1 2 3".toList).2 "StringDataset" "left over".toList).1 =
      (0, "Testing 1 2 3".toList) :=
  (readStringDataset_ignores_prior_content (emptyFile Int) "StringDataset"
    "Testing 1 2 3".toList "left over".toList (by decide) rfl rfl rfl (by decide)).1

/-- The early return of `readVectorOfStringDataset` on a scalar dataset (rank
0, not 1): the status is -2 and the identifier that `H5Dopen` returned at entry
is still open afterwards. -/
theorem OnFile.readVectorOfStringDataset_wrong_rank {α : Type} (s : H5State α)
    (datasetName : String) (type : StoredType) (allocated : Bool) (content : Content α)
    (dataBefore : List (List Char))
    (r : (Int × List (List Char)) × H5State α)
    (hr : OnFile.readVectorOfStringDataset s datasetName dataBefore = r)
    (hId : 0 < s.nextId)
    (hStored : s.datasets datasetName =
      some (Dataset.mk type Dataspace.scalar allocated content)) :
    r.1 = (-2, dataBefore) ∧ (H5Dopen s datasetName).1 = s.nextId ∧
    r.2.handles s.nextId = some (Handle.dataset datasetName) := by
  subst hr
  have h0 : ¬ s.nextId < 0 := by omega
  have h1 : 0 ≤ s.nextId + 1 := by omega
  have n01 : s.nextId + 1 ≠ s.nextId := by omega
  have n02 : s.nextId + 1 + 1 ≠ s.nextId := by omega
  have n12 : s.nextId + 1 + 1 ≠ s.nextId + 1 := by omega
  have n10 : s.nextId ≠ s.nextId + 1 := by omega
  have n20 : s.nextId ≠ s.nextId + 1 + 1 := by omega
  have n21 : s.nextId + 1 ≠ s.nextId + 1 + 1 := by omega
  simp only [OnFile.readVectorOfStringDataset]
  cases type <;>
    simp [H5Dopen, H5State.alloc, H5Dget_type, H5Dget_space, H5Sget_simple_extent_dims,
      H5State.datasetOf, H5Tclose, H5Sclose, H5State.release, hStored, h0, h1,
      n01, n02, n12, n10, n20, n21]

/-- The early return of `readVectorOfStringDataset` when the read fails (here
on a one-dimensional dataset of numbers, which cannot be read as strings): the
status is -3 and the identifier that `H5Dopen` returned at entry is still open
afterwards. -/
theorem OnFile.readVectorOfStringDataset_read_fails {α : Type} (s : H5State α)
    (datasetName : String) (typeID : Int) (extent : Nat) (allocated : Bool)
    (content : Content α) (dataBefore : List (List Char))
    (r : (Int × List (List Char)) × H5State α)
    (hr : OnFile.readVectorOfStringDataset s datasetName dataBefore = r)
    (hId : 0 < s.nextId)
    (hStored : s.datasets datasetName = some (Dataset.mk (StoredType.native typeID)
      (Dataspace.simple [extent]) allocated content)) :
    r.1 = (-3, dataBefore) ∧ (H5Dopen s datasetName).1 = s.nextId ∧
    r.2.handles s.nextId = some (Handle.dataset datasetName) := by
  subst hr
  have h0 : ¬ s.nextId < 0 := by omega
  have h1 : 0 ≤ s.nextId + 1 := by omega
  have n01 : s.nextId + 1 ≠ s.nextId := by omega
  have n02 : s.nextId + 1 + 1 ≠ s.nextId := by omega
  have n03 : s.nextId + 1 + 1 + 1 ≠ s.nextId := by omega
  have n12 : s.nextId + 1 + 1 ≠ s.nextId + 1 := by omega
  have n13 : s.nextId + 1 + 1 + 1 ≠ s.nextId + 1 := by omega
  have n23 : s.nextId + 1 + 1 + 1 ≠ s.nextId + 1 + 1 := by omega
  have n10 : s.nextId ≠ s.nextId + 1 := by omega
  have n20 : s.nextId ≠ s.nextId + 1 + 1 := by omega
  have n21 : s.nextId + 1 ≠ s.nextId + 1 + 1 := by omega
  have n30 : s.nextId ≠ s.nextId + 1 + 1 + 1 := by omega
  have n31 : s.nextId + 1 ≠ s.nextId + 1 + 1 + 1 := by omega
  have n32 : s.nextId + 1 + 1 ≠ s.nextId + 1 + 1 + 1 := by omega
  simp only [OnFile.readVectorOfStringDataset]
  simp [H5Dopen, H5State.alloc, H5Dget_type, H5Dget_space, H5Sget_simple_extent_dims,
    H5Tcopy_C_S1, H5Tset_size, H5Dread, H5State.datasetOf, H5Tclose, H5Sclose,
    H5State.release, hStored, h0, h1,
    n01, n02, n03, n12, n13, n23, n10, n20, n21, n30, n31, n32]

/-- C26 (the code differs): `readVectorOfStringDataset` on the scalar string
dataset written by `writeStringDataset` (rank 0) returns -2, and on the
one-dimensional dataset of numbers written by `writePointerDataset` (the read
fails) returns -3; in both cases the dataset identifier that `H5Dopen` returned
at entry is still open when the function has returned: it was not closed. -/
theorem readVectorOfStringDataset_early_return_leaves_dataset_open :
    (OnFile.readVectorOfStringDataset
      (OnFile.writeStringDataset (emptyFile Int) "StringDataset" "abc".toList).2
      "StringDataset" []).1.1 = -2 ∧
    (OnFile.readVectorOfStringDataset
      (OnFile.writeStringDataset (emptyFile Int) "StringDataset" "abc".toList).2
      "StringDataset" []).2.handles
        (H5Dopen (OnFile.writeStringDataset (emptyFile Int) "StringDataset" "abc".toList).2
          "StringDataset").1 = some (Handle.dataset "StringDataset") ∧
    (OnFile.readVectorOfStringDataset
      (OnFile.writePointerDataset (emptyFile Int) "Numbers" [2] 7 (some [1, 2])).2
      "Numbers" []).1.1 = -3 ∧
    (OnFile.readVectorOfStringDataset
      (OnFile.writePointerDataset (emptyFile Int) "Numbers" [2] 7 (some [1, 2])).2
      "Numbers" []).2.handles
        (H5Dopen (OnFile.writePointerDataset (emptyFile Int) "Numbers" [2] 7 (some [1, 2])).2
          "Numbers").1 = some (Handle.dataset "Numbers") := by
  obtain ⟨_, a2, a3, _, _⟩ := OnFile.writeStringDataset_creates (emptyFile Int)
    "StringDataset" "abc".toList _ rfl (by decide) rfl rfl rfl
  obtain ⟨b1, b2, b3⟩ := OnFile.readVectorOfStringDataset_wrong_rank _ "StringDataset" _ _ _ []
    _ rfl a3 a2
  obtain ⟨_, c2, _, c4, _, _⟩ := OnFile.writePointerDataset_stores (emptyFile Int) "Numbers"
    [2] 7 [1, 2] rfl (by decide) (by decide) (by decide) rfl rfl rfl rfl
  obtain ⟨d1, d2, d3⟩ := OnFile.readVectorOfStringDataset_read_fails _ "Numbers" 7 2 true _ []
    _ rfl (by have : (emptyFile Int).nextId = 100 := rfl
              omega) c2
  rw [b2, d2]
  exact ⟨by rw [b1], b3, by rw [d1], d3⟩

/-- What `readStringDataset` does on a one-dimensional dataset of
variable-length strings without any record: the nested
`readVectorOfStringDataset` succeeds with an empty vector, the test
`strings.size() > 1` is false, and `strings[0]` is evaluated on the empty
vector. -/
theorem OnFile.readStringDataset_no_record {α : Type} (s : H5State α) (datasetName : String)
    (dataBefore : List Char) (allocated : Bool)
    (hId : 0 < s.nextId)
    (hStored : s.datasets datasetName = some (Dataset.mk StoredType.variableString
      (Dataspace.simple [0]) allocated (Content.strings [])))
    (hUB : s.undefinedBehaviour = false) (hNM : s.notModelled = false) :
    (OnFile.readStringDataset s datasetName dataBefore).2.undefinedBehaviour = true := by
  have h0 : ¬ s.nextId < 0 := by omega
  have h1 : 0 ≤ s.nextId + 1 := by omega
  have n01 : s.nextId + 1 ≠ s.nextId := by omega
  have n10 : s.nextId ≠ s.nextId + 1 := by omega
  simp only [OnFile.readStringDataset]
  simp [H5Dopen, H5State.alloc, H5Dget_type, H5Tis_variable_str, H5State.datasetOf, hStored, h0,
    h1, n01, n10]
  generalize hnested : OnFile.readVectorOfStringDataset _ datasetName [] = nested
  obtain ⟨r1, r2, r3, r4, r5, r6⟩ := OnFile.readVectorOfStringDataset_stored _ datasetName
    [] [] allocated nested hnested (by simp only []; omega)
    (by simpa using hStored) (by simpa using hUB) (by simpa using hNM)
  have c0 := r3 s.nextId (by simp only []; omega)
  have c1 := r3 (s.nextId + 1) (by simp only []; omega)
  simp [n01, n10] at c0 c1
  simp at r1
  simp [r1, H5Dclose, H5Tclose, H5State.release, closeStatus, c0, c1, r5, r6, n01, n10]

/-- C28 (the code differs): `writeVectorOfStringsDataset` with the empty list
creates a variable-length string dataset with zero records; on it the nested
`readVectorOfStringDataset` returns status 0 and no string, and
`readStringDataset` then evaluates `strings[0]` on the empty vector: an access
out of bounds. -/
theorem readStringDataset_zero_records_out_of_bounds :
    (OnFile.writeVectorOfStringsDataset (emptyFile Int) "VlenStrings" []).1 = 0 ∧
    (OnFile.readVectorOfStringDataset
      (OnFile.writeVectorOfStringsDataset (emptyFile Int) "VlenStrings" []).2
      "VlenStrings" []).1 = (0, []) ∧
    (OnFile.readStringDataset
      (OnFile.writeVectorOfStringsDataset (emptyFile Int) "VlenStrings" []).2
      "VlenStrings" []).2.undefinedBehaviour = true := by
  obtain ⟨w1, ⟨allocated, w2⟩, w3, w4, w5⟩ :=
    OnFile.writeVectorOfStringsDataset_stores (emptyFile Int) "VlenStrings" []
      (by decide) rfl rfl rfl
  simp only [List.map_nil, List.length_nil] at w2
  refine ⟨w1, ?_, OnFile.readStringDataset_no_record _ "VlenStrings" [] allocated w3 w2 w4 w5⟩
  exact (OnFile.readVectorOfStringDataset_stored _ "VlenStrings" [] [] allocated _ rfl w3 w2
    w4 w5).1

/-! ## Automatic error reporting: results -/

/-- `datasetExists` puts the error reporting back as it was. -/
theorem datasetExists_restores_reporting (H5Oget_info_by_name : Int) (before : Bool) :
    reportingAfter before (datasetExists H5Oget_info_by_name).2 = before := by
  simp [datasetExists, reportingAfter, replayToggles, AttrCall.toggle]

/-- `replacePointerDataset` puts the error reporting back as it was, whatever
the calls return. -/
theorem replacePointerDataset_restores_reporting (dataIsNull : Bool) (dataType : Int)
    (o : LibOutcomes) (before : Bool) :
    reportingAfterWriter before (replacePointerDataset dataIsNull dataType o).2 = before := by
  unfold replacePointerDataset
  split_ifs <;>
    simp [reportingAfterWriter, replayToggles, LibCall.toggle]
  all_goals split_ifs <;> simp [replayToggles, LibCall.toggle]

/-- `writeStringDataset` puts the error reporting back as it was on a name that
is free and on a name that holds a scalar string dataset. -/
theorem OnFile.writeStringDataset_restores_reporting {α : Type} [Inhabited α] (s : H5State α)
    (datasetName : String) (data : List Char) (hId : 0 < s.nextId)
    (hName : s.datasets datasetName = none ∨ ∃ size allocated bytes,
      s.datasets datasetName = some (Dataset.mk (StoredType.fixedString size)
        Dataspace.scalar allocated (Content.text bytes))) :
    (OnFile.writeStringDataset s datasetName data).2.errorReporting = s.errorReporting := by
  have h0 : 0 ≤ s.nextId := by omega
  have h1 : 0 ≤ s.nextId + 1 := by omega
  have h2 : ¬ s.nextId + 1 + 1 < 0 := by omega
  have h3 : 0 ≤ s.nextId + 1 + 1 := by omega
  have n01 : s.nextId + 1 ≠ s.nextId := by omega
  have n02 : s.nextId + 1 + 1 ≠ s.nextId := by omega
  have n12 : s.nextId + 1 + 1 ≠ s.nextId + 1 := by omega
  have n10 : s.nextId ≠ s.nextId + 1 := by omega
  have n20 : s.nextId ≠ s.nextId + 1 + 1 := by omega
  have n21 : s.nextId + 1 ≠ s.nextId + 1 + 1 := by omega
  simp only [OnFile.writeStringDataset]
  rcases hName with hFree | ⟨size, allocated, bytes, hStored⟩
  · cases data with
    | nil =>
      simp [H5Tcopy_C_S1, H5State.alloc, H5Tset_size, H5Tset_strpad, H5Screate_scalar,
        HDF_ERROR_HANDLER_OFF, HDF_ERROR_HANDLER_ON, H5Dopen, H5Dcreate, H5Dwrite,
        H5State.datasetOf, H5State.store, H5Dclose, H5Sclose, H5Tclose, H5State.release,
        closeStatus, Content.initial, Dataspace.count, hFree, h0, h1, h2, h3,
        n01, n02, n12, n10, n20, n21]
    | cons a l =>
      simp [H5Tcopy_C_S1, H5State.alloc, H5Tset_size, H5Tset_strpad, H5Screate_scalar,
        HDF_ERROR_HANDLER_OFF, HDF_ERROR_HANDLER_ON, H5Dopen, H5Dcreate, H5Dwrite,
        H5State.datasetOf, H5State.store, H5Dclose, H5Sclose, H5Tclose, H5State.release,
        closeStatus, Content.initial, Dataspace.count, hFree, h0, h1, h2, h3,
        n01, n02, n12, n10, n20, n21]
  · cases data with
    | nil =>
      simp [H5Tcopy_C_S1, H5State.alloc, H5Tset_size, H5Tset_strpad, H5Screate_scalar,
        HDF_ERROR_HANDLER_OFF, HDF_ERROR_HANDLER_ON, H5Dopen, H5Dwrite,
        H5State.datasetOf, H5State.store, H5Dclose, H5Sclose, H5Tclose, H5State.release,
        closeStatus, hStored, h0, h1, h2, h3, n01, n02, n12, n10, n20, n21]
    | cons a l =>
      by_cases hsize : l.length + 1 + 1 = size
      · subst hsize
        simp [H5Tcopy_C_S1, H5State.alloc, H5Tset_size, H5Tset_strpad, H5Screate_scalar,
          HDF_ERROR_HANDLER_OFF, HDF_ERROR_HANDLER_ON, H5Dopen, H5Dwrite,
          H5State.datasetOf, H5State.store, H5Dclose, H5Sclose, H5Tclose, H5State.release,
          closeStatus, hStored, h0, h1, h2, h3, n01, n02, n12, n10, n20, n21]
      · simp [H5Tcopy_C_S1, H5State.alloc, H5Tset_size, H5Tset_strpad, H5Screate_scalar,
          HDF_ERROR_HANDLER_OFF, HDF_ERROR_HANDLER_ON, H5Dopen, H5Dwrite,
          H5State.datasetOf, H5State.store, H5Dclose, H5Sclose, H5Tclose, H5State.release,
          closeStatus, hStored, h0, h1, h2, h3, n01, n02, n12, n10, n20, n21, hsize]

/-- C24 (the code differs): with the error reporting on at entry, the
`std::string` overload of `readStringAttribute` returns -1 with the reporting
off, both on an attribute that is a variable-length string and on a host object
that does not exist, and so does the `char*` overload on a host object that
does not exist: the early returns leave before `HDF_ERROR_HANDLER_ON`.  (On
the path without early return, here with an attribute that does not exist, the
reporting is back on.) -/
theorem readStringAttribute_early_return_leaves_reporting_off :
    (readStringAttribute outcomesVariableLengthAttribute []).map
      (fun r => (r.1, reportingAfter true r.2.2)) = some (-1, false) ∧
    (readStringAttribute outcomesObjectMissing []).map
      (fun r => (r.1, reportingAfter true r.2.2)) = some (-1, false) ∧
    ((readStringAttributeBuffer outcomesObjectMissing).1,
      reportingAfter true (readStringAttributeBuffer outcomesObjectMissing).2) = (-1, false) ∧
    (readStringAttribute outcomesAttributeMissing []).map
      (fun r => reportingAfter true r.2.2) = some true := by
  refine ⟨by decide, by decide, by decide, by decide⟩

/-! ## The lock taken by the operations: results -/

/-- `H5SUPPORT_MUTEX_LOCK()` never has to wait: the mutex it locks is the one it
has just constructed, whatever the other mutexes are. -/
theorem H5SUPPORT_MUTEX_LOCK_never_waits (mutexes : Mutexes) :
    H5SUPPORT_MUTEX_LOCK mutexes = some (mutexes.length, mutexes ++ [true]) := by
  simp [H5SUPPORT_MUTEX_LOCK, List.getD_eq_getElem?_getD]

/-- A thread that has not entered its operation can always enter it, whatever
the other thread is doing. -/
theorem Threads.second_can_enter (mutexes : Mutexes) (first : Progress) :
    (Threads.mk mutexes first Progress.notEntered).step true =
      some (Threads.mk (mutexes ++ [true]) first (Progress.inside mutexes.length)) := by
  simp [Threads.step, Progress.step, H5SUPPORT_MUTEX_LOCK_never_waits]

/-- C25 (the code differs): two threads that each invoke an operation of
H5Lite.  After the first thread has entered its operation, the second thread
enters its own without waiting: both are in the body of their operation at the
same time, the first holding mutex 0 and the second mutex 1, two different
objects. -/
theorem operations_not_mutually_exclusive :
    Threads.run [false, true] (Threads.mk [] Progress.notEntered Progress.notEntered) =
      some (Threads.mk [true, true] (Progress.inside 0) (Progress.inside 1)) ∧
    (Threads.mk [true, true] (Progress.inside 0) (Progress.inside 1)).bothInside = true := by
  refine ⟨?_, rfl⟩
  simp [Threads.run, Threads.step, Progress.step, H5SUPPORT_MUTEX_LOCK_never_waits]

/-! ## Identifiers open at the return of readVectorAttribute -/

/-- The type identifier that the nested `getAttributeInfo` obtains from
`H5Aget_type` is open when `readVectorAttribute` returns, whenever the host
object and the attribute are opened both times, the type identifier is valid and
different from the other identifiers in use. -/
theorem readVectorAttribute_type_left_open (dataType : Int) (o : VectorAttrOutcomes)
    (info : AttrInfoOutcomes) (typeIDBefore : Int) (openIds : List Int)
    (r : (Int × Option Nat) × List Int)
    (hr : readVectorAttribute dataType o info typeIDBefore openIds = some r)
    (hType : dataType ≠ -1) (hInfo : 0 ≤ o.H5Oget_info_by_name)
    (hObject : 0 ≤ (openId o.objectType o.H5Dopen o.H5Gopen).1)
    (hAttribute : 0 ≤ o.H5Aopen_by_name)
    (hInfo2 : 0 ≤ info.H5Oget_info_by_name)
    (hObject2 : 0 ≤ (openId info.objectType info.H5Dopen info.H5Gopen).1)
    (hAttribute2 : 0 ≤ info.H5Aopen_by_name)
    (hTypeID : 0 < info.H5Aget_type)
    (hd1 : info.H5Aget_type ≠ (openId o.objectType o.H5Dopen o.H5Gopen).1)
    (hd2 : info.H5Aget_type ≠ o.H5Aopen_by_name)
    (hd3 : info.H5Aget_type ≠ (openId info.objectType info.H5Dopen info.H5Gopen).1)
    (hd4 : info.H5Aget_type ≠ info.H5Aopen_by_name)
    (hd5 : info.H5Aget_type ≠ info.H5Aget_space) :
    info.H5Aget_type ∈ r.2 := by
  have hmem : ∀ (status id : Int) (l : List Int), info.H5Aget_type ≠ id →
      info.H5Aget_type ∈ l → info.H5Aget_type ∈ released status id l := by
    intro status id l hne hl
    unfold released
    split_ifs
    · exact (List.mem_erase_of_ne hne).2 hl
    · exact hl
  have hacq : ∀ (id : Int) (l : List Int), info.H5Aget_type ∈ l →
      info.H5Aget_type ∈ acquired id l := by
    intro id l hl
    unfold acquired
    split_ifs
    · exact List.mem_cons_of_mem _ hl
    · exact hl
  have h1 : ¬ o.H5Oget_info_by_name < 0 := by omega
  have h2 : ¬ info.H5Oget_info_by_name < 0 := by omega
  have h3 : 0 ≤ info.H5Aget_type := by omega
  have hin : info.H5Aget_type ∈ acquired info.H5Aget_type
      (acquired info.H5Aopen_by_name
        (acquired (openId info.objectType info.H5Dopen info.H5Gopen).1
          (acquired o.H5Aopen_by_name
            (acquired (openId o.objectType o.H5Dopen o.H5Gopen).1 openIds)))) := by
    simp [acquired, h3]
  simp only [readVectorAttribute, hType, if_false, h1, hObject, if_true, hAttribute,
    Option.map_map, Option.map_eq_some'] at hr
  obtain ⟨g, hg, rfl⟩ := hr
  simp only [getAttributeInfo, h2, if_false, hObject2, if_true, hAttribute2, hTypeID,
    Option.map_map, Option.map_eq_some'] at hg
  obtain ⟨t, ht, rfl⟩ := hg
  apply hmem _ _ _ hd1
  apply hmem _ _ _ hd2
  apply hmem _ _ _ hd3
  apply hmem _ _ _ hd4
  split_ifs at ht <;> simp at ht <;> (try subst ht) <;>
    first
      | exact hmem _ _ _ hd5 (hacq _ _ hin)
      | exact hacq _ _ hin

/-- C27 (the code differs): `readVectorAttribute` on a dataset with a numeric
attribute, every call succeeding and no identifier open at entry.  The function
opens the dataset as 5 and the attribute as 6; the nested `getAttributeInfo`
opens the dataset as 7, the attribute as 8, its type as 9 and its dataspace as
10.  The function returns status 0 with the identifier 9, the type handed out
by `getAttributeInfo`, still open. -/
theorem readVectorAttribute_leaves_type_open :
    readVectorAttribute 1 outcomesVectorAttribute outcomesAttributeInfo (-1) [] =
      some ((0, some 12), [9]) := by
  decide

/-! ## writeVectorOfStringsDataset on a name in use -/

/-- What `writeVectorOfStringsDataset` does on a name that is in use:
`H5Dcreate` fails, no record is written, the dataspaces and the type are closed
and the status is 0. -/
theorem OnFile.writeVectorOfStringsDataset_name_in_use {α : Type} [Inhabited α]
    (s : H5State α) (datasetName : String) (data : List (List Char)) (d : Dataset α)
    (r : Int × H5State α) (hr : OnFile.writeVectorOfStringsDataset s datasetName data = r)
    (hId : 0 < s.nextId) (hStored : s.datasets datasetName = some d) :
    r.1 = 0 ∧ r.2.datasets = s.datasets ∧ 0 < r.2.nextId ∧
    r.2.undefinedBehaviour = s.undefinedBehaviour ∧ r.2.notModelled = s.notModelled := by
  subst hr
  have h0 : 0 ≤ s.nextId := by omega
  have h1 : 0 ≤ s.nextId + 1 := by omega
  have n01 : s.nextId + 1 ≠ s.nextId := by omega
  have n02 : s.nextId + 1 + 1 ≠ s.nextId := by omega
  have n12 : s.nextId + 1 + 1 ≠ s.nextId + 1 := by omega
  have n10 : s.nextId ≠ s.nextId + 1 := by omega
  have n20 : s.nextId ≠ s.nextId + 1 + 1 := by omega
  have n21 : s.nextId + 1 ≠ s.nextId + 1 + 1 := by omega
  simp only [OnFile.writeVectorOfStringsDataset]
  simp [H5Screate_simple, H5State.alloc, H5Tcopy_C_S1, H5Tset_size, H5Dcreate, H5Tclose,
    H5Sclose, H5State.release, closeStatus, hStored, h0, h1, n01, n02, n12, n10, n20, n21]
  omega

/-- C13 (as stated, refuted): the name `"VlenStrings"` holds the list `["x"]`,
written by `writeVectorOfStringsDataset`.  A second
`writeVectorOfStringsDataset` on that name with `["a","bb","ccc"]` returns
status 0 without writing (`H5Dcreate` fails on a name in use and the failure is
not recorded), and `readVectorOfStringDataset` then returns status 0 and
`["x"]`, not the list just written. -/
theorem vectorOfStrings_write_on_name_in_use :
    (OnFile.writeVectorOfStringsDataset
      (OnFile.writeVectorOfStringsDataset (emptyFile Int) "VlenStrings" ["x".toList]).2
      "VlenStrings" ["a".toList, "bb".toList, "ccc".toList]).1 = 0 ∧
    (OnFile.readVectorOfStringDataset
      (OnFile.writeVectorOfStringsDataset
        (OnFile.writeVectorOfStringsDataset (emptyFile Int) "VlenStrings" ["x".toList]).2
        "VlenStrings" ["a".toList, "bb".toList, "ccc".toList]).2
      "VlenStrings" []).1 = (0, ["x".toList]) ∧
    ["x".toList] ≠ ["a".toList, "bb".toList, "ccc".toList] := by
  obtain ⟨_, ⟨allocated, w2⟩, w3, w4, w5⟩ :=
    OnFile.writeVectorOfStringsDataset_stores (emptyFile Int) "VlenStrings" ["x".toList]
      (by decide) rfl rfl rfl
  simp only [List.map_cons, List.map_nil, cString_append_NUL "x".toList [] (by decide)] at w2
  obtain ⟨v1, v2, v3, v4, v5⟩ := OnFile.writeVectorOfStringsDataset_name_in_use _ "VlenStrings"
    ["a".toList, "bb".toList, "ccc".toList] _ _ rfl w3 w2
  have hread := (OnFile.readVectorOfStringDataset_stored _ "VlenStrings" ["x".toList] []
    allocated _ rfl v3 (by rw [v2]; exact w2) (by rw [v4]; exact w4)
    (by rw [v5]; exact w5)).1
  refine ⟨v1, ?_, by decide⟩
  rw [hread, List.map_cons, List.map_nil, cString_of_not_mem "x".toList (by decide)]
end H5Lite
